import Mathlib

/-!
# KA_DDRAW: render-state sets, pixel conversion, execute buffers, geometry batching,
derived states and the master-copy state machine

A shallow embedding of the translation core of the DirectDraw/Direct3D emulation layer
(`src/ddraw/surface_emu.cpp`, `src/ddraw/execute_buffer_emu.cpp`,
`src/hw/dx9/dx9_hw_layer.cpp`) together with theorems about it.

Conventions.  Machine integers are natural numbers reduced explicitly: `DWORD`, `unsigned`
and `size_t` are 32 bits wide (the library is a 32-bit `ddraw.dll` replacement),
`unsigned __int64` is 64 bits wide.  A `float` stored in a render-state slot is represented
by its 32-bit pattern, which is all the code ever compares or hashes.  The functions model
the build with `assert` compiled out unless a definition says otherwise.
-/

namespace emu

/-! ## Render state set (`DirectDrawSurfaceEmu::RenderStateSet`) -/

/-- Value of `D3DRENDERSTATE_FOGTABLEDENSITY` in the Direct3D headers. -/
def D3DRENDERSTATE_FOGTABLEDENSITY : Nat := 38

/-- The enumerator `RenderStateSet::RENDER_STATE_COUNT`. -/
def RENDER_STATE_COUNT : Nat := D3DRENDERSTATE_FOGTABLEDENSITY + 1

/-- Number of values of a 32-bit word (`DWORD`, `unsigned`, `size_t`). -/
def WORD32 : Nat := 2 ^ 32

/-- Number of values of `unsigned __int64`. -/
def WORD64 : Nat := 2 ^ 64

/-- The struct `RenderStateSet`: the slot array `states` (each slot a 32-bit pattern),
the running `hash` and the `sequence_number`. -/
structure RenderStateSet where
  states : List Nat
  hash : Nat
  sequence_number : Nat
deriving DecidableEq, Repr

namespace RenderStateSet

/-- The constructor `RenderStateSet::RenderStateSet()`: hash 0, sequence number 0 and the
slot array cleared by `memset`. -/
def new : RenderStateSet :=
  { states := List.replicate RENDER_STATE_COUNT 0, hash := 0, sequence_number := 0 }

/-- The method `set_rs_dw(type, new_value)`: returns whether there was a change together
with the updated set.  The source asserts `type < RENDER_STATE_COUNT`; the slot access is
only meaningful under that precondition. -/
def set_rs_dw (s : RenderStateSet) (type new_value : Nat) : Bool × RenderStateSet :=
  let old_value := s.states.getD type 0
  if old_value = new_value then
    (false, s)
  else
    let hash1 := (s.hash + WORD64 - (type * old_value) % WORD64) % WORD64
    let hash2 := (hash1 + (type * new_value) % WORD64) % WORD64
    (true, { states := s.states.set type new_value,
             hash := hash2,
             sequence_number := (s.sequence_number + 1) % WORD32 })

/-- The method `set_rs_float(type, value)`: the float is written into the union and its bit
pattern is handed to `set_rs_dw`; `bits` is that pattern. -/
def set_rs_float (s : RenderStateSet) (type bits : Nat) : Bool × RenderStateSet :=
  set_rs_dw s type bits

/-- The method `get_rs_dw(type)`. -/
def get_rs_dw (s : RenderStateSet) (type : Nat) : Nat :=
  s.states.getD type 0

/-- The method `compare_states(other)`: `memcmp` over the two slot arrays. -/
def compare_states (s other : RenderStateSet) : Bool :=
  decide (s.states = other.states)

/-- The method `equals(other)`: a hash mismatch answers `false`, otherwise the content is
compared. -/
def equals (s other : RenderStateSet) : Bool :=
  if s.hash ≠ other.hash then false else compare_states s other

/-- The method `equals_with_sequence(other)`: the same sequence number answers `true`,
otherwise the full check is made. -/
def equals_with_sequence (s other : RenderStateSet) : Bool :=
  if s.sequence_number = other.sequence_number then true else equals s other

end RenderStateSet

/-- One mutating call on a render-state set. -/
inductive SetCall where
  | dw (type value : Nat)
  | float (type bits : Nat)
deriving DecidableEq, Repr

namespace SetCall

/-- Slot identifier passed by the call. -/
def type : SetCall → Nat
  | dw t _ => t
  | float t _ => t

/-- The 32-bit pattern passed by the call. -/
def value : SetCall → Nat
  | dw _ v => v
  | float _ v => v

/-- The call is within the domain of the slot array and passes a 32-bit pattern. -/
def InRange (c : SetCall) : Prop :=
  c.type < RENDER_STATE_COUNT ∧ c.value < WORD32

instance (c : SetCall) : Decidable c.InRange := by
  unfold InRange; infer_instance

/-- Performs the call on a set. -/
def apply (c : SetCall) (s : RenderStateSet) : Bool × RenderStateSet :=
  match c with
  | dw t v => s.set_rs_dw t v
  | float t v => s.set_rs_float t v

end SetCall

/-- Performs the calls in order; the second component counts the calls that returned
`true`. -/
def applyCalls (s : RenderStateSet) : List SetCall → RenderStateSet × Nat
  | [] => (s, 0)
  | c :: cs =>
    let r := c.apply s
    let rest := applyCalls r.2 cs
    (rest.1, (if r.1 then 1 else 0) + rest.2)

/-- Sum of `identifier × value` over the slots of `xs`, the first slot having
identifier `k`. -/
def weightedSum (k : Nat) : List Nat → Nat
  | [] => 0
  | x :: xs => k * x + weightedSum (k + 1) xs

/-- What every set built by the public interface satisfies: a full slot array of 32-bit
patterns, the hash equal to the reduced slot sum, a 32-bit sequence number. -/
structure RenderStateSet.Valid (s : RenderStateSet) : Prop where
  length_eq : s.states.length = RENDER_STATE_COUNT
  slot_lt : ∀ x ∈ s.states, x < WORD32
  hash_eq : s.hash = weightedSum 0 s.states % WORD64
  seq_lt : s.sequence_number < WORD32

instance (s : RenderStateSet) : Decidable s.Valid :=
  decidable_of_iff
    (s.states.length = RENDER_STATE_COUNT ∧ (∀ x ∈ s.states, x < WORD32) ∧
      s.hash = weightedSum 0 s.states % WORD64 ∧ s.sequence_number < WORD32)
    ⟨fun h => ⟨h.1, h.2.1, h.2.2.1, h.2.2.2⟩, fun h => ⟨h.1, h.2, h.3, h.4⟩⟩

/-- The set reached from a freshly constructed one by the given calls. -/
def RenderStateSet.ofCalls (cs : List SetCall) : RenderStateSet :=
  (applyCalls RenderStateSet.new cs).1

/-! ## Pixel conversion (`read8888_as_565` and relatives in `dx9_hw_layer.cpp`)

The per-texel bodies of the conversion loops.  A 32-bit texel is an `unsigned int`, a 16-bit
texel an `unsigned short`; the shifts of the 16-bit source are computed in 32 bits. -/

/-- The texel conversion in the inner loop of `read8888_as_565`; the result is cast to
`unsigned short`. -/
def texel8888_as_565 (color : Nat) : Nat :=
  let masked_red_5 := (color >>> (5 + 3)) &&& 0x0000F800
  let masked_green_6 := (color >>> (3 + 2)) &&& 0x000007E0
  let masked_blue_5 := (color >>> (0 + 3)) &&& 0x0000001F
  (masked_red_5 ||| masked_green_6 ||| masked_blue_5) % 2 ^ 16

/-- The texel conversion in the inner loop of `read8888_as_4444`; the result is cast to
`unsigned short`. -/
def texel8888_as_4444 (color : Nat) : Nat :=
  let masked_red_4 := (color >>> (8 + 4)) &&& 0x00000F00
  let masked_green_4 := (color >>> (4 + 4)) &&& 0x000000F0
  let masked_blue_4 := (color >>> (0 + 4)) &&& 0x0000000F
  let masked_alpha_4 := (color >>> (12 + 4)) &&& 0x0000F000
  (masked_red_4 ||| masked_green_4 ||| masked_blue_4 ||| masked_alpha_4) % 2 ^ 16

/-- The texel conversion in the inner loop of `read565_as_8888`; `color` is an
`unsigned short`. -/
def texel565_as_8888 (color : Nat) : Nat :=
  let masked_red := ((color &&& 0x0000F800) <<< (5 + 3)) % 2 ^ 32
  let masked_green := ((color &&& 0x000007E0) <<< (3 + 2)) % 2 ^ 32
  let masked_blue := ((color &&& 0x0000001F) <<< (0 + 3)) % 2 ^ 32
  let replicated_red := (masked_red ||| (masked_red >>> 5)) &&& 0x00ff0000
  let replicated_green := (masked_green ||| (masked_green >>> 6)) &&& 0x0000ff00
  let replicated_blue := (masked_blue ||| (masked_blue >>> 5)) &&& 0x000000ff
  0xff000000 ||| replicated_red ||| replicated_green ||| replicated_blue

/-- The texel conversion in the inner loop of `read4444_as_8888`; `color` is an
`unsigned short`. -/
def texel4444_as_8888 (color : Nat) : Nat :=
  let masked_red := ((color &&& 0x00000F00) <<< (8 + 4)) % 2 ^ 32
  let masked_green := ((color &&& 0x000000F0) <<< (4 + 4)) % 2 ^ 32
  let masked_blue := ((color &&& 0x0000000F) <<< (0 + 4)) % 2 ^ 32
  let masked_alpha := ((color &&& 0x0000F000) <<< (12 + 4)) % 2 ^ 32
  let replicated_red := masked_red ||| (masked_red >>> 4)
  let replicated_green := masked_green ||| (masked_green >>> 4)
  let replicated_blue := masked_blue ||| (masked_blue >>> 4)
  let replicated_alpha := masked_alpha ||| (masked_alpha >>> 4)
  replicated_alpha ||| replicated_red ||| replicated_green ||| replicated_blue

/-- The loop nest shared by the four `read*_as_*` routines: for every `y < height` and
`x < width` the texel `x` of source line `y` is converted into texel `x` of destination
line `y`.  A surface is given by its lines; the pitches only separate the lines. -/
def convert_lines (texel : Nat → Nat) (source : List (List Nat)) (width height : Nat) :
    List (List Nat) :=
  (List.range height).map fun y =>
    (List.range width).map fun x => texel ((source.getD y []).getD x 0)

/-- The routine `read8888_as_565` on a source of `height` lines of `width` texels. -/
def read8888_as_565 (source : List (List Nat)) (width height : Nat) : List (List Nat) :=
  convert_lines texel8888_as_565 source width height

/-- The routine `read565_as_8888`. -/
def read565_as_8888 (source : List (List Nat)) (width height : Nat) : List (List Nat) :=
  convert_lines texel565_as_8888 source width height

/-- The routine `read8888_as_4444`. -/
def read8888_as_4444 (source : List (List Nat)) (width height : Nat) : List (List Nat) :=
  convert_lines texel8888_as_4444 source width height

/-- The routine `read4444_as_8888`. -/
def read4444_as_8888 (source : List (List Nat)) (width height : Nat) : List (List Nat) :=
  convert_lines texel4444_as_8888 source width height

/-- An image of `height` lines of `width` 16-bit texels. -/
def IsImage16 (image : List (List Nat)) (width height : Nat) : Prop :=
  image.length = height ∧ ∀ line ∈ image, line.length = width ∧ ∀ c ∈ line, c < 65536

instance (image : List (List Nat)) (width height : Nat) :
    Decidable (IsImage16 image width height) := by
  unfold IsImage16; infer_instance

/-! ## Geometry batch (`DirectDrawSurfaceEmu::GeometryInfo`) -/

/-- Value of `D3DRENDERSTATE_SHADEMODE` in the Direct3D headers. -/
def D3DRENDERSTATE_SHADEMODE : Nat := 9

/-- Value of `D3DSHADE_FLAT` in the Direct3D headers. -/
def D3DSHADE_FLAT : Nat := 1

/-- The constant `GLOW_HACK_SHADING_MODE_BASE` of `ddraw_emu.h`. -/
def GLOW_HACK_SHADING_MODE_BASE : Nat := 0x12

/-- The constant `GLOW_HACK_SHADING_MODE_OVERLAY` of `ddraw_emu.h`. -/
def GLOW_HACK_SHADING_MODE_OVERLAY : Nat := 0x11

/-- The enum `GeometryMode`. -/
inductive GeometryMode where
  | GEOMETRY_MODE_POINTS
  | GEOMETRY_MODE_LINES
  | GEOMETRY_MODE_TRIANGLES
deriving DecidableEq, Repr

/-- Calls received by the hardware layer during geometry processing.  The state-setting
calls made by `RenderStateSet::apply_render_states` are recorded as one entry carrying the
applied set; `synchronize_hw` stands for the upload of the back buffer made at the start of
a flush. -/
inductive HWCall where
  | synchronize_hw
  | apply_render_states (set : RenderStateSet)
  | set_alpha_blend_add
  | set_triangle_vertices (count : Nat)
  | draw_triangles (vertex_start vertex_count : Nat) (indices : List Nat) (triangle_count : Nat)
  | draw_lines (vertex_start vertex_count : Nat) (indices : List Nat) (line_count : Nat)
  | draw_points (vertex_start vertex_count : Nat) (indices : List Nat) (point_count : Nat)
deriving DecidableEq, Repr

/-- The call draws primitives. -/
def HWCall.is_draw : HWCall → Bool
  | HWCall.draw_triangles _ _ _ _ => true
  | HWCall.draw_lines _ _ _ _ => true
  | HWCall.draw_points _ _ _ _ => true
  | _ => false

/-- The draw calls of a log, in order. -/
def draw_calls (log : List HWCall) : List HWCall :=
  log.filter HWCall.is_draw

/-- The struct `GeometryInfo`; `min_vertex` and `max_vertex` are `size_t`, the indices are
`unsigned short`. -/
structure GeometryInfo where
  geometry_mode : GeometryMode
  indices : List Nat
  min_vertex : Nat
  max_vertex : Nat
  state_set : RenderStateSet
deriving DecidableEq, Repr

namespace GeometryInfo

/-- The constructor `GeometryInfo::GeometryInfo()`. -/
def new : GeometryInfo :=
  { geometry_mode := GeometryMode.GEOMETRY_MODE_TRIANGLES,
    indices := [],
    min_vertex := WORD32 - 1,
    max_vertex := 0,
    state_set := RenderStateSet.new }

/-- The method `reset()`: clears everything except the state set. -/
def reset (g : GeometryInfo) : GeometryInfo :=
  { g with geometry_mode := GeometryMode.GEOMETRY_MODE_TRIANGLES,
           indices := [],
           min_vertex := WORD32 - 1,
           max_vertex := 0 }

/-- The method `is_empty()`. -/
def is_empty (g : GeometryInfo) : Bool :=
  decide (g.indices.length = 0)

/-- The method `get_mode()`. -/
def get_mode (g : GeometryInfo) : GeometryMode :=
  g.geometry_mode

/-- The method `set_mode(mode)`. -/
def set_mode (g : GeometryInfo) (mode : GeometryMode) : GeometryInfo :=
  { g with geometry_mode := mode }

/-- The method `set_state_set(set)`. -/
def set_state_set (g : GeometryInfo) (set : RenderStateSet) : GeometryInfo :=
  { g with state_set := set }

/-- The method `is_state_set_unchanged(set)`. -/
def is_state_set_unchanged (g : GeometryInfo) (set : RenderStateSet) : Bool :=
  g.state_set.equals_with_sequence set

/-- The method `get_shade_mode_render_state()`. -/
def get_shade_mode_render_state (g : GeometryInfo) : Nat :=
  g.state_set.get_rs_dw D3DRENDERSTATE_SHADEMODE

/-- The method `add_triangle(v0, v1, v2)`. -/
def add_triangle (g : GeometryInfo) (v0 v1 v2 : Nat) : GeometryInfo :=
  { g with indices := g.indices ++ [v0, v1, v2],
           min_vertex := min (min (min g.min_vertex v0) v1) v2,
           max_vertex := max (max (max g.max_vertex v0) v1) v2 }

/-- The method `add_line(v0, v1)`. -/
def add_line (g : GeometryInfo) (v0 v1 : Nat) : GeometryInfo :=
  { g with indices := g.indices ++ [v0, v1],
           min_vertex := min (min g.min_vertex v0) v1,
           max_vertex := max (max g.max_vertex v0) v1 }

/-- The method `add_points(first, count)`: the stored indices are cast to
`unsigned short`, the window is kept in `size_t`. -/
def add_points (g : GeometryInfo) (first count : Nat) : GeometryInfo :=
  if count = 0 then g
  else
    { g with indices := g.indices ++ (List.range count).map fun i => ((first + i) % WORD32) % 2 ^ 16,
             min_vertex := min g.min_vertex first,
             max_vertex := max g.max_vertex ((first + count + WORD32 - 1) % WORD32) }

/-- The expression `(max_vertex - min_vertex) + 1` of `draw_geometry`, in `size_t`
arithmetic: the vertex count handed to the draw call. -/
def vertex_count (g : GeometryInfo) : Nat :=
  ((g.max_vertex + WORD32 - g.min_vertex) % WORD32 + 1) % WORD32

/-- The method `draw_geometry(hw_layer, vertices)`: the calls made on the hardware layer
are appended to `log`. -/
def draw_geometry (g : GeometryInfo) (log : List HWCall) : GeometryInfo × List HWCall :=
  if g.is_empty then (g, log)
  else
    let call :=
      match g.geometry_mode with
      | GeometryMode.GEOMETRY_MODE_TRIANGLES =>
        HWCall.draw_triangles g.min_vertex g.vertex_count g.indices (g.indices.length / 3)
      | GeometryMode.GEOMETRY_MODE_LINES =>
        HWCall.draw_lines g.min_vertex g.vertex_count g.indices (g.indices.length / 2)
      | GeometryMode.GEOMETRY_MODE_POINTS =>
        HWCall.draw_points g.min_vertex g.vertex_count g.indices g.indices.length
    (g.reset, log ++ [call])

end GeometryInfo

/-! ## Geometry processing of the surface (`DirectDrawSurfaceEmu`) -/

/-- The enum `EmulationInfo::EmulationState`. -/
inductive EmulationState where
  | EMULATION_STATE_WAITING_FOR_TIME
  | EMULATION_STATE_3D_SCENE
  | EMULATION_STATE_3D_SCENE_POINT_GEOMETRY_DRAWN
  | EMULATION_STATE_3D_SCENE_TRIANGLE_GEOMETRY_DRAWN
  | EMULATION_STATE_3D_FLIP
  | EMULATION_STATE_WAITING_FOR_3D_SCENE
deriving DecidableEq, Repr

/-- The enum `Master` of the surface. -/
inductive Master where
  | MASTER_NONE
  | MASTER_MEMORY
  | MASTER_HW
  | MASTER_SYNCHRONIZED
  | MASTER_COMPOSITION
  | MASTER_COMPOSITION_NONKEY
deriving DecidableEq, Repr

/-- The part of `DirectDrawSurfaceEmu` that geometry processing reads and writes.
`vertices_size` is `vertices.size()` (vertex contents are not modelled), `inside_sfad3d` is
the process-wide answer of `is_inside_sfad3d()`, `emulation_state` is the field of the
`EmulationInfo` reached through `get_emulation_info()`, and `hw_log` lists the calls made
on the hardware layer so far.  The surface is assumed to be the back buffer of its group,
as the source asserts. -/
structure Surface where
  active_render_states : RenderStateSet
  vertices_size : Nat
  queued_geometry : GeometryInfo
  queued_overlay_geometry : GeometryInfo
  emulation_state : EmulationState
  master : Master
  inside_sfad3d : Bool
  hw_log : List HWCall
deriving DecidableEq, Repr

namespace Surface

/-- The method `set_render_state(state)` with `type = state.drstRenderStateType` and
`arg = state.dwArg[0]`.  `type` is the (non-negative) value of the enum.  The source compares
the enum as a signed value, so a `type` of `2 ^ 31` or more passes its guard and is written
outside the array of states; such types lie outside this model, which drops them. -/
def set_render_state (s : Surface) (type arg : Nat) : Surface :=
  if type ≥ RENDER_STATE_COUNT then s
  else { s with active_render_states := (s.active_render_states.set_rs_dw type arg).2 }

/-- The method `begin_geometry(count)`. -/
def begin_geometry (s : Surface) (count : Nat) : Surface :=
  { s with queued_geometry := s.queued_geometry.reset,
           queued_overlay_geometry := s.queued_overlay_geometry.reset,
           vertices_size := count }

/-- The method `set_vertices(start, new_vertices, count)`; the result says whether the
range was accepted.  Only the range check and the upload call are modelled: the copy of the
`count` vertices out of `new_vertices` is not, and neither is the assertion
`count == vertices.size()`. -/
def set_vertices (s : Surface) (start count : Nat) : Bool × Surface :=
  if count = 0 then (true, s)
  else if (start + count) % WORD32 > s.vertices_size then (false, s)
  else (true, { s with hw_log := s.hw_log ++ [HWCall.set_triangle_vertices count] })

/-- The method `flush_geometry()`. -/
def flush_geometry (s : Surface) : Surface :=
  if s.queued_geometry.is_empty then s
  else
    let log1 := s.hw_log ++ [HWCall.synchronize_hw,
                             HWCall.apply_render_states s.queued_geometry.state_set]
    let scene_open : Bool :=
      decide (s.emulation_state = EmulationState.EMULATION_STATE_3D_SCENE) ||
      decide (s.emulation_state = EmulationState.EMULATION_STATE_3D_SCENE_POINT_GEOMETRY_DRAWN)
    let triangles : Bool :=
      decide (s.queued_geometry.get_mode = GeometryMode.GEOMETRY_MODE_TRIANGLES) &&
      !s.inside_sfad3d
    let log2 := if triangles && scene_open then log1 ++ [HWCall.set_alpha_blend_add] else log1
    let emulation_state2 :=
      if triangles then
        if scene_open then EmulationState.EMULATION_STATE_3D_SCENE_TRIANGLE_GEOMETRY_DRAWN
        else s.emulation_state
      else
        if s.emulation_state = EmulationState.EMULATION_STATE_3D_SCENE then
          EmulationState.EMULATION_STATE_3D_SCENE_POINT_GEOMETRY_DRAWN
        else s.emulation_state
    let drawn := s.queued_geometry.draw_geometry log2
    if s.queued_overlay_geometry.is_empty then
      { s with queued_geometry := drawn.1,
               emulation_state := emulation_state2,
               master := Master.MASTER_HW,
               hw_log := drawn.2 }
    else
      let log3 := drawn.2 ++ [HWCall.apply_render_states s.queued_overlay_geometry.state_set]
      let overlay := s.queued_overlay_geometry.draw_geometry log3
      { s with queued_geometry := drawn.1,
               queued_overlay_geometry := overlay.1,
               emulation_state := emulation_state2,
               master := Master.MASTER_HW,
               hw_log := overlay.2 }

/-- The method `end_geometry()`. -/
def end_geometry (s : Surface) : Surface :=
  { s.flush_geometry with vertices_size := 0 }

/-- The method `add_triangle(v0, v1, v2)`. -/
def add_triangle (s : Surface) (v0 v1 v2 : Nat) : Surface :=
  -- If the overlay mode is active without correct underlying geometry, deactivate it.
  let s1 :=
    if s.active_render_states.get_rs_dw D3DRENDERSTATE_SHADEMODE = GLOW_HACK_SHADING_MODE_OVERLAY
        ∧ (s.queued_geometry.is_empty = true
            ∨ s.queued_geometry.get_shade_mode_render_state ≠ GLOW_HACK_SHADING_MODE_BASE) then
      { s with active_render_states :=
          (s.active_render_states.set_rs_dw D3DRENDERSTATE_SHADEMODE D3DSHADE_FLAT).2 }
    else s
  -- Select geometry object to use.
  let overlay : Bool :=
    decide (s1.active_render_states.get_rs_dw D3DRENDERSTATE_SHADEMODE
      = GLOW_HACK_SHADING_MODE_OVERLAY)
  let target (x : Surface) : GeometryInfo :=
    if overlay then x.queued_overlay_geometry else x.queued_geometry
  -- Flush the geometry buffers if the mode does not match.
  let s2 :=
    if (target s1).get_mode ≠ GeometryMode.GEOMETRY_MODE_TRIANGLES then s1.flush_geometry else s1
  -- Or if the state configuration changed since last time.
  let s3 :=
    if (target s2).is_empty = false
        ∧ (target s2).is_state_set_unchanged s2.active_render_states = false then
      s2.flush_geometry
    else s2
  -- Starting a new batch sets the mode and the state used for the final drawing.
  let batch :=
    if (target s3).is_empty then
      ((target s3).set_mode GeometryMode.GEOMETRY_MODE_TRIANGLES).set_state_set
        s3.active_render_states
    else target s3
  -- Queue the triangle.
  if overlay then { s3 with queued_overlay_geometry := batch.add_triangle v0 v1 v2 }
  else { s3 with queued_geometry := batch.add_triangle v0 v1 v2 }

/-- The method `add_line(first, second)`. -/
def add_line (s : Surface) (first second : Nat) : Surface :=
  let s1 := if s.queued_overlay_geometry.is_empty = false then s.flush_geometry else s
  let s2 :=
    if s1.queued_geometry.get_mode ≠ GeometryMode.GEOMETRY_MODE_LINES then s1.flush_geometry
    else s1
  let s3 :=
    if s2.queued_geometry.is_empty = false
        ∧ s2.queued_geometry.is_state_set_unchanged s2.active_render_states = false then
      s2.flush_geometry
    else s2
  let batch :=
    if s3.queued_geometry.is_empty then
      (s3.queued_geometry.set_mode GeometryMode.GEOMETRY_MODE_LINES).set_state_set
        s3.active_render_states
    else s3.queued_geometry
  { s3 with queued_geometry := batch.add_line (first % 2 ^ 16) (second % 2 ^ 16) }

/-- The method `add_points(first, count)`. -/
def add_points (s : Surface) (first count : Nat) : Surface :=
  if count = 0 then s
  else
    let s1 := if s.queued_overlay_geometry.is_empty = false then s.flush_geometry else s
    let s2 :=
      if s1.queued_geometry.get_mode ≠ GeometryMode.GEOMETRY_MODE_POINTS then s1.flush_geometry
      else s1
    let s3 :=
      if s2.queued_geometry.is_empty = false
          ∧ s2.queued_geometry.is_state_set_unchanged s2.active_render_states = false then
        s2.flush_geometry
      else s2
    let batch :=
      if s3.queued_geometry.is_empty then
        (s3.queued_geometry.set_mode GeometryMode.GEOMETRY_MODE_POINTS).set_state_set
          s3.active_render_states
      else s3.queued_geometry
    { s3 with queued_geometry := batch.add_points first count }

end Surface

/-- The active state after the overlay check that `add_triangle` makes on a surface whose
primary batch is empty: the overlay sentinel is replaced by flat shading. -/
def active_after_overlay_check (s : Surface) : RenderStateSet :=
  if s.active_render_states.get_rs_dw D3DRENDERSTATE_SHADEMODE = GLOW_HACK_SHADING_MODE_OVERLAY
  then (s.active_render_states.set_rs_dw D3DRENDERSTATE_SHADEMODE D3DSHADE_FLAT).2
  else s.active_render_states

/-- A surface with freshly constructed members (`RenderStateSet()`, `GeometryInfo()`, an
empty vertex array, `MASTER_NONE`) and `is_inside_sfad3d()` false; the concrete target of
the evaluations below. -/
def Surface.blank : Surface :=
  { active_render_states := RenderStateSet.new,
    vertices_size := 0,
    queued_geometry := GeometryInfo.new,
    queued_overlay_geometry := GeometryInfo.new,
    emulation_state := EmulationState.EMULATION_STATE_WAITING_FOR_TIME,
    master := Master.MASTER_NONE,
    inside_sfad3d := false,
    hw_log := [] }

/-! ## Execute buffer interpreter (`Direct3DExecuteBufferEmu`) -/

/-- Opcode values of `D3DOPCODE` in the Direct3D headers. -/
def D3DOP_POINT : Nat := 1
def D3DOP_LINE : Nat := 2
def D3DOP_TRIANGLE : Nat := 3
def D3DOP_MATRIXLOAD : Nat := 4
def D3DOP_MATRIXMULTIPLY : Nat := 5
def D3DOP_STATETRANSFORM : Nat := 6
def D3DOP_STATELIGHT : Nat := 7
def D3DOP_STATERENDER : Nat := 8
def D3DOP_PROCESSVERTICES : Nat := 9
def D3DOP_TEXTURELOAD : Nat := 10
def D3DOP_EXIT : Nat := 11
def D3DOP_BRANCHFORWARD : Nat := 12
def D3DOP_SPAN : Nat := 13
def D3DOP_SETSTATUS : Nat := 14

/-- Flag values of `D3DPROCESSVERTICES::dwFlags` in the Direct3D headers. -/
def D3DPROCESSVERTICES_TRANSFORMLIGHT : Nat := 0
def D3DPROCESSVERTICES_TRANSFORM : Nat := 1
def D3DPROCESSVERTICES_COPY : Nat := 2
def D3DPROCESSVERTICES_OPMASK : Nat := 7
def D3DPROCESSVERTICES_UPDATEEXTENTS : Nat := 8
def D3DPROCESSVERTICES_NOCOLOR : Nat := 16

/-- Sizes in bytes of the Direct3D structures read from the buffer. -/
def SIZEOF_D3DINSTRUCTION : Nat := 4
def SIZEOF_D3DPOINT : Nat := 4
def SIZEOF_D3DLINE : Nat := 4
def SIZEOF_D3DTRIANGLE : Nat := 8
def SIZEOF_D3DSTATE : Nat := 8
def SIZEOF_D3DPROCESSVERTICES : Nat := 16

/-- Reads the byte at `offset`; `none` when the address lies outside the buffer. -/
def read_u8 (memory : List Nat) (offset : Nat) : Option Nat :=
  memory.get? offset

/-- Reads a little-endian `WORD`. -/
def read_u16 (memory : List Nat) (offset : Nat) : Option Nat :=
  match read_u8 memory offset, read_u8 memory (offset + 1) with
  | some b0, some b1 => some (b0 + 256 * b1)
  | _, _ => none

/-- Reads a little-endian `DWORD`. -/
def read_u32 (memory : List Nat) (offset : Nat) : Option Nat :=
  match read_u16 memory offset, read_u16 memory (offset + 2) with
  | some w0, some w1 => some (w0 + 65536 * w1)
  | _, _ => none

/-- The struct `D3DINSTRUCTION`. -/
structure D3DINSTRUCTION where
  bOpcode : Nat
  bSize : Nat
  wCount : Nat
deriving DecidableEq, Repr

/-- Fetches a `D3DINSTRUCTION` from the buffer. -/
def read_instruction (memory : List Nat) (offset : Nat) : Option D3DINSTRUCTION :=
  match read_u8 memory offset, read_u8 memory (offset + 1), read_u16 memory (offset + 2) with
  | some op, some size, some count => some { bOpcode := op, bSize := size, wCount := count }
  | _, _, _ => none

/-- The fields of `D3DEXECUTEDATA` used by the interpreter. -/
structure D3DEXECUTEDATA where
  dwVertexOffset : Nat
  dwVertexCount : Nat
  dwInstructionOffset : Nat
  dwInstructionLength : Nat
deriving DecidableEq, Repr

/-- Calls made by the interpreter on the target surface. -/
inductive DeviceCall where
  | begin_geometry (count : Nat)
  | set_vertices (start count : Nat)
  | add_points (first count : Nat)
  | add_line (v1 v2 : Nat)
  | add_triangle (v1 v2 v3 : Nat)
  | set_render_state (type arg : Nat)
  | end_geometry
deriving DecidableEq, Repr

/-- How an interpretation ended: normally, at a failed `assert` (only in a build with
assertions), at a read outside the buffer memory, or because the model ran out of fuel. -/
inductive Outcome where
  | finished
  | assert_failed
  | out_of_bounds
  | out_of_fuel
deriving DecidableEq, Repr

/-- State of an interpretation: the target surface and the calls made on it so far. -/
structure Run where
  device : Surface
  calls : List DeviceCall
deriving DecidableEq, Repr

/-- `execute_operation` for `D3DSTATE`. -/
def execute_operation_state (memory : List Nat) (address : Nat) (r : Run) : Option (Bool × Run) :=
  match read_u32 memory address, read_u32 memory (address + 4) with
  | some type, some arg =>
    some (true, { device := r.device.set_render_state type arg,
                  calls := r.calls ++ [DeviceCall.set_render_state type arg] })
  | _, _ => none

/-- `execute_operation` for `D3DPOINT` (`wCount` precedes `wFirst` in the structure). -/
def execute_operation_point (memory : List Nat) (address : Nat) (r : Run) : Option (Bool × Run) :=
  match read_u16 memory address, read_u16 memory (address + 2) with
  | some wCount, some wFirst =>
    some (true, { device := r.device.add_points wFirst wCount,
                  calls := r.calls ++ [DeviceCall.add_points wFirst wCount] })
  | _, _ => none

/-- `execute_operation` for `D3DLINE`. -/
def execute_operation_line (memory : List Nat) (address : Nat) (r : Run) : Option (Bool × Run) :=
  match read_u16 memory address, read_u16 memory (address + 2) with
  | some v1, some v2 =>
    some (true, { device := r.device.add_line v1 v2,
                  calls := r.calls ++ [DeviceCall.add_line v1 v2] })
  | _, _ => none

/-- `execute_operation` for `D3DTRIANGLE` (`v1`, `v2`, `v3`, `wFlags`). -/
def execute_operation_triangle (memory : List Nat) (address : Nat) (r : Run) :
    Option (Bool × Run) :=
  match read_u16 memory address, read_u16 memory (address + 2), read_u16 memory (address + 4),
      read_u16 memory (address + 6) with
  | some v1, some v2, some v3, some _ =>
    some (true, { device := r.device.add_triangle v1 v2 v3,
                  calls := r.calls ++ [DeviceCall.add_triangle v1 v2 v3] })
  | _, _, _, _ => none

/-- `execute_operation` for `D3DPROCESSVERTICES` (`dwFlags`, `wStart`, `wDest`, `dwCount`,
`dwReserved`). -/
def execute_operation_processvertices (memory : List Nat) (address : Nat) (r : Run) :
    Option (Bool × Run) :=
  match read_u32 memory address, read_u16 memory (address + 4), read_u16 memory (address + 6),
      read_u32 memory (address + 8), read_u32 memory (address + 12) with
  | some dwFlags, some wStart, some wDest, some dwCount, some _ =>
    let op := dwFlags &&& D3DPROCESSVERTICES_OPMASK
    if op ≠ D3DPROCESSVERTICES_COPY then some (false, r)
    else if dwFlags &&& D3DPROCESSVERTICES_NOCOLOR ≠ 0 then some (false, r)
    else if dwFlags &&& D3DPROCESSVERTICES_UPDATEEXTENTS ≠ 0 then some (false, r)
    else if wStart ≠ 0 then some (false, r)
    else if wDest ≠ 0 then some (false, r)
    else
      let res := r.device.set_vertices wDest dwCount
      some (res.1, { device := res.2,
                     calls := r.calls ++ [DeviceCall.set_vertices wDest dwCount] })
  | _, _, _, _, _ => none

/-- The template `execute_block<Type>`: `operation` is the overload of `execute_operation`
for `Type`, `size` is `sizeof(Type)`; runs the elements `index`, `index + 1`, … of the
block, `count` of them, and stops at the first element reporting failure. -/
def execute_block (operation : List Nat → Nat → Run → Option (Bool × Run)) (size : Nat)
    (memory : List Nat) (start_offset : Nat) : (count index : Nat) → Run → Option (Bool × Run)
  | 0, _, r => some (true, r)
  | count + 1, index, r =>
    match operation memory (start_offset + index * size) r with
    | none => none
    | some (false, r1) => some (false, r1)
    | some (true, r1) => execute_block operation size memory start_offset count (index + 1) r1

/-- The `switch` of the interpreter loop for the opcodes declared with `OPERATION`: the
element size and the overload of `execute_operation`; `none` for every other opcode. -/
def operation_of_opcode (opcode : Nat) :
    Option (Nat × (List Nat → Nat → Run → Option (Bool × Run))) :=
  if opcode = D3DOP_POINT then some (SIZEOF_D3DPOINT, execute_operation_point)
  else if opcode = D3DOP_LINE then some (SIZEOF_D3DLINE, execute_operation_line)
  else if opcode = D3DOP_TRIANGLE then some (SIZEOF_D3DTRIANGLE, execute_operation_triangle)
  else if opcode = D3DOP_STATERENDER then some (SIZEOF_D3DSTATE, execute_operation_state)
  else if opcode = D3DOP_PROCESSVERTICES then
    some (SIZEOF_D3DPROCESSVERTICES, execute_operation_processvertices)
  else none

/-- The `while (length > 0)` loop of `execute`.  `asserts` tells whether the `assert`s
written in `execute` itself are compiled in (a failed one ends the process at that point;
the assertions inside the surface are not part of this flag); `offset` and `length` are the
loop variables (`length` is a `size_t`, reduced modulo `2 ^ 32`; an `offset` beyond the
buffer makes the next read fail); each iteration consumes one unit of `fuel`. -/
def execute_loop (asserts : Bool) (memory : List Nat) :
    (fuel offset length : Nat) → Run → Outcome × Run
  | 0, _, _, r => (Outcome.out_of_fuel, r)
  | fuel + 1, offset, length, r =>
    if length = 0 then (Outcome.finished, r)
    else if asserts ∧ length < SIZEOF_D3DINSTRUCTION then (Outcome.assert_failed, r)
    else
      match read_instruction memory offset with
      | none => (Outcome.out_of_bounds, r)
      | some instruction =>
        let offset1 := offset + SIZEOF_D3DINSTRUCTION
        let length1 := (length + WORD32 - SIZEOF_D3DINSTRUCTION) % WORD32
        let data_length := instruction.bSize * instruction.wCount
        if asserts ∧ data_length > length1 then (Outcome.assert_failed, r)
        else
          match operation_of_opcode instruction.bOpcode with
          | some (size, operation) =>
            if asserts ∧ size ≠ instruction.bSize then (Outcome.assert_failed, r)
            else
              match execute_block operation size memory offset1 instruction.wCount 0 r with
              | none => (Outcome.out_of_bounds, r)
              | some (ok, r1) =>
                let length2 := if ok then length1 else 0
                execute_loop asserts memory fuel (offset1 + data_length)
                  ((length2 + WORD32 - data_length) % WORD32) r1
          | none =>
            if instruction.bOpcode = D3DOP_EXIT then
              if asserts ∧ (instruction.bSize ≠ 0 ∨ instruction.wCount ≠ 0) then
                (Outcome.assert_failed, r)
              else
                execute_loop asserts memory fuel (offset1 + data_length)
                  ((0 + WORD32 - data_length) % WORD32) r
            else
              execute_loop asserts memory fuel (offset1 + data_length)
                ((length1 + WORD32 - data_length) % WORD32) r

/-- The method `execute(device, viewport, flags)` on a buffer with the given `memory`
(`size` is its length) and `execute_data`.  The loop can make at most one iteration per
byte of the buffer before a read leaves it, hence the fuel. -/
def execute (asserts : Bool) (memory : List Nat) (execute_data : D3DEXECUTEDATA)
    (device : Surface) : Outcome × Run :=
  let r0 : Run := { device := device.begin_geometry execute_data.dwVertexCount,
                    calls := [DeviceCall.begin_geometry execute_data.dwVertexCount] }
  if asserts ∧ (execute_data.dwInstructionOffset + execute_data.dwInstructionLength) % WORD32
      > memory.length then
    (Outcome.assert_failed, r0)
  else
    let res := execute_loop asserts memory (memory.length + 1)
      execute_data.dwInstructionOffset execute_data.dwInstructionLength r0
    match res.1 with
    | Outcome.finished =>
      (Outcome.finished, { device := res.2.device.end_geometry,
                           calls := res.2.calls ++ [DeviceCall.end_geometry] })
    | other => (other, res.2)

/-! ## Well-formed instruction streams

The layout of the Direct3D structures, used to state what the interpreter does on a stream
that is laid out as the headers prescribe. -/

/-- Little-endian bytes of a `WORD`. -/
def le16 (v : Nat) : List Nat := [v % 256, v / 256]

/-- Little-endian bytes of a `DWORD`. -/
def le32 (v : Nat) : List Nat := le16 (v % 65536) ++ le16 (v / 65536)

/-- One payload element of a supported instruction, by structure type. -/
inductive Element where
  | point (wCount wFirst : Nat)
  | line (v1 v2 : Nat)
  | triangle (v1 v2 v3 wFlags : Nat)
  | state (type arg : Nat)
  | processvertices (dwFlags wStart wDest dwCount dwReserved : Nat)
deriving DecidableEq, Repr

namespace Element

/-- Opcode of the instruction carrying elements of this type. -/
def opcode : Element → Nat
  | point _ _ => D3DOP_POINT
  | line _ _ => D3DOP_LINE
  | triangle _ _ _ _ => D3DOP_TRIANGLE
  | state _ _ => D3DOP_STATERENDER
  | processvertices _ _ _ _ _ => D3DOP_PROCESSVERTICES

/-- Bytes of the element in buffer memory. -/
def encode : Element → List Nat
  | point wCount wFirst => le16 wCount ++ le16 wFirst
  | line v1 v2 => le16 v1 ++ le16 v2
  | triangle v1 v2 v3 wFlags => le16 v1 ++ le16 v2 ++ le16 v3 ++ le16 wFlags
  | state type arg => le32 type ++ le32 arg
  | processvertices dwFlags wStart wDest dwCount dwReserved =>
    le32 dwFlags ++ le16 wStart ++ le16 wDest ++ le32 dwCount ++ le32 dwReserved

/-- The call on the target surface that the element stands for. -/
def call : Element → DeviceCall
  | point wCount wFirst => DeviceCall.add_points wFirst wCount
  | line v1 v2 => DeviceCall.add_line v1 v2
  | triangle v1 v2 v3 _ => DeviceCall.add_triangle v1 v2 v3
  | state type arg => DeviceCall.set_render_state type arg
  | processvertices _ _ wDest dwCount _ => DeviceCall.set_vertices wDest dwCount

/-- Every field fits its `WORD` or `DWORD`. -/
def InRange : Element → Prop
  | point wCount wFirst => wCount < 2 ^ 16 ∧ wFirst < 2 ^ 16
  | line v1 v2 => v1 < 2 ^ 16 ∧ v2 < 2 ^ 16
  | triangle v1 v2 v3 wFlags => v1 < 2 ^ 16 ∧ v2 < 2 ^ 16 ∧ v3 < 2 ^ 16 ∧ wFlags < 2 ^ 16
  | state type arg => type < 2 ^ 32 ∧ arg < 2 ^ 32
  | processvertices dwFlags wStart wDest dwCount dwReserved =>
    dwFlags < 2 ^ 32 ∧ wStart < 2 ^ 16 ∧ wDest < 2 ^ 16 ∧ dwCount < 2 ^ 32 ∧ dwReserved < 2 ^ 32

instance (e : Element) : Decidable e.InRange := by
  cases e <;> unfold InRange <;> infer_instance

/-- The operation of the element succeeds on a surface holding `vertex_count` vertices:
only a vertex-processing element can fail. -/
def Succeeds (vertex_count : Nat) : Element → Prop
  | processvertices dwFlags wStart wDest dwCount _ =>
    dwFlags &&& D3DPROCESSVERTICES_OPMASK = D3DPROCESSVERTICES_COPY ∧
    dwFlags &&& D3DPROCESSVERTICES_NOCOLOR = 0 ∧
    dwFlags &&& D3DPROCESSVERTICES_UPDATEEXTENTS = 0 ∧
    wStart = 0 ∧ wDest = 0 ∧ dwCount ≤ vertex_count
  | _ => True

instance (vertex_count : Nat) (e : Element) : Decidable (e.Succeeds vertex_count) := by
  cases e <;> unfold Succeeds <;> infer_instance

end Element

/-- Bytes of consecutive payload elements. -/
def encode_elements : List Element → List Nat
  | [] => []
  | e :: es => e.encode ++ encode_elements es

/-- One instruction of a stream: an instruction of one of the five supported opcodes with
its elements, or an instruction of any other opcode (`D3DOP_EXIT` included) with its
header fields and raw payload. -/
inductive Instruction where
  | operation (bOpcode : Nat) (elements : List Element)
  | other (bOpcode bSize wCount : Nat) (payload : List Nat)
deriving DecidableEq, Repr

namespace Instruction

/-- Element size of a supported opcode, `0` for the others. -/
def element_size (bOpcode : Nat) : Nat :=
  match operation_of_opcode bOpcode with
  | some (size, _) => size
  | none => 0

/-- Bytes of the instruction in buffer memory: the `D3DINSTRUCTION` header and the payload. -/
def encode : Instruction → List Nat
  | operation bOpcode elements =>
    [bOpcode, element_size bOpcode] ++ le16 elements.length ++ encode_elements elements
  | other bOpcode bSize wCount payload => [bOpcode, bSize] ++ le16 wCount ++ payload

/-- The instruction is `D3DOP_EXIT`. -/
def is_exit : Instruction → Bool
  | operation _ _ => false
  | other bOpcode _ _ _ => decide (bOpcode = D3DOP_EXIT)

/-- The instruction is laid out as its header says, and its operations succeed on a surface
holding `vertex_count` vertices.  `D3DOP_EXIT` has size and count zero, as the source
asserts. -/
def WellFormed (vertex_count : Nat) : Instruction → Prop
  | operation bOpcode elements =>
    (operation_of_opcode bOpcode).isSome = true ∧ elements.length < 2 ^ 16 ∧
    ∀ e ∈ elements, e.opcode = bOpcode ∧ e.InRange ∧ e.Succeeds vertex_count
  | other bOpcode bSize wCount payload =>
    (operation_of_opcode bOpcode).isSome = false ∧
    bOpcode < 2 ^ 8 ∧ bSize < 2 ^ 8 ∧ wCount < 2 ^ 16 ∧
    payload.length = bSize * wCount ∧ (∀ b ∈ payload, b < 2 ^ 8) ∧
    (bOpcode = D3DOP_EXIT → bSize = 0 ∧ wCount = 0)

instance (vertex_count : Nat) (i : Instruction) : Decidable (i.WellFormed vertex_count) := by
  cases i <;> unfold WellFormed <;> infer_instance

/-- The calls the instruction stands for, in payload order. -/
def calls : Instruction → List DeviceCall
  | operation _ elements => elements.map Element.call
  | other _ _ _ _ => []

end Instruction

/-- Bytes of a stream of instructions. -/
def encode_stream : List Instruction → List Nat
  | [] => []
  | i :: rest => i.encode ++ encode_stream rest

/-- Every instruction up to and including the first `D3DOP_EXIT` is well formed. -/
def StreamWellFormed (vertex_count : Nat) : List Instruction → Prop
  | [] => True
  | i :: rest =>
    i.WellFormed vertex_count ∧ (i.is_exit = false → StreamWellFormed vertex_count rest)

/-- Well-formedness of a stream can be computed. -/
def StreamWellFormed.decide (vertex_count : Nat) :
    (stream : List Instruction) → Decidable (StreamWellFormed vertex_count stream)
  | [] => isTrue trivial
  | i :: rest =>
    have := StreamWellFormed.decide vertex_count rest
    inferInstanceAs (Decidable
      (i.WellFormed vertex_count ∧ (i.is_exit = false → StreamWellFormed vertex_count rest)))

instance (vertex_count : Nat) (stream : List Instruction) :
    Decidable (StreamWellFormed vertex_count stream) :=
  StreamWellFormed.decide vertex_count stream

/-- The calls of the instructions located before the first `D3DOP_EXIT`, in stream order. -/
def calls_before_exit : List Instruction → List DeviceCall
  | [] => []
  | i :: rest => if i.is_exit then [] else i.calls ++ calls_before_exit rest

/-- The declared payload of the instruction does not fit the `remaining` length that follows
its header, or its element size is not the one of its opcode. -/
def Malformed (instruction : D3DINSTRUCTION) (remaining : Nat) : Prop :=
  remaining < instruction.bSize * instruction.wCount ∨
  ((operation_of_opcode instruction.bOpcode).isSome = true ∧
    Instruction.element_size instruction.bOpcode ≠ instruction.bSize)

instance (instruction : D3DINSTRUCTION) (remaining : Nat) :
    Decidable (Malformed instruction remaining) := by
  unfold Malformed; infer_instance

/-! ## Concrete buffers -/

/-- A buffer holding one `D3DOP_TRIANGLE` instruction that declares two triangles
(0, 1, 2) and (2, 1, 3), followed by `D3DOP_EXIT`. -/
def buffer_two_triangles : List Nat :=
  [3, 8, 2, 0,
   0, 0, 1, 0, 2, 0, 0, 0,
   2, 0, 1, 0, 3, 0, 0, 0,
   11, 0, 0, 0]

/-- A buffer holding one `D3DOP_TRIANGLE` instruction with `bSize` 4 instead of 8 and one
element of four bytes, followed by `D3DOP_EXIT` where the declared payload ends. -/
def buffer_short_element : List Nat :=
  [3, 4, 1, 0,
   0, 0, 1, 0,
   11, 0, 0, 0]

/-- A stream of four instructions: a copy of three vertices, the triangle (0, 1, 2),
`D3DOP_EXIT`, and a triangle located after it. -/
def sample_stream : List Instruction :=
  [Instruction.operation D3DOP_PROCESSVERTICES [Element.processvertices 2 0 0 3 0],
   Instruction.operation D3DOP_TRIANGLE [Element.triangle 0 1 2 0],
   Instruction.other D3DOP_EXIT 0 0 [],
   Instruction.operation D3DOP_TRIANGLE [Element.triangle 5 5 5 0]]

/-- A buffer holding a `D3DOP_PROCESSVERTICES` instruction whose element requests
`D3DPROCESSVERTICES_TRANSFORM`, a `D3DOP_TRIANGLE` instruction with the triangle (0, 1, 2),
and `D3DOP_EXIT`. -/
def buffer_transform_then_triangle : List Nat :=
  [9, 16, 1, 0,
   1, 0, 0, 0, 0, 0, 0, 0, 0, 0, 0, 0, 0, 0, 0, 0,
   3, 8, 1, 0,
   0, 0, 1, 0, 2, 0, 0, 0,
   11, 0, 0, 0]

/-- A buffer holding a `D3DOP_PROCESSVERTICES` instruction that copies five vertices, a
`D3DOP_TRIANGLE` instruction with the triangle (0, 1, 2), and `D3DOP_EXIT`. -/
def buffer_copy_five_then_triangle : List Nat :=
  [9, 16, 1, 0,
   2, 0, 0, 0, 0, 0, 0, 0, 5, 0, 0, 0, 0, 0, 0, 0,
   3, 8, 1, 0,
   0, 0, 1, 0, 2, 0, 0, 0,
   11, 0, 0, 0]

/-! ## Functions commuting with bitwise or -/

/-- A function on words that commutes with bitwise or. -/
def OrHom (F : Nat → Nat) : Prop := ∀ a b, F (a ||| b) = F a ||| F b

/-! ## States derived from the render-state set (`get_depth_test_state`,
`get_alpha_blend_state`) -/

/-- Value of `D3DRENDERSTATE_ZENABLE` in the Direct3D headers. -/
def D3DRENDERSTATE_ZENABLE : Nat := 7

/-- Value of `D3DRENDERSTATE_ZWRITEENABLE` in the Direct3D headers. -/
def D3DRENDERSTATE_ZWRITEENABLE : Nat := 14

/-- Value of `D3DRENDERSTATE_SRCBLEND` in the Direct3D headers. -/
def D3DRENDERSTATE_SRCBLEND : Nat := 19

/-- Value of `D3DRENDERSTATE_DESTBLEND` in the Direct3D headers. -/
def D3DRENDERSTATE_DESTBLEND : Nat := 20

/-- Value of `D3DRENDERSTATE_ZFUNC` in the Direct3D headers. -/
def D3DRENDERSTATE_ZFUNC : Nat := 23

/-- Value of `D3DRENDERSTATE_BLENDENABLE` in the Direct3D headers. -/
def D3DRENDERSTATE_BLENDENABLE : Nat := 27

/-- Value of `D3DCMP_LESSEQUAL` in the Direct3D headers. -/
def D3DCMP_LESSEQUAL : Nat := 4

/-- Value of `D3DCMP_ALWAYS` in the Direct3D headers. -/
def D3DCMP_ALWAYS : Nat := 8

/-- Value of `D3DBLEND_ZERO` in the Direct3D headers. -/
def D3DBLEND_ZERO : Nat := 1

/-- Value of `D3DBLEND_ONE` in the Direct3D headers. -/
def D3DBLEND_ONE : Nat := 2

/-- Value of `D3DBLEND_SRCALPHA` in the Direct3D headers. -/
def D3DBLEND_SRCALPHA : Nat := 5

/-- Value of `D3DBLEND_INVSRCALPHA` in the Direct3D headers. -/
def D3DBLEND_INVSRCALPHA : Nat := 6

/-- Value of `D3DBLEND_BOTHSRCALPHA` in the Direct3D headers. -/
def D3DBLEND_BOTHSRCALPHA : Nat := 12

/-- The enum `DepthTest` of `hw_layer.h`. -/
inductive DepthTest where
  | DEPTH_TEST_NONE
  | DEPTH_TEST_ON
  | DEPTH_TEST_NOZWRITE
deriving DecidableEq, Repr

/-- The enum `Blend` of `hw_layer.h`. -/
inductive Blend where
  | BLEND_NONE
  | BLEND_OVER
  | BLEND_ADD
deriving DecidableEq, Repr

namespace RenderStateSet

/-- The method `get_rs_bool(type)`. -/
def get_rs_bool (s : RenderStateSet) (type : Nat) : Bool :=
  decide (s.states.getD type 0 ≠ 0)

/-- The method `get_depth_test_state()`; the error report for an unsupported function is
not modelled. -/
def get_depth_test_state (s : RenderStateSet) : DepthTest :=
  if !s.get_rs_bool D3DRENDERSTATE_ZENABLE then DepthTest.DEPTH_TEST_NONE
  -- The 'always' render state effectively disables test.
  else if s.get_rs_dw D3DRENDERSTATE_ZFUNC = D3DCMP_ALWAYS
      ∧ (!s.get_rs_bool D3DRENDERSTATE_ZWRITEENABLE) = true then DepthTest.DEPTH_TEST_NONE
  -- For enabled state check that the function is right.
  else if s.get_rs_dw D3DRENDERSTATE_ZFUNC ≠ D3DCMP_LESSEQUAL then DepthTest.DEPTH_TEST_NONE
  -- Check for disabled z-buffer writes.
  else if !s.get_rs_bool D3DRENDERSTATE_ZWRITEENABLE then DepthTest.DEPTH_TEST_NOZWRITE
  else DepthTest.DEPTH_TEST_ON

/-- The method `get_alpha_blend_state()`; the error report for an unsupported combination
is not modelled. -/
def get_alpha_blend_state (s : RenderStateSet) : Blend :=
  if !s.get_rs_bool D3DRENDERSTATE_BLENDENABLE then Blend.BLEND_NONE
  else
    let src := s.get_rs_dw D3DRENDERSTATE_SRCBLEND
    let dest := s.get_rs_dw D3DRENDERSTATE_DESTBLEND
    if src = D3DBLEND_ONE ∧ dest = D3DBLEND_ZERO then Blend.BLEND_NONE
    else if src = D3DBLEND_SRCALPHA ∧ dest = D3DBLEND_INVSRCALPHA then Blend.BLEND_OVER
    else if src = D3DBLEND_BOTHSRCALPHA then Blend.BLEND_OVER
    else Blend.BLEND_NONE

end RenderStateSet

/-! ## Queuing calls on a geometry batch -/

/-- One queuing call on a `GeometryInfo`. -/
inductive BatchOp where
  | add_triangle (v0 v1 v2 : Nat)
  | add_line (v0 v1 : Nat)
  | add_points (first count : Nat)
deriving DecidableEq, Repr

namespace BatchOp

/-- The arguments are values of `unsigned short`, which is all the interpreter can pass
(`D3DTRIANGLE`, `D3DLINE` and `D3DPOINT` hold `WORD` fields). -/
def InRange : BatchOp → Prop
  | add_triangle v0 v1 v2 => v0 < 2 ^ 16 ∧ v1 < 2 ^ 16 ∧ v2 < 2 ^ 16
  | add_line v0 v1 => v0 < 2 ^ 16 ∧ v1 < 2 ^ 16
  | add_points first count => first < 2 ^ 16 ∧ count < 2 ^ 16

instance (op : BatchOp) : Decidable op.InRange := by
  cases op <;> unfold InRange <;> infer_instance

/-- The condition asserted by `GeometryInfo::add_points`: the last index of the range
survives the cast to `unsigned short`. -/
def Fits : BatchOp → Prop
  | add_points first count => count = 0 ∨ first + count - 1 < 2 ^ 16
  | _ => True

instance (op : BatchOp) : Decidable op.Fits := by
  cases op <;> unfold Fits <;> infer_instance

/-- Performs the call on a batch. -/
def apply (g : GeometryInfo) : BatchOp → GeometryInfo
  | add_triangle v0 v1 v2 => g.add_triangle v0 v1 v2
  | add_line v0 v1 => g.add_line v0 v1
  | add_points first count => g.add_points first count

end BatchOp

namespace GeometryInfo

/-- Performs the calls in order. -/
def queue (g : GeometryInfo) : List BatchOp → GeometryInfo
  | [] => g
  | op :: ops => queue (op.apply g) ops

/-- The batch is in the state left by the constructor, `reset()` or `draw_geometry()`,
whatever mode and state set were stored on it afterwards. -/
def IsFresh (g : GeometryInfo) : Prop :=
  g.indices = [] ∧ g.min_vertex = WORD32 - 1 ∧ g.max_vertex = 0

instance (g : GeometryInfo) : Decidable g.IsFresh := by
  unfold IsFresh; infer_instance

/-- Every stored index lies in the window `[min_vertex, max_vertex]`. -/
def WindowHolds (g : GeometryInfo) : Prop :=
  ∀ i ∈ g.indices, g.min_vertex ≤ i ∧ i ≤ g.max_vertex

instance (g : GeometryInfo) : Decidable g.WindowHolds := by
  unfold WindowHolds; infer_instance

end GeometryInfo

/-- Scenario A: a copy of zero vertices to destination 0, the triangle (0, 1, 2) and
`D3DOP_EXIT`. -/
def buffer_scenario_a : List Nat :=
  [9, 16, 1, 0,
   2, 0, 0, 0, 0, 0, 0, 0, 0, 0, 0, 0, 0, 0, 0, 0,
   3, 8, 1, 0,
   0, 0, 1, 0, 2, 0, 0, 0,
   11, 0, 0, 0]

/-- A buffer holding one `D3DOP_POINT` instruction with `wCount` 2 and `wFirst` 65535,
followed by `D3DOP_EXIT`. -/
def buffer_points_wrap : List Nat :=
  [1, 4, 1, 0,
   2, 0, 255, 255,
   11, 0, 0, 0]

/-- A stream that queues a triangle shaded with the base sentinel, a triangle shaded with
the overlay sentinel, changes BLENDENABLE (slot 27) and queues a second overlay triangle. -/
def stream_overlay_state_change : List Instruction :=
  [Instruction.operation D3DOP_STATERENDER
     [Element.state D3DRENDERSTATE_SHADEMODE GLOW_HACK_SHADING_MODE_BASE],
   Instruction.operation D3DOP_TRIANGLE [Element.triangle 0 1 2 0],
   Instruction.operation D3DOP_STATERENDER
     [Element.state D3DRENDERSTATE_SHADEMODE GLOW_HACK_SHADING_MODE_OVERLAY],
   Instruction.operation D3DOP_TRIANGLE [Element.triangle 0 1 2 0],
   Instruction.operation D3DOP_STATERENDER [Element.state 27 1],
   Instruction.operation D3DOP_TRIANGLE [Element.triangle 0 2 3 0],
   Instruction.other D3DOP_EXIT 0 0 []]

/-- The surface calls of `stream_overlay_state_change` made on a blank surface after
`begin_geometry(4)`. -/
def surface_overlay_state_change : Surface :=
  ((((((Surface.blank.begin_geometry 4).set_render_state D3DRENDERSTATE_SHADEMODE
      GLOW_HACK_SHADING_MODE_BASE).add_triangle 0 1 2).set_render_state
        D3DRENDERSTATE_SHADEMODE GLOW_HACK_SHADING_MODE_OVERLAY).add_triangle 0 1 2
          ).set_render_state 27 1).add_triangle 0 2 3

/-- The stream `stream_overlay_state_change` continued, before its `D3DOP_EXIT`, by a
change to flat shading and the triangle (1, 2, 3). -/
def stream_overlay_then_flat : List Instruction :=
  stream_overlay_state_change.take 6 ++
  [Instruction.operation D3DOP_STATERENDER
     [Element.state D3DRENDERSTATE_SHADEMODE D3DSHADE_FLAT],
   Instruction.operation D3DOP_TRIANGLE [Element.triangle 1 2 3 0],
   Instruction.other D3DOP_EXIT 0 0 []]

/-- The surface `surface_overlay_state_change` after a change to flat shading and the
triangle (1, 2, 3). -/
def surface_overlay_then_flat : Surface :=
  (surface_overlay_state_change.set_render_state D3DRENDERSTATE_SHADEMODE
    D3DSHADE_FLAT).add_triangle 1 2 3

/-! ## Master-copy state machine of the surface (`synchronize_memory`, `synchronize_hw`,
`Lock`, `Unlock`) -/

/-- Value of `DDSCAPS_BACKBUFFER` in the DirectDraw headers. -/
def DDSCAPS_BACKBUFFER : Nat := 0x4

/-- Value of `DDSCAPS_PRIMARYSURFACE` in the DirectDraw headers. -/
def DDSCAPS_PRIMARYSURFACE : Nat := 0x200

/-- Value of `DDSCAPS_3DDEVICE` in the DirectDraw headers. -/
def DDSCAPS_3DDEVICE : Nat := 0x2000

/-- Value of `DDSCAPS_ZBUFFER` in the DirectDraw headers. -/
def DDSCAPS_ZBUFFER : Nat := 0x20000

/-- Value of `DDLOCK_READONLY` in the DirectDraw headers. -/
def DDLOCK_READONLY : Nat := 0x10

/-- The constant `INVALID_SURFACE_HANDLE` of `hw_layer.h` (a null pointer). -/
def INVALID_SURFACE_HANDLE : Nat := 0

/-- The constant `KA_COMPOSITION_KEY_MEMORY`. -/
def KA_COMPOSITION_KEY_MEMORY : Nat := 0x0000

/-- The constant `SFA_COMPOSITION_KEY_MEMORY`. -/
def SFA_COMPOSITION_KEY_MEMORY : Nat := 0x0001

/-- The function `get_composition_key_memory()`. -/
def get_composition_key_memory (inside_sfad3d : Bool) : Nat :=
  if inside_sfad3d then SFA_COMPOSITION_KEY_MEMORY else KA_COMPOSITION_KEY_MEMORY

/-- The instruction `repe scasd` with `eax` = 0 on the block `memory`: compares the dword at
`edi`, advances `edi`, decrements `ecx`, and stops when `ecx` reaches zero or when the dword
differs from zero; the result is the final `ecx`.  A dword outside the list reads as zero
(the callers pass the size of the block). -/
def repe_scasd (memory : List Nat) : (edi ecx : Nat) → Nat
  | _, 0 => 0
  | edi, ecx + 1 =>
    if (read_u32 memory edi).getD 0 = 0 then repe_scasd memory (edi + 4) ecx else ecx

/-- The function `is_nonzero(memory, memory_size)`; `compare_enabled` is the answer of
`is_composition_compare_enabled()`. -/
def is_nonzero (compare_enabled : Bool) (memory : List Nat) (memory_size : Nat) : Bool :=
  if !compare_enabled then true
  else if memory_size % 4 ≠ 0 then true
  else
    let step_count := memory_size / 4
    let nonzero_found := repe_scasd memory 0 step_count
    decide (nonzero_found ≠ 0)

/-- The enum `LockHack`. -/
inductive LockHack where
  | LOCK_HACK_NONE
  | LOCK_HACK_COMPOSITION
  | LOCK_HACK_STARFIELD
deriving DecidableEq, Repr

/-- The result codes returned by the surface methods modelled here. -/
inductive HRESULT where
  | DD_OK
  | DDERR_INVALIDPARAMS
  | DDERR_NOTLOCKED
  | DDERR_UNSUPPORTED
  | DDERR_NOTFLIPPABLE
deriving DecidableEq, Repr

/-- Calls received by the hardware layer from the synchronisation code.  For
`create_surface` the initial content (`none` for a null `init_memory`) and the
`render_target` flag are recorded; `sfa_key` tells which composition key
`get_composition_key()` passed (the Starfleet Academy key, or null). -/
inductive SurfaceCall where
  | create_surface (init_memory : Option (List Nat)) (render_target : Bool)
  | update_surface (hw_surface : Nat) (memory : List Nat)
  | read_surface (hw_surface : Nat)
  | compose_render_target (hw_surface : Nat) (memory : List Nat) (sfa_key : Bool)
  | display_surface (hw_surface : Nat)
  | marker
deriving DecidableEq, Repr

/-- The flags of `Lock` after the inspection of the return addresses: a lock made for the
cloaking field or for a screenshot is turned into a read-only lock.  `caller` and `caller2`
are the two return addresses read from the stack.  The `hw_layer.marker` calls of these two
branches are not recorded. -/
def lock_flags (flags caller caller2 : Nat) : Nat :=
  if caller = 0x410113 then
    if caller2 = 0x00472d11 then flags ||| DDLOCK_READONLY
    else if caller2 = 0x004DA47C then flags ||| DDLOCK_READONLY
    else flags
  else flags

/-- The class `DirectDrawSurfaceEmu` as seen by synchronisation and locking.  `geometry`
holds the members used by geometry processing, among them `master`, the emulation state and
`is_inside_sfad3d()`; `dwCaps`, `dwHeight` and `lPitch` are fields of `desc`; `memory` is
the content of the CPU buffer; `hw_surface` is the backend handle; `has_emulation_info`
tells whether `find_emulation_info()` finds an `EmulationInfo`, `emulation_timeout_start`
is its field, `timer_window` tells whether `emulation` and its timer window exist, and
`present_timer` is the timeout of the pending presentation timer; the three `…_enabled`
fields are the answers of the configuration functions; `surface_calls` lists the calls made
on the hardware layer by the functions below. -/
structure DirectDrawSurfaceEmu where
  geometry : Surface
  dwCaps : Nat
  dwHeight : Nat
  lPitch : Nat
  memory : List Nat
  hw_surface : Nat
  lock_count : Nat
  active_lock_hack : LockHack
  has_emulation_info : Bool
  emulation_timeout_start : Nat
  timer_window : Bool
  present_timer : Option Nat
  composition_compare_enabled : Bool
  cpu_starfield_enabled : Bool
  ui_30fps_enabled : Bool
  surface_calls : List SurfaceCall
deriving DecidableEq, Repr

namespace DirectDrawSurfaceEmu

/-- The member `master`. -/
def master (d : DirectDrawSurfaceEmu) : Master :=
  d.geometry.master

/-- Assignment to the member `master`. -/
def set_master (d : DirectDrawSurfaceEmu) (m : Master) : DirectDrawSurfaceEmu :=
  { d with geometry := { d.geometry with master := m } }

/-- The condition `(get_composition_key_memory() != 0) || is_nonzero(memory, desc.dwHeight *
desc.lPitch)` under which a pending keyed composition is applied. -/
def composition_needed (d : DirectDrawSurfaceEmu) : Bool :=
  decide (get_composition_key_memory d.geometry.inside_sfad3d ≠ 0) ||
  is_nonzero d.composition_compare_enabled d.memory ((d.dwHeight * d.lPitch) % WORD32)

/-- The call `hw_layer.compose_render_target(hw_surface, memory, get_composition_key())`. -/
def compose_render_target (d : DirectDrawSurfaceEmu) : DirectDrawSurfaceEmu :=
  { d with surface_calls := d.surface_calls ++
      [SurfaceCall.compose_render_target d.hw_surface d.memory d.geometry.inside_sfad3d] }

/-- The method `synchronize_memory()`; `readback` is the content that `read_surface` writes
into the CPU buffer. -/
def synchronize_memory (d : DirectDrawSurfaceEmu) (readback : List Nat) : DirectDrawSurfaceEmu :=
  if d.master = Master.MASTER_NONE ∨ d.master = Master.MASTER_MEMORY
      ∨ d.master = Master.MASTER_SYNCHRONIZED then d
  else
    -- If there is still a composition pending, we have to do it now.
    let d1 :=
      if d.master = Master.MASTER_COMPOSITION then
        if d.composition_needed then d.compose_render_target else d
      else if d.master = Master.MASTER_COMPOSITION_NONKEY then d.compose_render_target
      else d
    -- Read the result.
    { d1 with surface_calls := d1.surface_calls ++ [SurfaceCall.read_surface d1.hw_surface],
              memory := readback }.set_master Master.MASTER_SYNCHRONIZED

/-- The method `synchronize_hw()`; `created` is the handle returned by `create_surface`
(`INVALID_SURFACE_HANDLE` when the creation fails). -/
def synchronize_hw (d : DirectDrawSurfaceEmu) (created : Nat) : DirectDrawSurfaceEmu :=
  if d.master = Master.MASTER_HW ∨ d.master = Master.MASTER_SYNCHRONIZED then d
  else if d.hw_surface = INVALID_SURFACE_HANDLE then
    -- Create the surface; a memory copy in fresh state is not uploaded.
    let init_memory := if d.master = Master.MASTER_NONE then none else some d.memory
    let render_target := decide (d.dwCaps &&& DDSCAPS_3DDEVICE ≠ 0)
    { d with hw_surface := created,
             surface_calls := d.surface_calls ++
               [SurfaceCall.create_surface init_memory render_target]
      }.set_master Master.MASTER_SYNCHRONIZED
  else if d.master = Master.MASTER_COMPOSITION then
    (if d.composition_needed then d.compose_render_target else d).set_master Master.MASTER_HW
  else if d.master = Master.MASTER_COMPOSITION_NONKEY then
    d.compose_render_target.set_master Master.MASTER_HW
  else
    { d with surface_calls := d.surface_calls ++
        [SurfaceCall.update_surface d.hw_surface d.memory]
      }.set_master Master.MASTER_SYNCHRONIZED

/-- The method `get_hw_surface(for_rendering_into)`: the returned handle and the surface
afterwards. -/
def get_hw_surface (d : DirectDrawSurfaceEmu) (for_rendering_into : Bool) (created : Nat) :
    Nat × DirectDrawSurfaceEmu :=
  let d1 := d.synchronize_hw created
  let d2 :=
    if d1.hw_surface ≠ INVALID_SURFACE_HANDLE ∧ for_rendering_into = true then
      d1.set_master Master.MASTER_HW
    else d1
  (d2.hw_surface, d2)

/-- The method `show_primary()`. -/
def show_primary (d : DirectDrawSurfaceEmu) (created : Nat) : DirectDrawSurfaceEmu :=
  if d.dwCaps &&& DDSCAPS_PRIMARYSURFACE = 0 then d
  else
    let d1 := d.synchronize_hw created
    { d1 with surface_calls := d1.surface_calls ++ [SurfaceCall.display_surface d1.hw_surface] }

/-- The method `set_present_timer(timeout)`. -/
def set_present_timer (d : DirectDrawSurfaceEmu) (timeout : Nat) : DirectDrawSurfaceEmu :=
  if d.timer_window then { d with present_timer := some timeout } else d

/-- The method `update_presentation_emulation()`; `time` is the answer of
`timeGetTime()`. -/
def update_presentation_emulation (d : DirectDrawSurfaceEmu) (time created : Nat) :
    DirectDrawSurfaceEmu :=
  -- Nothing to do for non-primary surfaces.
  if d.dwCaps &&& DDSCAPS_PRIMARYSURFACE = 0 then d
  -- Ignore surfaces which are still locked.
  else if d.lock_count > 0 then d
  -- If the info is not present, show the surface.
  else if d.has_emulation_info = false then d.show_primary created
  -- Some states do not have timeout.
  else if d.geometry.emulation_state = EmulationState.EMULATION_STATE_3D_SCENE
      ∨ d.geometry.emulation_state = EmulationState.EMULATION_STATE_3D_SCENE_POINT_GEOMETRY_DRAWN
      ∨ d.geometry.emulation_state
          = EmulationState.EMULATION_STATE_3D_SCENE_TRIANGLE_GEOMETRY_DRAWN
      ∨ d.geometry.emulation_state = EmulationState.EMULATION_STATE_3D_FLIP then d
  else
    -- Select proper timeout.
    let timeout_2d_mode := if d.ui_30fps_enabled then 30 else 60
    let timeout :=
      if d.geometry.emulation_state = EmulationState.EMULATION_STATE_WAITING_FOR_3D_SCENE
      then 300 else timeout_2d_mode
    -- Did it expire?
    let time_since_start := (time + WORD32 - d.emulation_timeout_start) % WORD32
    if time_since_start < timeout then d.set_present_timer (timeout - time_since_start)
    else
      -- Update the mode and show the surface.
      let d1 : DirectDrawSurfaceEmu :=
        { d with emulation_timeout_start := time,
                 geometry := { d.geometry with
                   emulation_state := EmulationState.EMULATION_STATE_WAITING_FOR_TIME } }
      -- Restart the presentation timeout.
      (d1.show_primary created).set_present_timer timeout_2d_mode

/-- The method `flush_geometry()` with the upload it starts with: `Surface.flush_geometry`
records the place of the `synchronize_hw()` call, the call itself is made here. -/
def flush_geometry (d : DirectDrawSurfaceEmu) (created : Nat) : DirectDrawSurfaceEmu :=
  if d.geometry.queued_geometry.is_empty then d
  else
    let d1 := d.synchronize_hw created
    { d1 with geometry := d1.geometry.flush_geometry }

/-- The method `Lock(rect, desc, flags, handle)`.  `desc_valid` tells whether
`CHECK_STRUCTURE(desc, DDSURFACEDESC)` passes, `rect_null` whether `rect` is null; the
description written to `desc` is not modelled; the `memset` and the `rep stosd` overwrite
the leading bytes of the CPU buffer. -/
def Lock (d : DirectDrawSurfaceEmu) (desc_valid rect_null : Bool)
    (flags0 caller caller2 created : Nat) (readback : List Nat) :
    HRESULT × DirectDrawSurfaceEmu :=
  if desc_valid = false then (HRESULT.DDERR_INVALIDPARAMS, d)
  else
    let flags := lock_flags flags0 caller caller2
    -- Update the lock counter.
    let d1 := { d with lock_count := (d.lock_count + 1) % WORD32 }
    -- For backbuffer ensure that any queued geometry is present on the screen.
    let d2 := if d1.dwCaps &&& DDSCAPS_BACKBUFFER ≠ 0 then d1.flush_geometry created else d1
    let composition_pending : Bool :=
      decide (d2.master = Master.MASTER_COMPOSITION) ||
      decide (d2.master = Master.MASTER_COMPOSITION_NONKEY)
    let memory_size := (d2.lPitch * d2.dwHeight) % WORD32
    let ordinary : HRESULT × DirectDrawSurfaceEmu :=
      -- Ensure that the memory contains the latest content.
      let d3 := d2.synchronize_memory readback
      -- Unless the surface is locked for read, consider the HW copy to be stalled.
      if flags &&& DDLOCK_READONLY = 0 ∧ d3.dwCaps &&& DDSCAPS_ZBUFFER = 0 then
        (HRESULT.DD_OK, d3.set_master Master.MASTER_MEMORY)
      else (HRESULT.DD_OK, d3)
    if d2.geometry.inside_sfad3d = false then
      -- Hacks for KA.
      if d2.dwCaps &&& DDSCAPS_BACKBUFFER ≠ 0 ∧ rect_null = true
          ∧ d2.master ≠ Master.MASTER_MEMORY ∧ flags = 2049 then
        if d2.geometry.emulation_state = EmulationState.EMULATION_STATE_3D_FLIP
            ∨ d2.geometry.emulation_state
                = EmulationState.EMULATION_STATE_3D_SCENE_POINT_GEOMETRY_DRAWN
            ∨ d2.geometry.emulation_state
                = EmulationState.EMULATION_STATE_3D_SCENE_TRIANGLE_GEOMETRY_DRAWN then
          -- Quality improvement hack: return black content, compose on unlock.
          (HRESULT.DD_OK,
            { d2 with memory := if composition_pending then d2.memory
                                else List.replicate memory_size 0
                                  ++ d2.memory.drop memory_size,
                      active_lock_hack := LockHack.LOCK_HACK_COMPOSITION,
                      surface_calls := d2.surface_calls ++ [SurfaceCall.marker] })
        else if d2.geometry.emulation_state = EmulationState.EMULATION_STATE_3D_SCENE then
          -- Starfield hack.
          (HRESULT.DD_OK,
            { d2 with memory := if d2.cpu_starfield_enabled && !composition_pending
                                then List.replicate memory_size 0
                                  ++ d2.memory.drop memory_size
                                else d2.memory,
                      active_lock_hack := LockHack.LOCK_HACK_STARFIELD,
                      surface_calls := d2.surface_calls ++ [SurfaceCall.marker] })
        else ordinary
      else ordinary
    else
      -- Hacks for SFA.
      if d2.dwCaps &&& DDSCAPS_BACKBUFFER ≠ 0 ∧ rect_null = true
          ∧ d2.master ≠ Master.MASTER_MEMORY ∧ d2.master ≠ Master.MASTER_NONE
          ∧ flags = 1 then
        -- Return content filled with the key colour, compose on unlock.
        (HRESULT.DD_OK,
          { d2 with memory :=
                      if composition_pending then d2.memory
                      else
                        (List.replicate (memory_size / 4)
                          (le16 SFA_COMPOSITION_KEY_MEMORY
                            ++ le16 SFA_COMPOSITION_KEY_MEMORY)).flatten
                          ++ d2.memory.drop (4 * (memory_size / 4)),
                    active_lock_hack := LockHack.LOCK_HACK_COMPOSITION,
                    surface_calls := d2.surface_calls ++ [SurfaceCall.marker] })
      else ordinary

/-- The method `Unlock(addr)`; `addr_null` tells whether `addr` is null, `time` is the answer
of `timeGetTime()`. -/
def Unlock (d : DirectDrawSurfaceEmu) (addr_null : Bool) (time created : Nat) :
    HRESULT × DirectDrawSurfaceEmu :=
  if addr_null then (HRESULT.DDERR_INVALIDPARAMS, d)
  -- The Klingon Academy sometimes unlocks a surface more than once.
  else if d.lock_count = 0 then (HRESULT.DDERR_NOTLOCKED, d)
  else
    let d1 := { d with lock_count := d.lock_count - 1 }
    if d1.geometry.inside_sfad3d = false then
      -- Hacks for KA.
      if d1.active_lock_hack = LockHack.LOCK_HACK_COMPOSITION then
        let d2 := { d1 with active_lock_hack := LockHack.LOCK_HACK_NONE }
        if d2.geometry.emulation_state = EmulationState.EMULATION_STATE_3D_FLIP then
          (HRESULT.DD_OK, d2.set_master Master.MASTER_COMPOSITION_NONKEY)
        else if d2.master ≠ Master.MASTER_COMPOSITION_NONKEY then
          (HRESULT.DD_OK, d2.set_master Master.MASTER_COMPOSITION)
        else (HRESULT.DD_OK, d2)
      else if d1.active_lock_hack = LockHack.LOCK_HACK_STARFIELD then
        let d2 := { d1 with active_lock_hack := LockHack.LOCK_HACK_NONE }
        (HRESULT.DD_OK,
          d2.set_master (if d2.cpu_starfield_enabled then Master.MASTER_COMPOSITION_NONKEY
                         else Master.MASTER_HW))
      else (HRESULT.DD_OK, d1.update_presentation_emulation time created)
    else
      -- Hacks for SFA.
      if d1.active_lock_hack = LockHack.LOCK_HACK_COMPOSITION then
        let d2 := { d1 with active_lock_hack := LockHack.LOCK_HACK_NONE }
        (HRESULT.DD_OK, d2.set_master Master.MASTER_COMPOSITION_NONKEY)
      else (HRESULT.DD_OK, d1.update_presentation_emulation time created)

end DirectDrawSurfaceEmu

/-- A back buffer of a 3D device with a CPU buffer of two lines of four bytes, no backend
resource yet and master `MASTER_NONE`, in a process other than SFAD3D.EXE; the concrete
target of the evaluations below. -/
def back_buffer_sample : DirectDrawSurfaceEmu :=
  { geometry := Surface.blank,
    dwCaps := DDSCAPS_BACKBUFFER ||| DDSCAPS_3DDEVICE,
    dwHeight := 2,
    lPitch := 4,
    memory := [0, 0, 0, 0, 0, 0, 0, 0],
    hw_surface := INVALID_SURFACE_HANDLE,
    lock_count := 0,
    active_lock_hack := LockHack.LOCK_HACK_NONE,
    has_emulation_info := true,
    emulation_timeout_start := 0,
    timer_window := false,
    present_timer := none,
    composition_compare_enabled := true,
    cpu_starfield_enabled := true,
    ui_30fps_enabled := false,
    surface_calls := [] }

/-- The surface `back_buffer_sample` with the backend resource `hw_surface` and the given
master. -/
def back_buffer_with (hw_surface : Nat) (m : Master) : DirectDrawSurfaceEmu :=
  { back_buffer_sample with hw_surface := hw_surface }.set_master m

/-- The conditions under which `Lock`, called on the surface `d` as it is after the lock
counter update and the flush, takes one of its hack paths instead of the ordinary one;
`flags` are the flags after the inspection of the return addresses. -/
def lock_hack_applies (d : DirectDrawSurfaceEmu) (rect_null : Bool) (flags : Nat) : Prop :=
  (d.geometry.inside_sfad3d = false ∧
    d.dwCaps &&& DDSCAPS_BACKBUFFER ≠ 0 ∧ rect_null = true ∧
    d.master ≠ Master.MASTER_MEMORY ∧ flags = 2049 ∧
    (d.geometry.emulation_state = EmulationState.EMULATION_STATE_3D_FLIP ∨
     d.geometry.emulation_state = EmulationState.EMULATION_STATE_3D_SCENE_POINT_GEOMETRY_DRAWN ∨
     d.geometry.emulation_state
        = EmulationState.EMULATION_STATE_3D_SCENE_TRIANGLE_GEOMETRY_DRAWN ∨
     d.geometry.emulation_state = EmulationState.EMULATION_STATE_3D_SCENE)) ∨
  (d.geometry.inside_sfad3d = true ∧
    d.dwCaps &&& DDSCAPS_BACKBUFFER ≠ 0 ∧ rect_null = true ∧
    d.master ≠ Master.MASTER_MEMORY ∧ d.master ≠ Master.MASTER_NONE ∧ flags = 1)

instance (d : DirectDrawSurfaceEmu) (rect_null : Bool) (flags : Nat) :
    Decidable (lock_hack_applies d rect_null flags) := by
  unfold lock_hack_applies; infer_instance

/-- The surface on which `Lock` decides its path: after the lock counter update and, for a
back buffer, the flush of the queued geometry. -/
def lock_entry (d : DirectDrawSurfaceEmu) (created : Nat) : DirectDrawSurfaceEmu :=
  if d.dwCaps &&& DDSCAPS_BACKBUFFER ≠ 0 then
    { d with lock_count := (d.lock_count + 1) % WORD32 }.flush_geometry created
  else { d with lock_count := (d.lock_count + 1) % WORD32 }

/-! ## Default render states (`DirectDrawSurfaceEmu::set_default_render_states`) -/

/-- Value of `D3DRENDERSTATE_TEXTUREADDRESS` in the Direct3D headers. -/
def D3DRENDERSTATE_TEXTUREADDRESS : Nat := 3

/-- Value of `D3DRENDERSTATE_FILLMODE` in the Direct3D headers. -/
def D3DRENDERSTATE_FILLMODE : Nat := 8

/-- Value of `D3DRENDERSTATE_PLANEMASK` in the Direct3D headers. -/
def D3DRENDERSTATE_PLANEMASK : Nat := 13

/-- Value of `D3DRENDERSTATE_LASTPIXEL` in the Direct3D headers. -/
def D3DRENDERSTATE_LASTPIXEL : Nat := 16

/-- Value of `D3DRENDERSTATE_TEXTUREMAG` in the Direct3D headers. -/
def D3DRENDERSTATE_TEXTUREMAG : Nat := 17

/-- Value of `D3DRENDERSTATE_TEXTUREMIN` in the Direct3D headers. -/
def D3DRENDERSTATE_TEXTUREMIN : Nat := 18

/-- Value of `D3DRENDERSTATE_TEXTUREMAPBLEND` in the Direct3D headers. -/
def D3DRENDERSTATE_TEXTUREMAPBLEND : Nat := 21

/-- Value of `D3DRENDERSTATE_CULLMODE` in the Direct3D headers. -/
def D3DRENDERSTATE_CULLMODE : Nat := 22

/-- Value of `D3DRENDERSTATE_ALPHAFUNC` in the Direct3D headers. -/
def D3DRENDERSTATE_ALPHAFUNC : Nat := 25

/-- Value of `D3DRENDERSTATE_SPECULARENABLE` in the Direct3D headers. -/
def D3DRENDERSTATE_SPECULARENABLE : Nat := 29

/-- Value of `D3DRENDERSTATE_FOGTABLEMODE` in the Direct3D headers. -/
def D3DRENDERSTATE_FOGTABLEMODE : Nat := 35

/-- Value of `D3DRENDERSTATE_FOGTABLESTART` in the Direct3D headers. -/
def D3DRENDERSTATE_FOGTABLESTART : Nat := 36

/-- Value of `D3DRENDERSTATE_FOGTABLEEND` in the Direct3D headers. -/
def D3DRENDERSTATE_FOGTABLEEND : Nat := 37

/-- Value of `D3DTADDRESS_WRAP` in the Direct3D headers. -/
def D3DTADDRESS_WRAP : Nat := 1

/-- Value of `D3DFILL_SOLID` in the Direct3D headers. -/
def D3DFILL_SOLID : Nat := 3

/-- Value of `D3DSHADE_GOURAUD` in the Direct3D headers. -/
def D3DSHADE_GOURAUD : Nat := 2

/-- Value of `D3DFILTER_NEAREST` in the Direct3D headers. -/
def D3DFILTER_NEAREST : Nat := 1

/-- Value of `D3DTBLEND_MODULATE` in the Direct3D headers. -/
def D3DTBLEND_MODULATE : Nat := 2

/-- Value of `D3DCULL_CCW` in the Direct3D headers. -/
def D3DCULL_CCW : Nat := 3

/-- Value of `D3DFOG_NONE` in the Direct3D headers. -/
def D3DFOG_NONE : Nat := 0

/-- Bit pattern of the `float` 0.0. -/
def FLOAT_BITS_ZERO : Nat := 0x00000000

/-- Bit pattern of the `float` 1.0. -/
def FLOAT_BITS_ONE : Nat := 0x3F800000

/-- The value that `set_default_render_states()` leaves in `active_render_states`: a new set
followed by the assignments of the states whose default is not zero, in source order.  The
table `supported_states` filled by the same method is not modelled. -/
def set_default_render_states : RenderStateSet :=
  (applyCalls RenderStateSet.new
    [SetCall.dw D3DRENDERSTATE_TEXTUREADDRESS D3DTADDRESS_WRAP,
     SetCall.dw D3DRENDERSTATE_SHADEMODE D3DFILL_SOLID,
     SetCall.dw D3DRENDERSTATE_FILLMODE D3DSHADE_GOURAUD,
     SetCall.dw D3DRENDERSTATE_PLANEMASK (WORD32 - 1),
     SetCall.dw D3DRENDERSTATE_ZWRITEENABLE 1,
     SetCall.dw D3DRENDERSTATE_LASTPIXEL 1,
     SetCall.dw D3DRENDERSTATE_TEXTUREMAG D3DFILTER_NEAREST,
     SetCall.dw D3DRENDERSTATE_TEXTUREMIN D3DFILTER_NEAREST,
     SetCall.dw D3DRENDERSTATE_SRCBLEND D3DBLEND_ONE,
     SetCall.dw D3DRENDERSTATE_DESTBLEND D3DBLEND_ZERO,
     SetCall.dw D3DRENDERSTATE_TEXTUREMAPBLEND D3DTBLEND_MODULATE,
     SetCall.dw D3DRENDERSTATE_CULLMODE D3DCULL_CCW,
     SetCall.dw D3DRENDERSTATE_ZFUNC D3DCMP_LESSEQUAL,
     SetCall.dw D3DRENDERSTATE_ALPHAFUNC D3DCMP_ALWAYS,
     SetCall.dw D3DRENDERSTATE_SPECULARENABLE 1,
     SetCall.dw D3DRENDERSTATE_FOGTABLEMODE D3DFOG_NONE,
     SetCall.float D3DRENDERSTATE_FOGTABLESTART FLOAT_BITS_ZERO,
     SetCall.float D3DRENDERSTATE_FOGTABLEEND FLOAT_BITS_ONE,
     SetCall.float D3DRENDERSTATE_FOGTABLEDENSITY FLOAT_BITS_ONE]).1

/-- The report `FILLMODE %u is not supported` made by `apply_render_states`. -/
def fillmode_reported_unsupported (s : RenderStateSet) : Bool :=
  decide (s.get_rs_dw D3DRENDERSTATE_FILLMODE ≠ D3DFILL_SOLID)

/-! ## Shader variants and surface cache slots (`dx9_hw_layer.cpp`) -/

/-- The modes of the enum `Fog` of `hw_layer.h`; its last enumerator `SIZE_OF_FOG` counts
them and is the constant below. -/
inductive Fog where
  | FOG_NONE
  | FOG_VERTEX
  | FOG_TABLE
deriving DecidableEq, Repr

/-- The enumerator `SIZE_OF_FOG`. -/
def SIZE_OF_FOG : Nat := 3

/-- Integer value of a fog mode. -/
def Fog.toNat : Fog → Nat
  | Fog.FOG_NONE => 0
  | Fog.FOG_VERTEX => 1
  | Fog.FOG_TABLE => 2

/-- The enum `TextureBlend` of `hw_layer.h`. -/
inductive TextureBlend where
  | TEXTURE_BLEND_MODULATE
  | TEXTURE_BLEND_MODULATEALPHA
deriving DecidableEq, Repr

/-- The constant `DX9_SHADER_VARIANT_COUNT`. -/
def DX9_SHADER_VARIANT_COUNT : Nat := 13

/-- The constant `SHADER_PRESENT`. -/
def SHADER_PRESENT : Nat := 0

/-- The constant `SHADER_COMPOSE`. -/
def SHADER_COMPOSE : Nat := 1

/-- The constant `SHADER_COMPOSE_NON_BLACK_KEY`. -/
def SHADER_COMPOSE_NON_BLACK_KEY : Nat := 2

/-- The constant `SHADER_COPY`. -/
def SHADER_COPY : Nat := 3

/-- The constant `SHADER_GAME_BASE`. -/
def SHADER_GAME_BASE : Nat := 4

/-- The function `get_shader_index(texture, txt_blend, fog)`. -/
def get_shader_index (texture : Bool) (txt_blend : TextureBlend) (fog : Fog) : Nat :=
  if !texture then SHADER_GAME_BASE + fog.toNat
  else if txt_blend = TextureBlend.TEXTURE_BLEND_MODULATE then
    SHADER_GAME_BASE + SIZE_OF_FOG + fog.toNat
  else SHADER_GAME_BASE + (SIZE_OF_FOG * 2) + fog.toNat

/-- The enumerator `HWFORMAT_NONE` of `HWFormat`. -/
def HWFORMAT_NONE : Nat := 0

/-- The enumerator `HWFORMAT_R5G6B5` of `HWFormat`. -/
def HWFORMAT_R5G6B5 : Nat := 1

/-- The enumerator `HWFORMAT_R4G4B4A4` of `HWFormat`. -/
def HWFORMAT_R4G4B4A4 : Nat := 2

/-- The enumerator `HWFORMAT_ZBUFFER` of `HWFormat`. -/
def HWFORMAT_ZBUFFER : Nat := 3

/-- The constant `SURFACE_CACHE_FORMAT_SLOTS`. -/
def SURFACE_CACHE_FORMAT_SLOTS : Nat := HWFORMAT_R4G4B4A4 - HWFORMAT_R5G6B5 + 1

/-- The constant `MAX_CACHED_SURFACE_SIZE`. -/
def MAX_CACHED_SURFACE_SIZE : Nat := 512

/-- The constant `SURFACE_CACHE_SIZE_SLOTS`. -/
def SURFACE_CACHE_SIZE_SLOTS : Nat := 9

/-- The constant `SURFACE_CACHE_SLOTS`, the length of the array `cache`. -/
def SURFACE_CACHE_SLOTS : Nat :=
  1 + (SURFACE_CACHE_FORMAT_SLOTS * SURFACE_CACHE_SIZE_SLOTS * SURFACE_CACHE_SIZE_SLOTS)

/-- The loop of `log2_rounded_up`: `result` grows while `value > (1u << result)`.  The shift
is made on a 32-bit unsigned; `fuel` bounds the iterations by the 32 defined shift counts. -/
def log2_rounded_up_loop (value : Nat) : (fuel result : Nat) → Nat
  | 0, result => result
  | fuel + 1, result =>
    if value > (1 <<< result) % WORD32 then log2_rounded_up_loop value fuel (result + 1)
    else result

/-- The function `log2_rounded_up(value)`. -/
def log2_rounded_up (value : Nat) : Nat :=
  log2_rounded_up_loop value 32 0

/-- The function `get_cache_slot(width, height, format)`. -/
def get_cache_slot (width height format : Nat) : Nat :=
  -- Component for the format.
  if format < HWFORMAT_R5G6B5 then 0
  else
    let format_cache_index := format - HWFORMAT_R5G6B5
    if format_cache_index ≥ SURFACE_CACHE_FORMAT_SLOTS then 0
    -- Component for the width.
    else if width > MAX_CACHED_SURFACE_SIZE then 0
    else
      let width_cache_index := log2_rounded_up width
      if (1 <<< width_cache_index) % WORD32 ≠ width then 0
      -- Component for the height.
      else if height > MAX_CACHED_SURFACE_SIZE then 0
      else
        let height_cache_index := log2_rounded_up height
        if (1 <<< height_cache_index) % WORD32 ≠ height then 0
        -- Pack everything into the index.
        else
          (((height_cache_index * SURFACE_CACHE_SIZE_SLOTS) + width_cache_index)
            * SURFACE_CACHE_FORMAT_SLOTS + format_cache_index + 1) % WORD32

/-! ## Point lists (`DX9HWLayer::draw_points`) -/

/-- The loop of `draw_points` over the indices that follow the first one.  `base` and `count`
are the `size_t` locals of the open block; the result lists the calls
`DrawPrimitiveUP(D3DPT_POINTLIST, count, vertices + base, ...)` as pairs `(base, count)` in
drawing order, the flush of the last block included. -/
def draw_points_loop : (rest : List Nat) → (base count : Nat) → List (Nat × Nat)
  | [], base, count => if count > 0 then [(base, count)] else []
  | current_index :: rest, base, count =>
    if current_index = (base + count) % WORD32 then
      draw_points_loop rest base ((count + 1) % WORD32)
    else
      (base, count) :: draw_points_loop rest current_index 1

/-- The function `draw_points(vertices, _, _, indices, point_count)`: the list of point-list
draws it issues.  `indices` is the array of `unsigned short` behind the pointer; a
`point_count` beyond its end gives `none`. -/
def draw_points (indices : List Nat) (point_count : Nat) : Option (List (Nat × Nat)) :=
  if point_count = 0 then some []
  else if indices.length < point_count then none
  else
    match indices.take point_count with
    | [] => some []
    | first :: rest => some (draw_points_loop rest first 1)

/-- The vertices drawn by one point-list call: `base`, `base + 1`, ..., `base + count - 1`. -/
def block_indices (block : Nat × Nat) : List Nat :=
  List.range' block.1 block.2

/-- The vertices drawn by a sequence of point-list calls, in drawing order. -/
def drawn_indices (blocks : List (Nat × Nat)) : List Nat :=
  (blocks.map block_indices).flatten

/-- The number of points drawn by a sequence of point-list calls. -/
def drawn_count (blocks : List (Nat × Nat)) : Nat :=
  (blocks.map Prod.snd).sum

/-! ## Reading a depth surface (`DX9HWLayer::read_depth_surface`) -/

/-- The depth formats of a depth record (`info.dx_format`). -/
inductive DepthFormat where
  | D3DFMT_D24X8
  | D3DFMT_D16_LOCKABLE
  | D3DFMT_D32F_LOCKABLE
deriving DecidableEq, Repr

/-- Stores a little-endian `unsigned short`; `none` when an address lies outside the buffer. -/
def write_u16 (memory : List Nat) (offset value : Nat) : Option (List Nat) :=
  if offset + 1 < memory.length then
    some ((memory.set offset (value % 256)).set (offset + 1) (value / 256 % 256))
  else none

/-- The call `memcpy(dest, src, n)` between two buffers. -/
def memcpy (dest_memory : List Nat) (dest : Nat) (src_memory : List Nat) (src n : Nat) :
    Option (List Nat) :=
  if dest + n ≤ dest_memory.length ∧ src + n ≤ src_memory.length then
    some (dest_memory.take dest ++ (src_memory.drop src).take n ++ dest_memory.drop (dest + n))
  else none

/-- The loop of `read_same_format`: one `memcpy` per line, after which both pointers advance
by their pitch. -/
def read_same_format_loop (source : List Nat) (pitch_dest pitch_src bytes_per_line : Nat) :
    (lines dest src : Nat) → List Nat → Option (List Nat)
  | 0, _, _, destination => some destination
  | lines + 1, dest, src, destination =>
    match memcpy destination dest source src bytes_per_line with
    | none => none
    | some destination1 =>
      read_same_format_loop source pitch_dest pitch_src bytes_per_line lines
        (dest + pitch_dest) (src + pitch_src) destination1

/-- The function `read_same_format(destination, pitch_dest, source, pitch_src, width, height,
texel_size)`. -/
def read_same_format (destination : List Nat) (pitch_dest : Nat) (source : List Nat)
    (pitch_src width height texel_size : Nat) : Option (List Nat) :=
  read_same_format_loop source pitch_dest pitch_src ((width * texel_size) % WORD32)
    height 0 0 destination

/-- The inner loop of the `D3DFMT_D32F_LOCKABLE` branch: `count` texels are read through `src`
and stored through `dest`, both advancing by one texel.  `convert` stands for the arithmetic
that turns the bits of a `float` texel into the 16-bit value; the byte addresses reached by
the two pointers are returned with the buffer. -/
def d32f_texels (convert : Nat → Nat) (bits : List Nat) :
    (count dest src : Nat) → List Nat → Option (List Nat × Nat × Nat)
  | 0, dest, src, memory => some (memory, dest, src)
  | count + 1, dest, src, memory =>
    match read_u32 bits src with
    | none => none
    | some texel =>
      match write_u16 memory dest (convert texel) with
      | none => none
      | some memory1 => d32f_texels convert bits count (dest + 2) (src + 4) memory1

/-- The outer loop of the `D3DFMT_D32F_LOCKABLE` branch.  Each pass starts the locals `dest`
and `src` at `line_dest` and `line_src`; the statements `dest += info.stride; src +=
rect.Pitch;` that end the pass advance these locals, whose scope ends there, so the next pass
starts from the same `line_dest` and `line_src`. -/
def d32f_lines (convert : Nat → Nat) (bits : List Nat) (width stride Pitch : Nat)
    (line_dest line_src : Nat) : (lines : Nat) → List Nat → Option (List Nat)
  | 0, memory => some memory
  | lines + 1, memory =>
    match d32f_texels convert bits width line_dest line_src memory with
    | none => none
    | some (memory1, dest, src) =>
      let _dest := dest + 2 * stride
      let _src := src + 4 * Pitch
      d32f_lines convert bits width stride Pitch line_dest line_src lines memory1

/-- The function `read_depth_surface(info, memory)`.  `locked` is the answer of `LockRect`:
the bytes and the pitch of the locked surface, or `none` when the lock fails.  The result is
the CPU buffer after the call, `none` when an address outside a buffer is used. -/
def read_depth_surface (convert : Nat → Nat) (dx_format : DepthFormat)
    (width height stride : Nat) (locked : Option (List Nat × Nat)) (memory : List Nat) :
    Option (List Nat) :=
  if dx_format = DepthFormat.D3DFMT_D24X8 then
    let n := (width * height * 2) % WORD32
    if n ≤ memory.length then some (List.replicate n 0xff ++ memory.drop n) else none
  else
    match locked with
    | none => some memory
    | some (pBits, Pitch) =>
      if dx_format = DepthFormat.D3DFMT_D16_LOCKABLE then
        read_same_format memory stride pBits Pitch width height 2
      else
        d32f_lines convert pBits width stride Pitch 0 0 height memory

/-- The transfer the specification describes for the 32-bit-float format: line `y` of the
destination, at byte offset `y * stride`, receives the conversion of line `y` of the source,
at byte offset `y * Pitch`. -/
def d32f_lines_by_row (convert : Nat → Nat) (bits : List Nat) (width stride Pitch : Nat) :
    (y lines : Nat) → List Nat → Option (List Nat)
  | _, 0, memory => some memory
  | y, lines + 1, memory =>
    match d32f_texels convert bits width (y * stride) (y * Pitch) memory with
    | none => none
    | some (memory1, _, _) =>
      d32f_lines_by_row convert bits width stride Pitch (y + 1) lines memory1

/-! ## Flipping the front and the back buffer (`DirectDrawSurfaceEmu::Flip`) -/

namespace DirectDrawSurfaceEmu

/-- The state of a front or back buffer after the three exchanges of `Flip`: the members
`memory`, `hw_surface` and `master` are those of the `other` surface. -/
def flipped_with (d other : DirectDrawSurfaceEmu) : DirectDrawSurfaceEmu :=
  { d with memory := other.memory, hw_surface := other.hw_surface }.set_master other.master

/-- The assignments `info->emulation_state = EMULATION_STATE_WAITING_FOR_3D_SCENE;
info->emulation_timeout_start = timeGetTime();` as seen from one surface of the hierarchy
that owns the `EmulationInfo`. -/
def start_wait_for_3d_scene (d : DirectDrawSurfaceEmu) (time : Nat) : DirectDrawSurfaceEmu :=
  { d with emulation_timeout_start := time,
           geometry := { d.geometry with
             emulation_state := EmulationState.EMULATION_STATE_WAITING_FOR_3D_SCENE } }

/-- The method `Flip(surface_override, flags)`.  `front` and `back` are the surfaces found by
`find_front_buffer()` and `find_back_buffer()` (`none` for a null result, two distinct
objects otherwise); `surface_override` tells whether the argument is non-null; `time` is the
answer of `timeGetTime()` and `created` the answer of `create_surface`.  The `EmulationInfo`
found by `find_emulation_info()` is the one of the hierarchy, shared by both surfaces; its
presence is read from the front buffer.  The result code comes with the two surfaces after
the call. -/
def Flip (front back : Option DirectDrawSurfaceEmu) (surface_override : Bool)
    (time created : Nat) :
    HRESULT × Option DirectDrawSurfaceEmu × Option DirectDrawSurfaceEmu :=
  if surface_override then (HRESULT.DDERR_UNSUPPORTED, front, back)
  else
    -- Unable to do anything if we do not have both surfaces.
    match front, back with
    | some f, some b =>
      -- Flip memory content of both surfaces.
      let f1 := f.flipped_with b
      let b1 := b.flipped_with f
      -- Ensure that the primary surface is updated if it is the front buffer.
      let f2 := f1.show_primary created
      -- Start wait for next BeginScene if running in the game.
      if f.has_emulation_info then
        (HRESULT.DD_OK, some (f2.start_wait_for_3d_scene time),
          some (b1.start_wait_for_3d_scene time))
      else (HRESULT.DD_OK, some f2, some b1)
    | _, _ => (HRESULT.DDERR_NOTFLIPPABLE, front, back)

end DirectDrawSurfaceEmu

/-- A primary front buffer whose backend copy is current. -/
def front_buffer_sample : DirectDrawSurfaceEmu :=
  { back_buffer_with 1 Master.MASTER_HW with dwCaps := DDSCAPS_PRIMARYSURFACE }

/-- The calls of a log that create or transfer content: `create_surface`,
`update_surface`, `read_surface` and `compose_render_target`. -/
def SurfaceCall.is_data_copy : SurfaceCall → Bool
  | SurfaceCall.create_surface _ _ => true
  | SurfaceCall.update_surface _ _ => true
  | SurfaceCall.read_surface _ => true
  | SurfaceCall.compose_render_target _ _ _ => true
  | SurfaceCall.display_surface _ => false
  | SurfaceCall.marker => false

/-! ## Backend surface records and their multisample copies (`dx9_hw_layer.cpp`) -/

/-- Colour content of a Direct3D surface, described by the writes that produced it.  A write
that replaces the whole content keeps nothing of what was there (`updated`, `cleared_all`); a
write on a part keeps the content `under` it.  `blank` is the content of a new resource. -/
inductive Picture where
  | blank
  | updated (memory : List Nat)
  | cleared_all (color_value : Nat)
  | cleared (left top right bottom : Int) (color_value : Nat) (under : Picture)
  | drawn (primitive count : Nat) (under : Picture)
  | composed (memory : List Nat) (color_key : Bool) (under : Picture)
  | blitted (x y src_x src_y src_width src_height : Nat) (source under : Picture)
deriving DecidableEq, Repr

/-- Value of `D3DCLEAR_TARGET` in the Direct3D headers. -/
def D3DCLEAR_TARGET : Nat := 1

/-- Value of `D3DCLEAR_ZBUFFER` in the Direct3D headers. -/
def D3DCLEAR_ZBUFFER : Nat := 2

/-- Value of `D3DPT_POINTLIST` in the Direct3D headers. -/
def D3DPT_POINTLIST : Nat := 1

/-- Value of `D3DPT_LINELIST` in the Direct3D headers. -/
def D3DPT_LINELIST : Nat := 2

/-- Value of `D3DPT_TRIANGLELIST` in the Direct3D headers. -/
def D3DPT_TRIANGLELIST : Nat := 4

/-- Effect of `IDirect3DDevice9::Clear` with one rectangle on the colour content of a target
of the given size: without `D3DCLEAR_TARGET` the colour content stays, a rectangle that
covers the target replaces it, any other rectangle is written over it. -/
def d3d_clear (width height : Nat) (left top right bottom : Int) (flags color_value : Nat)
    (p : Picture) : Picture :=
  if flags &&& D3DCLEAR_TARGET = 0 then p
  else if left ≤ 0 ∧ top ≤ 0 ∧ (width : Int) ≤ right ∧ (height : Int) ≤ bottom then
    Picture.cleared_all color_value
  else Picture.cleared left top right bottom color_value p

/-- The enum `HWSurfaceInfo::MSAASync`. -/
inductive MSAASync where
  | MSAA_SYNC_TEXTURE
  | MSAA_SYNC_RT
  | MSAA_SYNC_BOTH
deriving DecidableEq, Repr

/-- The struct `HWSurfaceInfo`, the backend surface record.  `surface_0` is the colour
content of level 0 of `texture`; `msaa_render_target` is the content of the multisample
target, `none` for a null pointer; `next_in_cache` is the address of the next record of the
bucket, 0 for `NULL`.  The Direct3D format and the transfer resources are not modelled. -/
structure HWSurfaceInfo where
  width : Nat
  height : Nat
  format : Nat
  render_target : Bool
  surface_0 : Picture
  msaa_render_target : Option Picture
  msaa_sync : MSAASync
  cache_slot : Nat
  next_in_cache : Nat
deriving DecidableEq, Repr

namespace HWSurfaceInfo

/-- The function `synchronize_texture(info)`: `StretchRect` resolves the multisample target
into the texture. -/
def synchronize_texture (info : HWSurfaceInfo) : HWSurfaceInfo :=
  match info.msaa_render_target with
  | none => info
  | some msaa =>
    if info.msaa_sync ≠ MSAASync.MSAA_SYNC_RT then info
    else { info with surface_0 := msaa, msaa_sync := MSAASync.MSAA_SYNC_BOTH }

/-- The function `synchronize_msaa(info)`: `StretchRect` copies the texture into the
multisample target. -/
def synchronize_msaa (info : HWSurfaceInfo) : HWSurfaceInfo :=
  match info.msaa_render_target with
  | none => info
  | some _ =>
    if info.msaa_sync ≠ MSAASync.MSAA_SYNC_TEXTURE then info
    else { info with msaa_render_target := some info.surface_0,
                     msaa_sync := MSAASync.MSAA_SYNC_BOTH }

/-- A write of the device into the colour target that `set_render_target(info, _)` has bound:
the multisample target if the record has one, level 0 of the texture otherwise. -/
def write_bound_target (info : HWSurfaceInfo) (write : Picture → Picture) : HWSurfaceInfo :=
  match info.msaa_render_target with
  | some msaa => { info with msaa_render_target := some (write msaa) }
  | none => { info with surface_0 := write info.surface_0 }

/-- The function `clear(rect, color, depth, color_value, depth_value)` as seen by the record
`info` bound as `state.color_info`; `has_depth_info` tells whether `state.depth_info` is
set.  The depth content is not modelled. -/
def clear (info : HWSurfaceInfo) (left top right bottom : Int)
    (color depth has_depth_info : Bool) (color_value : Nat) : HWSurfaceInfo :=
  -- Ensure that the MSAA RT is properly updated.
  let info1 :=
    if info.msaa_render_target.isSome then
      let info0 :=
        if left ≠ 0 ∨ right ≠ (info.width : Int) ∨ top ≠ 0 ∨ bottom ≠ (info.height : Int) then
          info.synchronize_msaa
        else info
      { info0 with msaa_sync := MSAASync.MSAA_SYNC_RT }
    else info
  -- Clear.
  let flags := (if color then D3DCLEAR_TARGET else 0)
    + (if depth && has_depth_info then D3DCLEAR_ZBUFFER else 0)
  info1.write_bound_target (d3d_clear info.width info.height left top right bottom flags
    color_value)

/-- The block that opens `draw_triangles`, `draw_lines` and `draw_points`: upload of the
texture content to the multisample target if necessary. -/
def upload_before_draw (info : HWSurfaceInfo) : HWSurfaceInfo :=
  if info.msaa_render_target.isSome then
    { info.synchronize_msaa with msaa_sync := MSAASync.MSAA_SYNC_RT }
  else info

/-- The function `draw_triangles` as seen by the record bound as `state.color_info`. -/
def draw_triangles (info : HWSurfaceInfo) (triangle_count : Nat) : HWSurfaceInfo :=
  info.upload_before_draw.write_bound_target (Picture.drawn D3DPT_TRIANGLELIST triangle_count)

/-- The function `draw_lines` as seen by the record bound as `state.color_info`. -/
def draw_lines (info : HWSurfaceInfo) (line_count : Nat) : HWSurfaceInfo :=
  info.upload_before_draw.write_bound_target (Picture.drawn D3DPT_LINELIST line_count)

/-- The function `draw_points` as seen by the record bound as `state.color_info`. -/
def draw_points (info : HWSurfaceInfo) (point_count : Nat) : HWSurfaceInfo :=
  if point_count = 0 then info
  else info.upload_before_draw.write_bound_target (Picture.drawn D3DPT_POINTLIST point_count)

/-- The function `compose_or_update_render_target(info, memory, update, color_key)`;
`color_key` tells whether the key pointer is non-null and `lock_ok` whether the composition
texture can be locked.  A composition on a record whose state is not `MSAA_SYNC_TEXTURE`
and which has no multisample target, excluded by an assertion, leaves the contents as they
are. -/
def compose_or_update_render_target (info : HWSurfaceInfo) (memory : List Nat)
    (update color_key lock_ok : Bool) : HWSurfaceInfo :=
  if !lock_ok then info
  else if !update then
    -- The composition will operate on top of whatever buffer contains the most updated state.
    if info.msaa_sync = MSAASync.MSAA_SYNC_TEXTURE then
      { info with surface_0 := Picture.composed memory color_key info.surface_0 }
    else
      match info.msaa_render_target with
      | some msaa =>
        { info with msaa_render_target := some (Picture.composed memory color_key msaa),
                    msaa_sync := MSAASync.MSAA_SYNC_RT }
      | none => { info with msaa_sync := MSAASync.MSAA_SYNC_RT }
  else
    -- The update will redefine the texture as containing the most relevant content.
    { info with surface_0 := Picture.updated memory, msaa_sync := MSAASync.MSAA_SYNC_TEXTURE }

/-- The function `compose_render_target(surface, memory, color_key)`. -/
def compose_render_target (info : HWSurfaceInfo) (memory : List Nat)
    (color_key lock_ok : Bool) : HWSurfaceInfo :=
  info.compose_or_update_render_target memory false color_key lock_ok

/-- The function `update_render_target(info, memory)`; `hw_color_conversion` is the answer
of `is_hw_color_conversion_enabled()`. -/
def update_render_target (info : HWSurfaceInfo) (memory : List Nat)
    (hw_color_conversion lock_ok : Bool) : HWSurfaceInfo :=
  if hw_color_conversion then info.compose_or_update_render_target memory true false lock_ok
  else if !lock_ok then info
  else
    -- The master copy is now the texture.
    { info with surface_0 := Picture.updated memory, msaa_sync := MSAASync.MSAA_SYNC_TEXTURE }

/-- The function `update_surface(surface, memory)` on the record behind the handle. -/
def update_surface (info : HWSurfaceInfo) (memory : List Nat)
    (hw_color_conversion lock_ok : Bool) : HWSurfaceInfo :=
  -- Depth buffers are not supported for upload.
  if info.format = HWFORMAT_ZBUFFER then info
  -- Render targets are handled in special way.
  else if info.render_target then info.update_render_target memory hw_color_conversion lock_ok
  else if !lock_ok then info
  else { info with surface_0 := Picture.updated memory }

/-- The function `read_render_target(info, memory)`: the record afterwards and the colour
content converted into `memory`, which is taken from the texture. -/
def read_render_target (info : HWSurfaceInfo) : HWSurfaceInfo × Picture :=
  -- Fetch data from the msaa copy to the texture copy if necessary.
  let info1 := info.synchronize_texture
  (info1, info1.surface_0)

/-- The function `bitblt(destination, source, x, y, src_x, src_y, src_width, src_height)` on
two distinct records: both afterwards, destination first. -/
def bitblt (destination source : HWSurfaceInfo) (x y src_x src_y src_width src_height : Nat) :
    HWSurfaceInfo × HWSurfaceInfo :=
  -- Ensure that we have content inside the textures.
  let destination1 := destination.synchronize_texture
  let source1 := source.synchronize_texture
  -- Bind the normal texture to the output.
  ({ destination1 with
      surface_0 := Picture.blitted x y src_x src_y src_width src_height source1.surface_0
        destination1.surface_0,
      msaa_sync := MSAASync.MSAA_SYNC_TEXTURE },
   source1)

/-- The function `display_surface(surface)`: the record afterwards and the colour content
presented, which is taken from the texture. -/
def display_surface (info : HWSurfaceInfo) : HWSurfaceInfo × Picture :=
  let info1 := info.synchronize_texture
  (info1, info1.surface_0)

/-- The copy that `msaa_sync` names as holding the latest colour content: the multisample
target for `MSAA_SYNC_RT`, the texture otherwise. -/
def authoritative (info : HWSurfaceInfo) : Picture :=
  match info.msaa_sync, info.msaa_render_target with
  | MSAASync.MSAA_SYNC_RT, some msaa => msaa
  | _, _ => info.surface_0

/-- The state `MSAA_SYNC_BOTH` is only held when both copies have the same content, and a
record without multisample target is in the state `MSAA_SYNC_TEXTURE`. -/
def Coherent (info : HWSurfaceInfo) : Prop :=
  (info.msaa_sync = MSAASync.MSAA_SYNC_BOTH → info.msaa_render_target = some info.surface_0) ∧
  (info.msaa_render_target = none → info.msaa_sync = MSAASync.MSAA_SYNC_TEXTURE)

instance (info : HWSurfaceInfo) : Decidable info.Coherent := by
  unfold Coherent; infer_instance

end HWSurfaceInfo

/-- A render target of 640 x 480 with a multisample target, whose texture has just received
the content of the CPU buffer: the state after `update_render_target`. -/
def render_target_sample : HWSurfaceInfo :=
  { width := 640, height := 480, format := HWFORMAT_R5G6B5, render_target := true,
    surface_0 := Picture.updated [1, 2, 3, 4],
    msaa_render_target := some Picture.blank,
    msaa_sync := MSAASync.MSAA_SYNC_TEXTURE,
    cache_slot := 0, next_in_cache := 0 }

/-! ## The surface cache (`DX9HWLayer::create_surface`, `DX9HWLayer::destroy_surface`) -/

/-- The struct `CacheSlot`: addresses of the first and the last record of a bucket, 0 for
`NULL`. -/
structure CacheSlot where
  head : Nat
  tail : Nat
deriving DecidableEq, Repr

/-- The part of `DX9HWLayer` used by surface creation and destruction.  `infos` gives the
live `HWSurfaceInfo` objects by address; `cache` is the array of `SURFACE_CACHE_SLOTS`
buckets; `color_info` and `depth_info` are the bound targets of `state`;
`surface_cache_enabled` and `hw_color_conversion` are the answers of the configuration
functions; `multisample` tells whether `multisample_type` is not `D3DMULTISAMPLE_NONE`. -/
structure DX9HWLayer where
  infos : Nat → Option HWSurfaceInfo
  cache : List CacheSlot
  color_info : Nat
  depth_info : Nat
  surface_cache_enabled : Bool
  multisample : Bool
  hw_color_conversion : Bool

namespace DX9HWLayer

/-- The layer after initialisation: no record, every bucket empty, nothing bound. -/
def initial (surface_cache_enabled multisample hw_color_conversion : Bool) : DX9HWLayer :=
  { infos := fun _ => none,
    cache := List.replicate SURFACE_CACHE_SLOTS { head := 0, tail := 0 },
    color_info := 0,
    depth_info := 0,
    surface_cache_enabled := surface_cache_enabled,
    multisample := multisample,
    hw_color_conversion := hw_color_conversion }

/-- The function `create_depth_surface(width, height)`; `device_ok` tells whether the
Direct3D resource is created, `fresh` is the address returned by `new`. -/
def create_depth_surface (L : DX9HWLayer) (width height : Nat) (device_ok : Bool)
    (fresh : Nat) : Nat × DX9HWLayer :=
  if !device_ok then (0, L)
  else
    (fresh, { L with infos := Function.update L.infos fresh (some
      { width := width, height := height, format := HWFORMAT_ZBUFFER, render_target := false,
        surface_0 := Picture.blank, msaa_render_target := none,
        msaa_sync := MSAASync.MSAA_SYNC_TEXTURE, cache_slot := 0, next_in_cache := 0 }) })

/-- The function `create_surface(width, height, format, memory, render_target)`.  `memory`
is `none` for a null pointer; `device_ok` tells whether the Direct3D calls of the function
succeed; `fresh` is the address returned by `new`.  The result is the returned handle (0 for
`NULL`) with the layer afterwards; `none` stands for an access outside the array `cache` or
through a pointer to no live record. -/
def create_surface (L : DX9HWLayer) (width height format : Nat) (memory : Option (List Nat))
    (render_target device_ok : Bool) (fresh : Nat) : Option (Nat × DX9HWLayer) :=
  -- Depth buffers are handled in special way.
  if format = HWFORMAT_ZBUFFER then some (L.create_depth_surface width height device_ok fresh)
  else
    -- Try to find existing entry in the cache.
    let cache_slot :=
      if !render_target && L.surface_cache_enabled then get_cache_slot width height format
      else 0
    let create_new : Option (Nat × DX9HWLayer) :=
      if !device_ok then some (0, L)
      else
        -- Fill the info structure.
        let info : HWSurfaceInfo :=
          { width := width, height := height, format := format,
            render_target := render_target,
            surface_0 := Picture.blank,
            msaa_render_target :=
              if render_target && L.multisample then some Picture.blank else none,
            msaa_sync := MSAASync.MSAA_SYNC_TEXTURE,
            cache_slot := cache_slot, next_in_cache := 0 }
        -- Upload data if we have any.
        let info1 :=
          match memory with
          | some m => info.update_surface m L.hw_color_conversion device_ok
          | none => info
        some (fresh, { L with infos := Function.update L.infos fresh (some info1) })
    if cache_slot ≠ 0 then
      match L.cache.get? cache_slot with
      | none => none
      | some slot =>
        if slot.head ≠ 0 then
          match L.infos slot.head with
          | none => none
          | some info =>
            -- Remove entry from the cache.
            let head1 := info.next_in_cache
            let info1 := { info with next_in_cache := 0 }
            let slot1 : CacheSlot :=
              { head := head1, tail := if head1 = 0 then 0 else slot.tail }
            -- Upload data if we have any.
            let info2 :=
              match memory with
              | some m => info1.update_surface m L.hw_color_conversion device_ok
              | none => info1
            some (slot.head,
              { L with infos := Function.update L.infos slot.head (some info2),
                       cache := L.cache.set cache_slot slot1 })
        else create_new
    else create_new

/-- The block that opens `destroy_surface`: the surface we are going to destroy is unbound
from `state.color_info` and `state.depth_info`. -/
def unbind (L : DX9HWLayer) (surface : Nat) : DX9HWLayer :=
  let L1 := if L.color_info = surface then { L with color_info := 0 } else L
  if L1.depth_info = surface then { L1 with depth_info := 0 } else L1

/-- The function `destroy_surface(surface)`.  The result is the layer afterwards; `none`
stands for an access outside the array `cache` or through a pointer to no live record. -/
def destroy_surface (L : DX9HWLayer) (surface : Nat) : Option DX9HWLayer :=
  let L2 := L.unbind surface
  match L2.infos surface with
  | none => none
  | some info =>
    -- Insert the surface to the cache if it is cacheable, at the end.
    if info.cache_slot ≠ 0 then
      match L2.cache.get? info.cache_slot with
      | none => none
      | some slot =>
        if slot.tail ≠ 0 then
          match L2.infos slot.tail with
          | none => none
          | some last =>
            some { L2 with
              infos := Function.update L2.infos slot.tail
                (some { last with next_in_cache := surface }),
              cache := L2.cache.set info.cache_slot { slot with tail := surface } }
        else
          some { L2 with
            cache := L2.cache.set info.cache_slot { head := surface, tail := surface } }
    else some { L2 with infos := Function.update L2.infos surface none }

/-- The records reached from `head` through `next_in_cache` are those of `l`, in order, and
the last one has a null successor. -/
def IsChain (infos : Nat → Option HWSurfaceInfo) : Nat → List Nat → Prop
  | head, [] => head = 0
  | head, x :: xs =>
    head = x ∧ x ≠ 0 ∧ ∃ r, infos x = some r ∧ IsChain infos r.next_in_cache xs

/-- The buckets of the cache, read as queues: `queue slot` lists the addresses of the records
of bucket `slot` from head to tail.  Every bucket of the array is the chain of its queue and
its tail is the last record; the queues hold each record once; a record in the queue of
`slot` is live and carries that `cache_slot`; a live record outside the queues has a null
successor; render targets and depth records carry `cache_slot` 0. -/
structure CacheIs (L : DX9HWLayer) (queue : Nat → List Nat) : Prop where
  chain : ∀ slot c, L.cache.get? slot = some c →
    IsChain L.infos c.head (queue slot) ∧ c.tail = (queue slot).getLast?.getD 0
  outside : ∀ slot, L.cache.length ≤ slot → queue slot = []
  first : queue 0 = []
  nodup : ∀ slot, (queue slot).Nodup
  slot_of : ∀ slot h, h ∈ queue slot → ∃ r, L.infos h = some r ∧ r.cache_slot = slot
  free_next : ∀ h r, L.infos h = some r → (∀ slot, h ∉ queue slot) → r.next_in_cache = 0
  targets : ∀ h r, L.infos h = some r →
    r.render_target = true ∨ r.format = HWFORMAT_ZBUFFER → r.cache_slot = 0

/-- The record at `surface` is handed out: it is live and in no bucket. -/
def HandedOut (L : DX9HWLayer) (queue : Nat → List Nat) (surface : Nat) : Prop :=
  surface ≠ 0 ∧ (∃ r, L.infos surface = some r) ∧ ∀ slot, surface ∉ queue slot

/-- The layer after a call of `create_surface` for a texture without initial content, with
working device; the layer itself if the call has no defined result. -/
def created (L : DX9HWLayer) (width height format fresh : Nat) : DX9HWLayer :=
  ((L.create_surface width height format none false true fresh).map Prod.snd).getD L

/-- The layer after a call of `destroy_surface`; the layer itself if the call has no defined
result. -/
def destroyed (L : DX9HWLayer) (surface : Nat) : DX9HWLayer :=
  (L.destroy_surface surface).getD L

end DX9HWLayer

/-- The queues of a cache whose buckets are all empty. -/
def no_queue : Nat → List Nat :=
  fun _ => []

/-- A layer with enabled cache in which a texture of 512 x 128 texels of format 5:6:5 has been
created at address 1 and destroyed. -/
def cache_with_retired_512_by_128 : DX9HWLayer :=
  ((DX9HWLayer.initial true false false).created 512 128 HWFORMAT_R5G6B5 1).destroyed 1

/-- A layer with enabled cache in which two textures of 256 x 256 texels of format 5:6:5 have
been created at the addresses 1 and 2. -/
def cache_with_two_textures : DX9HWLayer :=
  ((DX9HWLayer.initial true false false).created 256 256 HWFORMAT_R5G6B5 1).created
    256 256 HWFORMAT_R5G6B5 2

/-- The record of a texture of 256 x 256 texels of format 5:6:5 created with enabled cache:
its cache slot is 161. -/
def texture_256_record : HWSurfaceInfo :=
  { width := 256, height := 256, format := HWFORMAT_R5G6B5, render_target := false,
    surface_0 := Picture.blank, msaa_render_target := none,
    msaa_sync := MSAASync.MSAA_SYNC_TEXTURE, cache_slot := 161, next_in_cache := 0 }

/-- The layer `cache_with_two_textures` after the texture at address 2 and then the texture
at address 1 have been destroyed. -/
def cache_with_two_retired : DX9HWLayer :=
  (cache_with_two_textures.destroyed 2).destroyed 1







/-! ## Streams laid out as their headers say -/

/-- The instruction is laid out as its header says, a supported opcode carries elements of
its own type (so `bSize` is the size of that type), and its operations succeed on a surface
holding `vertex_count` vertices.  Nothing is asked of the size and count of an instruction
without element type, `D3DOP_EXIT` included, beyond the payload being present. -/
def Instruction.LaidOut (vertex_count : Nat) : Instruction → Prop
  | Instruction.operation bOpcode elements =>
    (operation_of_opcode bOpcode).isSome = true ∧ elements.length < 2 ^ 16 ∧
    ∀ e ∈ elements, e.opcode = bOpcode ∧ e.InRange ∧ e.Succeeds vertex_count
  | Instruction.other bOpcode bSize wCount payload =>
    (operation_of_opcode bOpcode).isSome = false ∧
    bOpcode < 2 ^ 8 ∧ bSize < 2 ^ 8 ∧ wCount < 2 ^ 16 ∧
    payload.length = bSize * wCount ∧ (∀ b ∈ payload, b < 2 ^ 8)

instance (vertex_count : Nat) (i : Instruction) : Decidable (i.LaidOut vertex_count) := by
  cases i <;> unfold Instruction.LaidOut <;> infer_instance

/-- Every instruction of the stream is laid out as its header says. -/
def StreamLaidOut (vertex_count : Nat) (stream : List Instruction) : Prop :=
  ∀ i ∈ stream, i.LaidOut vertex_count

instance (vertex_count : Nat) (stream : List Instruction) :
    Decidable (StreamLaidOut vertex_count stream) := by
  unfold StreamLaidOut; infer_instance

/-- A stream of three instructions: `D3DOP_EXIT` with `bSize` 4, `wCount` 1 and four payload
bytes, the triangle (0, 1, 2), and `D3DOP_EXIT` without payload. -/
def stream_exit_with_payload : List Instruction :=
  [Instruction.other D3DOP_EXIT 4 1 [0, 0, 0, 0],
   Instruction.operation D3DOP_TRIANGLE [Element.triangle 0 1 2 0],
   Instruction.other D3DOP_EXIT 0 0 []]

/-- A layer with enabled cache holding at address 1 the record of a texture of 512 x 512
texels of format 5:6:5: the record that `create_surface` fills when the read of the bucket
head for such a request yields a null pointer.  Its cache slot is the one computed by
`get_cache_slot`. -/
def cache_with_512_texture : DX9HWLayer :=
  { DX9HWLayer.initial true false false with
    infos := Function.update (fun _ => none) 1 (some
      { width := 512, height := 512, format := HWFORMAT_R5G6B5, render_target := false,
        surface_0 := Picture.blank, msaa_render_target := none,
        msaa_sync := MSAASync.MSAA_SYNC_TEXTURE,
        cache_slot := get_cache_slot 512 512 HWFORMAT_R5G6B5, next_in_cache := 0 }) }

/-! # Theorems -/

/-! ## Render state set -/

theorem weightedSum_set (k : Nat) (xs : List Nat) (i v : Nat) (hi : i < xs.length) :
    weightedSum k (xs.set i v) + (k + i) * xs.getD i 0 = weightedSum k xs + (k + i) * v := by
  induction xs generalizing k i with
  | nil => simp at hi
  | cons x xs ih =>
    cases i with
    | zero => simp [weightedSum]; ring
    | succ j =>
      have hj : j < xs.length := by simpa using hi
      have := ih (k + 1) j hj
      simp only [List.set_cons_succ, weightedSum, List.getD_cons_succ]
      have e : k + (j + 1) = k + 1 + j := by omega
      rw [e]; omega

theorem weightedSum_le (k : Nat) (xs : List Nat) (h : ∀ x ∈ xs, x < WORD32) :
    weightedSum k xs ≤ (k + xs.length) * xs.length * WORD32 := by
  induction xs generalizing k with
  | nil => simp [weightedSum]
  | cons x xs ih =>
    have hx : x < WORD32 := h x (by simp)
    have := ih (k + 1) (fun y hy => h y (by simp [hy]))
    simp only [weightedSum, List.length_cons]
    have h1 : k * x ≤ k * WORD32 := Nat.mul_le_mul_left _ (Nat.le_of_lt hx)
    have h2 : (k + 1 + xs.length) * xs.length * WORD32 + k * WORD32 ≤ (k + (xs.length + 1)) * (xs.length + 1) * WORD32 := by
      have : (k + 1 + xs.length) * xs.length + k ≤ (k + (xs.length + 1)) * (xs.length + 1) := by nlinarith
      calc (k + 1 + xs.length) * xs.length * WORD32 + k * WORD32 = ((k + 1 + xs.length) * xs.length + k) * WORD32 := by ring
        _ ≤ _ := Nat.mul_le_mul_right _ this
    omega

theorem weightedSum_lt_word64 (xs : List Nat) (hl : xs.length = RENDER_STATE_COUNT)
    (h : ∀ x ∈ xs, x < WORD32) : weightedSum 0 xs < WORD64 := by
  have := weightedSum_le 0 xs h
  rw [hl] at this
  have e : (0 + RENDER_STATE_COUNT) * RENDER_STATE_COUNT * WORD32 < WORD64 := by decide
  omega

theorem getD_lt_word32 (xs : List Nat) (h : ∀ x ∈ xs, x < WORD32) (i : Nat) :
    xs.getD i 0 < WORD32 := by
  by_cases hi : i < xs.length
  · rw [List.getD_eq_getElem _ _ hi]; exact h _ (List.getElem_mem _)
  · rw [List.getD_eq_default _ _ (by omega)]; decide

theorem new_valid : RenderStateSet.new.Valid := by
  refine ⟨by simp [RenderStateSet.new], ?_, by decide, by decide⟩
  intro x hx
  simp [RenderStateSet.new] at hx
  rw [hx.2]; decide

theorem set_rs_dw_eq_of_same (s : RenderStateSet) (t v : Nat) (h : s.states.getD t 0 = v) :
    s.set_rs_dw t v = (false, s) := by
  simp only [RenderStateSet.set_rs_dw, h, if_true]

theorem set_rs_dw_eq_of_ne (s : RenderStateSet) (t v : Nat) (h : s.states.getD t 0 ≠ v) :
    s.set_rs_dw t v = (true, { states := s.states.set t v,
                               hash := ((s.hash + WORD64 - (t * s.states.getD t 0) % WORD64) % WORD64 + (t * v) % WORD64) % WORD64,
                               sequence_number := (s.sequence_number + 1) % WORD32 }) := by
  simp only [RenderStateSet.set_rs_dw, h, if_false]

theorem set_rs_dw_true_iff (s : RenderStateSet) (t v : Nat) :
    (s.set_rs_dw t v).1 = true ↔ v ≠ s.states.getD t 0 := by
  by_cases h : s.states.getD t 0 = v
  · rw [set_rs_dw_eq_of_same s t v h]
    constructor
    · intro hc; cases hc
    · intro hc; exact absurd h.symm hc
  · rw [set_rs_dw_eq_of_ne s t v h]
    constructor
    · intro _ hc; exact h hc.symm
    · intro _; rfl

theorem set_rs_dw_unchanged (s : RenderStateSet) (t v : Nat) (h : (s.set_rs_dw t v).1 = false) :
    (s.set_rs_dw t v).2 = s := by
  by_cases h' : s.states.getD t 0 = v
  · rw [set_rs_dw_eq_of_same s t v h']
  · rw [set_rs_dw_eq_of_ne s t v h'] at h; cases h

theorem set_same_getD (xs : List Nat) (t : Nat) : xs.set t (xs.getD t 0) = xs := by
  induction xs generalizing t with
  | nil => rfl
  | cons x xs ih =>
    cases t with
    | zero => rfl
    | succ j =>
      show x :: xs.set j (xs.getD j 0) = x :: xs
      rw [ih]

theorem set_rs_dw_states (s : RenderStateSet) (t v : Nat) :
    (s.set_rs_dw t v).2.states = s.states.set t v := by
  by_cases h : s.states.getD t 0 = v
  · rw [set_rs_dw_eq_of_same s t v h, ← h, set_same_getD]
  · rw [set_rs_dw_eq_of_ne s t v h]

theorem set_rs_dw_hash (s : RenderStateSet) (t v : Nat) (hs : s.Valid)
    (ht : t < RENDER_STATE_COUNT) (hv : v < WORD32) :
    (s.set_rs_dw t v).2.hash = weightedSum 0 (s.states.set t v) % WORD64 := by
  have hlt : t < s.states.length := by rw [hs.length_eq]; exact ht
  have key := weightedSum_set 0 s.states t v hlt
  have hold := getD_lt_word32 s.states hs.slot_lt t
  have hW := weightedSum_lt_word64 s.states hs.length_eq hs.slot_lt
  by_cases h : s.states.getD t 0 = v
  · rw [set_rs_dw_eq_of_same s t v h, ← h, set_same_getD]; exact hs.hash_eq
  · rw [set_rs_dw_eq_of_ne s t v h]
    show ((s.hash + WORD64 - (t * s.states.getD t 0) % WORD64) % WORD64 + (t * v) % WORD64) % WORD64 = _
    rw [hs.hash_eq]
    simp only [Nat.zero_add] at key
    generalize s.states.getD t 0 = a at *
    generalize weightedSum 0 s.states = W at *
    generalize weightedSum 0 (s.states.set t v) = W2 at *
    have hta : t * a < WORD64 := by
      have : t * a < 39 * WORD32 := by
        have h39 : RENDER_STATE_COUNT = 39 := rfl
        rw [h39] at ht
        calc t * a ≤ 38 * a := Nat.mul_le_mul_right _ (by omega)
          _ < 39 * WORD32 := by omega
      have : 39 * WORD32 < WORD64 := by decide
      omega
    have htv : t * v < WORD64 := by
      have : t * v < 39 * WORD32 := by
        have h39 : RENDER_STATE_COUNT = 39 := rfl
        rw [h39] at ht
        calc t * v ≤ 38 * v := Nat.mul_le_mul_right _ (by omega)
          _ < 39 * WORD32 := by omega
      have : 39 * WORD32 < WORD64 := by decide
      omega
    rw [Nat.mod_eq_of_lt hW, Nat.mod_eq_of_lt hta, Nat.mod_eq_of_lt htv]
    generalize t * a = p at *
    generalize t * v = q at *
    simp only [WORD64] at *
    omega

theorem set_rs_dw_valid (s : RenderStateSet) (t v : Nat) (hs : s.Valid)
    (ht : t < RENDER_STATE_COUNT) (hv : v < WORD32) : (s.set_rs_dw t v).2.Valid := by
  refine ⟨?_, ?_, ?_, ?_⟩
  · rw [set_rs_dw_states, List.length_set]; exact hs.length_eq
  · rw [set_rs_dw_states]
    intro x hx
    rcases List.mem_or_eq_of_mem_set hx with h | h
    · exact hs.slot_lt x h
    · rw [h]; exact hv
  · rw [set_rs_dw_hash s t v hs ht hv, set_rs_dw_states]
  · by_cases h : s.states.getD t 0 = v
    · rw [set_rs_dw_eq_of_same s t v h]; exact hs.seq_lt
    · rw [set_rs_dw_eq_of_ne s t v h]
      exact Nat.mod_lt _ (by decide)

theorem set_rs_dw_seq (s : RenderStateSet) (t v : Nat) :
    (s.set_rs_dw t v).2.sequence_number
      = if (s.set_rs_dw t v).1 then (s.sequence_number + 1) % WORD32 else s.sequence_number := by
  by_cases h : s.states.getD t 0 = v
  · rw [set_rs_dw_eq_of_same s t v h]; rfl
  · rw [set_rs_dw_eq_of_ne s t v h]; rfl

theorem apply_eq (c : SetCall) (s : RenderStateSet) : c.apply s = s.set_rs_dw c.type c.value := by
  cases c <;> rfl

theorem applyCalls_spec (s : RenderStateSet) (cs : List SetCall) (hs : s.Valid)
    (hc : ∀ c ∈ cs, c.InRange) :
    (applyCalls s cs).1.Valid ∧
    (applyCalls s cs).1.sequence_number = (s.sequence_number + (applyCalls s cs).2) % WORD32 := by
  induction cs generalizing s with
  | nil =>
    refine ⟨hs, ?_⟩
    show s.sequence_number = (s.sequence_number + 0) % WORD32
    rw [Nat.add_zero, Nat.mod_eq_of_lt hs.seq_lt]
  | cons c cs ih =>
    have hin : c.InRange := hc c (by simp)
    have hv : (c.apply s).2.Valid := by
      rw [apply_eq]; exact set_rs_dw_valid s _ _ hs hin.1 hin.2
    have := ih (c.apply s).2 hv (fun d hd => hc d (by simp [hd]))
    refine ⟨this.1, ?_⟩
    show (applyCalls (c.apply s).2 cs).1.sequence_number
      = (s.sequence_number + ((if (c.apply s).1 then 1 else 0) + (applyCalls (c.apply s).2 cs).2)) % WORD32
    rw [this.2]
    have hseq : (c.apply s).2.sequence_number
        = if (c.apply s).1 then (s.sequence_number + 1) % WORD32 else s.sequence_number := by
      rw [apply_eq]; exact set_rs_dw_seq s _ _
    rw [hseq]
    generalize (applyCalls (c.apply s).2 cs).2 = n
    cases (c.apply s).1
    · simp
    · simp only [if_true]
      rw [Nat.mod_add_mod]
      congr 1; omega

theorem reachable_valid (cs : List SetCall) (hc : ∀ c ∈ cs, c.InRange) :
    (applyCalls RenderStateSet.new cs).1.Valid :=
  (applyCalls_spec RenderStateSet.new cs new_valid hc).1

theorem states_eq_iff_slots (a b : RenderStateSet) (ha : a.Valid) (hb : b.Valid) :
    a.states = b.states ↔ ∀ i, i < RENDER_STATE_COUNT → a.get_rs_dw i = b.get_rs_dw i := by
  constructor
  · intro h i _; unfold RenderStateSet.get_rs_dw; rw [h]
  · intro h
    apply List.ext_getElem
    · rw [ha.length_eq, hb.length_eq]
    · intro i h1 h2
      have := h i (by rw [← ha.length_eq]; exact h1)
      unfold RenderStateSet.get_rs_dw at this
      rw [List.getD_eq_getElem _ _ h1, List.getD_eq_getElem _ _ h2] at this
      exact this

theorem equals_iff_states (a b : RenderStateSet) (ha : a.Valid) (hb : b.Valid) :
    a.equals b = true ↔ a.states = b.states := by
  unfold RenderStateSet.equals RenderStateSet.compare_states
  constructor
  · intro h
    by_cases hh : a.hash ≠ b.hash
    · rw [if_pos hh] at h; cases h
    · rw [if_neg hh] at h; exact of_decide_eq_true h
  · intro h
    have hh : ¬ a.hash ≠ b.hash := by
      rw [ha.hash_eq, hb.hash_eq, h]; exact fun hc => hc rfl
    rw [if_neg hh]; exact decide_eq_true h

theorem applyCalls_count_zero (s : RenderStateSet) (cs : List SetCall)
    (h : (applyCalls s cs).2 = 0) : (applyCalls s cs).1 = s := by
  induction cs generalizing s with
  | nil => rfl
  | cons c cs ih =>
    have h' : (if (c.apply s).1 then 1 else 0) + (applyCalls (c.apply s).2 cs).2 = 0 := h
    have h1 : (c.apply s).1 = false := by
      cases hb : (c.apply s).1
      · rfl
      · rw [hb] at h'; simp at h'
    have h2 : (applyCalls (c.apply s).2 cs).2 = 0 := by omega
    have h3 : (c.apply s).2 = s := by
      rw [apply_eq] at h1 ⊢; exact set_rs_dw_unchanged s _ _ h1
    show (applyCalls (c.apply s).2 cs).1 = s
    rw [ih _ h2, h3]

theorem applyCalls_count_le (s : RenderStateSet) (cs : List SetCall) :
    (applyCalls s cs).2 ≤ cs.length := by
  induction cs generalizing s with
  | nil => exact Nat.le_refl _
  | cons c cs ih =>
    show (if (c.apply s).1 then 1 else 0) + (applyCalls (c.apply s).2 cs).2 ≤ cs.length + 1
    have := ih (c.apply s).2
    cases (c.apply s).1 <;> simp <;> omega

theorem equals_self (s : RenderStateSet) : s.equals s = true := by
  unfold RenderStateSet.equals RenderStateSet.compare_states
  rw [if_neg (fun hc => hc rfl)]; exact decide_eq_true rfl

theorem equals_with_sequence_older_copy (s : RenderStateSet) (cs : List SetCall) (hs : s.Valid)
    (hc : ∀ c ∈ cs, c.InRange) (hlen : cs.length < WORD32) :
    s.equals_with_sequence (applyCalls s cs).1 = s.equals (applyCalls s cs).1 := by
  have hspec := applyCalls_spec s cs hs hc
  have hle := applyCalls_count_le s cs
  unfold RenderStateSet.equals_with_sequence
  by_cases hseq : s.sequence_number = (applyCalls s cs).1.sequence_number
  · rw [if_pos hseq]
    have hn : (applyCalls s cs).2 = 0 := by
      have h2 := hspec.2
      rw [← hseq] at h2
      have := hs.seq_lt
      generalize (applyCalls s cs).2 = n at *
      simp only [WORD32] at *
      omega
    rw [applyCalls_count_zero s cs hn, equals_self]
  · rw [if_neg hseq]

theorem ofCalls_valid (cs : List SetCall) (hc : ∀ c ∈ cs, c.InRange) :
    (RenderStateSet.ofCalls cs).Valid := reachable_valid cs hc

theorem equals_comm (a b : RenderStateSet) : a.equals b = b.equals a := by
  unfold RenderStateSet.equals RenderStateSet.compare_states
  by_cases h : a.hash = b.hash
  · rw [if_neg (fun hc => hc h), if_neg (fun hc => hc h.symm)]
    by_cases hs : a.states = b.states
    · rw [decide_eq_true hs, decide_eq_true hs.symm]
    · rw [decide_eq_false hs, decide_eq_false (fun hc => hs hc.symm)]
  · rw [if_pos h, if_pos (fun hc => h hc.symm)]

theorem equals_with_sequence_comm (a b : RenderStateSet) :
    a.equals_with_sequence b = b.equals_with_sequence a := by
  unfold RenderStateSet.equals_with_sequence
  by_cases h : a.sequence_number = b.sequence_number
  · rw [if_pos h, if_pos h.symm]
  · rw [if_neg h, if_neg (fun hc => h hc.symm), equals_comm]

theorem set_back (s : RenderStateSet) (t v : Nat) (hs : s.Valid) (ht : t < RENDER_STATE_COUNT)
    (hne : v ≠ s.get_rs_dw t) :
    ((s.set_rs_dw t v).2.set_rs_dw t (s.get_rs_dw t)).2.states = s.states ∧
    ((s.set_rs_dw t v).2.set_rs_dw t (s.get_rs_dw t)).2.sequence_number
      = ((s.sequence_number + 1) % WORD32 + 1) % WORD32 := by
  have hlt : t < s.states.length := by rw [hs.length_eq]; exact ht
  have h1 : (s.set_rs_dw t v).1 = true := (set_rs_dw_true_iff s t v).2 hne
  have hst : (s.set_rs_dw t v).2.states = s.states.set t v := set_rs_dw_states s t v
  have hget : (s.set_rs_dw t v).2.states.getD t 0 = v := by
    rw [hst, List.getD_eq_getElem _ _ (by rw [List.length_set]; exact hlt)]
    exact List.getElem_set_self _
  have h2 : ((s.set_rs_dw t v).2.set_rs_dw t (s.get_rs_dw t)).1 = true := by
    rw [set_rs_dw_true_iff, hget]; exact fun hc => hne hc.symm
  constructor
  · rw [set_rs_dw_states, hst, List.set_set]
    exact set_same_getD s.states t
  · rw [set_rs_dw_seq, h2, if_pos rfl, set_rs_dw_seq, h1, if_pos rfl]

/-- Claim C1.  For every set reached from a freshly constructed one by calls of `set_rs_dw`
and `set_rs_float` with identifiers below `RENDER_STATE_COUNT` (copies share the value), the
hash is the sum over the slots of identifier × value modulo 2^64 and the sequence number is
the number of calls that returned true modulo 2^32; a further call returns true exactly when
the new value differs from the stored one, and a call returning false leaves the whole set
unchanged. -/
theorem C1_hash_and_sequence_invariant (cs : List SetCall) (hc : ∀ c ∈ cs, c.InRange) :
    (applyCalls RenderStateSet.new cs).1.hash
        = weightedSum 0 (applyCalls RenderStateSet.new cs).1.states % WORD64 ∧
    (applyCalls RenderStateSet.new cs).1.sequence_number
        = (applyCalls RenderStateSet.new cs).2 % WORD32 ∧
    (∀ c : SetCall, c.InRange →
      ((c.apply (applyCalls RenderStateSet.new cs).1).1 = true
          ↔ c.value ≠ (applyCalls RenderStateSet.new cs).1.states.getD c.type 0) ∧
      ((c.apply (applyCalls RenderStateSet.new cs).1).1 = false
          → (c.apply (applyCalls RenderStateSet.new cs).1).2 = (applyCalls RenderStateSet.new cs).1)) := by
  have h := applyCalls_spec RenderStateSet.new cs new_valid hc
  refine ⟨h.1.hash_eq, ?_, ?_⟩
  · rw [h.2]; show (0 + _) % WORD32 = _; rw [Nat.zero_add]
  · intro c _
    rw [apply_eq]
    exact ⟨set_rs_dw_true_iff _ _ _, set_rs_dw_unchanged _ _ _⟩

/-- Claim C1 at the calls SHADEMODE := 2, FOGTABLEDENSITY := 1.0f, SHADEMODE := 2 again. -/
theorem C1_hash_and_sequence_invariant_witness :
    (applyCalls RenderStateSet.new
        [SetCall.dw 9 2, SetCall.float 38 0x3F800000, SetCall.dw 9 2]).1.hash
      = weightedSum 0 (applyCalls RenderStateSet.new
          [SetCall.dw 9 2, SetCall.float 38 0x3F800000, SetCall.dw 9 2]).1.states % WORD64 ∧
    (applyCalls RenderStateSet.new
        [SetCall.dw 9 2, SetCall.float 38 0x3F800000, SetCall.dw 9 2]).1.sequence_number
      = 2 % WORD32 :=
  ⟨(C1_hash_and_sequence_invariant
      [SetCall.dw 9 2, SetCall.float 38 0x3F800000, SetCall.dw 9 2] (by decide)).1,
   (C1_hash_and_sequence_invariant
      [SetCall.dw 9 2, SetCall.float 38 0x3F800000, SetCall.dw 9 2] (by decide)).2.1⟩

/-- Claim C2.  For two reachable sets, `equals` answers true exactly when every slot holds
the same value in both; different hashes imply different contents (the shortcut never
rejects equal sets), and equal hashes hand the answer to the full compare. -/
theorem C2_equals_iff_same_content (ca cb : List SetCall)
    (ha : ∀ c ∈ ca, c.InRange) (hb : ∀ c ∈ cb, c.InRange) :
    ((RenderStateSet.ofCalls ca).equals (RenderStateSet.ofCalls cb) = true
      ↔ ∀ i, i < RENDER_STATE_COUNT →
          (RenderStateSet.ofCalls ca).get_rs_dw i
            = (RenderStateSet.ofCalls cb).get_rs_dw i) ∧
    ((RenderStateSet.ofCalls ca).hash ≠ (RenderStateSet.ofCalls cb).hash →
      (RenderStateSet.ofCalls ca).compare_states (RenderStateSet.ofCalls cb) = false) ∧
    ((RenderStateSet.ofCalls ca).hash = (RenderStateSet.ofCalls cb).hash →
      (RenderStateSet.ofCalls ca).equals (RenderStateSet.ofCalls cb)
        = (RenderStateSet.ofCalls ca).compare_states (RenderStateSet.ofCalls cb)) := by
  have hA := ofCalls_valid ca ha
  have hB := ofCalls_valid cb hb
  generalize RenderStateSet.ofCalls ca = A at *
  generalize RenderStateSet.ofCalls cb = B at *
  refine ⟨?_, ?_, ?_⟩
  · rw [equals_iff_states A B hA hB, states_eq_iff_slots A B hA hB]
  · intro hne
    unfold RenderStateSet.compare_states
    apply decide_eq_false
    intro hs
    apply hne
    rw [hA.hash_eq, hB.hash_eq, hs]
  · intro he
    unfold RenderStateSet.equals
    rw [if_neg (fun hc => hc he)]

/-- Claim C2 at the sets built by slot 1 := 2 and by slot 2 := 1, whose hashes collide. -/
theorem C2_equals_iff_same_content_witness :
    (RenderStateSet.ofCalls [SetCall.dw 1 2]).hash = (RenderStateSet.ofCalls [SetCall.dw 2 1]).hash ∧
    (RenderStateSet.ofCalls [SetCall.dw 1 2]).equals (RenderStateSet.ofCalls [SetCall.dw 2 1])
      = (RenderStateSet.ofCalls [SetCall.dw 1 2]).compare_states
          (RenderStateSet.ofCalls [SetCall.dw 2 1]) :=
  ⟨by decide,
   (C2_equals_iff_same_content [SetCall.dw 1 2] [SetCall.dw 2 1] (by decide) (by decide)).2.2
     (by decide)⟩

/-- Claim C3 fails as stated: the sets built by slot 1 := 5 and by slot 2 := 7 have the same
sequence number, `equals_with_sequence` answers true and `equals` answers false. -/
theorem C3_counterexample :
    (RenderStateSet.ofCalls [SetCall.dw 1 5]).sequence_number
      = (RenderStateSet.ofCalls [SetCall.dw 2 7]).sequence_number ∧
    (RenderStateSet.ofCalls [SetCall.dw 1 5]).equals_with_sequence
      (RenderStateSet.ofCalls [SetCall.dw 2 7]) = true ∧
    (RenderStateSet.ofCalls [SetCall.dw 1 5]).equals
      (RenderStateSet.ofCalls [SetCall.dw 2 7]) = false := by
  decide

/-- Claim C3, amended.  When one set is an older copy of the other, which then went through
fewer than 2^32 further set calls, `equals_with_sequence` and `equals` agree in both
directions; a copy with no further mutation is reported equal by both; a copy whose slot is
changed and set back has a sequence number larger by two and is still reported equal. -/
theorem C3_older_copy_fast_path_sound (ca cs : List SetCall)
    (ha : ∀ c ∈ ca, c.InRange) (hcs : ∀ c ∈ cs, c.InRange) (hlen : cs.length < WORD32) :
    ((RenderStateSet.ofCalls ca).equals_with_sequence (applyCalls (RenderStateSet.ofCalls ca) cs).1
      = (RenderStateSet.ofCalls ca).equals (applyCalls (RenderStateSet.ofCalls ca) cs).1) ∧
    ((applyCalls (RenderStateSet.ofCalls ca) cs).1.equals_with_sequence (RenderStateSet.ofCalls ca)
      = (applyCalls (RenderStateSet.ofCalls ca) cs).1.equals (RenderStateSet.ofCalls ca)) ∧
    (RenderStateSet.ofCalls ca).equals_with_sequence (RenderStateSet.ofCalls ca) = true ∧
    (RenderStateSet.ofCalls ca).equals (RenderStateSet.ofCalls ca) = true ∧
    (∀ t v, t < RENDER_STATE_COUNT → v < WORD32 → v ≠ (RenderStateSet.ofCalls ca).get_rs_dw t →
      (((RenderStateSet.ofCalls ca).set_rs_dw t v).2.set_rs_dw t
          ((RenderStateSet.ofCalls ca).get_rs_dw t)).2.sequence_number
        = ((RenderStateSet.ofCalls ca).sequence_number + 2) % WORD32 ∧
      (((RenderStateSet.ofCalls ca).set_rs_dw t v).2.set_rs_dw t
          ((RenderStateSet.ofCalls ca).get_rs_dw t)).2.equals (RenderStateSet.ofCalls ca) = true ∧
      (((RenderStateSet.ofCalls ca).set_rs_dw t v).2.set_rs_dw t
          ((RenderStateSet.ofCalls ca).get_rs_dw t)).2.equals_with_sequence
            (RenderStateSet.ofCalls ca) = true) := by
  have hA := ofCalls_valid ca ha
  generalize RenderStateSet.ofCalls ca = A at *
  have h1 := equals_with_sequence_older_copy A cs hA hcs hlen
  refine ⟨h1, ?_, ?_, equals_self A, ?_⟩
  · rw [equals_with_sequence_comm, equals_comm, h1]
  · unfold RenderStateSet.equals_with_sequence; rw [if_pos rfl]
  · intro t v ht hv hne
    have hb := set_back A t v hA ht hne
    have hV : ((A.set_rs_dw t v).2.set_rs_dw t (A.get_rs_dw t)).2.Valid :=
      set_rs_dw_valid _ _ _ (set_rs_dw_valid A t v hA ht hv) ht
        (getD_lt_word32 A.states hA.slot_lt t)
    have he : ((A.set_rs_dw t v).2.set_rs_dw t (A.get_rs_dw t)).2.equals A = true :=
      (equals_iff_states _ _ hV hA).2 hb.1
    refine ⟨?_, he, ?_⟩
    · rw [hb.2, Nat.mod_add_mod]
    · unfold RenderStateSet.equals_with_sequence
      split
      · rfl
      · exact he

/-- Claim C3, amended, at the copy SHADEMODE := 2 changed by ZENABLE := 1 and back. -/
theorem C3_older_copy_fast_path_sound_witness :
    (RenderStateSet.ofCalls [SetCall.dw 9 2]).equals_with_sequence
        (applyCalls (RenderStateSet.ofCalls [SetCall.dw 9 2])
          [SetCall.dw 7 1, SetCall.dw 7 0]).1
      = (RenderStateSet.ofCalls [SetCall.dw 9 2]).equals
        (applyCalls (RenderStateSet.ofCalls [SetCall.dw 9 2])
          [SetCall.dw 7 1, SetCall.dw 7 0]).1 :=
  (C3_older_copy_fast_path_sound [SetCall.dw 9 2] [SetCall.dw 7 1, SetCall.dw 7 0]
    (by decide) (by decide) (by decide)).1

/-- Claim C4 fails as stated: one set call each (slot 1 := 2, slot 2 := 1) gives two sets with
the same hash and different contents. -/
theorem C4_counterexample :
    [SetCall.dw 1 2].length < RENDER_STATE_COUNT * RENDER_STATE_COUNT ∧
    [SetCall.dw 2 1].length < RENDER_STATE_COUNT * RENDER_STATE_COUNT ∧
    (RenderStateSet.ofCalls [SetCall.dw 1 2]).hash = (RenderStateSet.ofCalls [SetCall.dw 2 1]).hash ∧
    (RenderStateSet.ofCalls [SetCall.dw 1 2]).get_rs_dw 1
      ≠ (RenderStateSet.ofCalls [SetCall.dw 2 1]).get_rs_dw 1 := by
  decide

/-- Claim C4, amended.  For reachable sets, equal slot contents give equal hashes (so
different hashes prove different contents), and a set call that changes a slot with a
non-zero identifier always changes the hash. -/
theorem C4_hash_separates_only_one_way (ca cb : List SetCall)
    (ha : ∀ c ∈ ca, c.InRange) (hb : ∀ c ∈ cb, c.InRange) :
    ((∀ i, i < RENDER_STATE_COUNT →
        (RenderStateSet.ofCalls ca).get_rs_dw i = (RenderStateSet.ofCalls cb).get_rs_dw i) →
      (RenderStateSet.ofCalls ca).hash = (RenderStateSet.ofCalls cb).hash) ∧
    (∀ t v, 0 < t → t < RENDER_STATE_COUNT → v < WORD32 →
      v ≠ (RenderStateSet.ofCalls ca).get_rs_dw t →
      ((RenderStateSet.ofCalls ca).set_rs_dw t v).2.hash ≠ (RenderStateSet.ofCalls ca).hash) := by
  have hA := ofCalls_valid ca ha
  have hB := ofCalls_valid cb hb
  generalize RenderStateSet.ofCalls ca = A at *
  generalize RenderStateSet.ofCalls cb = B at *
  constructor
  · intro h
    rw [hA.hash_eq, hB.hash_eq, (states_eq_iff_slots A B hA hB).2 h]
  · intro t v ht0 ht hv hne
    have hlt : t < A.states.length := by rw [hA.length_eq]; exact ht
    have hV := set_rs_dw_valid A t v hA ht hv
    have hW := weightedSum_lt_word64 A.states hA.length_eq hA.slot_lt
    have hW2 := weightedSum_lt_word64 _ hV.length_eq hV.slot_lt
    rw [hV.hash_eq, hA.hash_eq, Nat.mod_eq_of_lt hW, Nat.mod_eq_of_lt hW2, set_rs_dw_states]
    have key := weightedSum_set 0 A.states t v hlt
    simp only [Nat.zero_add] at key
    intro hc
    rw [hc] at key
    have : t * A.states.getD t 0 = t * v := by omega
    have := Nat.eq_of_mul_eq_mul_left ht0 this
    exact hne this.symm

/-- Claim C4, amended, at the set built by SHADEMODE := 2 and the change SHADEMODE := 1. -/
theorem C4_hash_separates_only_one_way_witness :
    ((RenderStateSet.ofCalls [SetCall.dw 9 2]).set_rs_dw 9 1).2.hash
      ≠ (RenderStateSet.ofCalls [SetCall.dw 9 2]).hash :=
  (C4_hash_separates_only_one_way [SetCall.dw 9 2] [] (by decide) (by decide)).2 9 1
    (by decide) (by decide) (by decide) (by decide)

/-! ## Pixel conversion -/

theorem shiftRight_or (a b k : Nat) : (a ||| b) >>> k = a >>> k ||| b >>> k := by
  apply Nat.eq_of_testBit_eq; intro i
  simp only [Nat.testBit_shiftRight, Nat.testBit_or]

theorem shiftLeft_or (a b k : Nat) : (a ||| b) <<< k = a <<< k ||| b <<< k := by
  apply Nat.eq_of_testBit_eq; intro i
  simp only [Nat.testBit_shiftLeft, Nat.testBit_or, Bool.and_or_distrib_left]

theorem or_or_or_comm (a b c d : Nat) : (a ||| b) ||| (c ||| d) = (a ||| c) ||| (b ||| d) := by
  apply Nat.eq_of_testBit_eq; intro i
  simp only [Nat.testBit_or]
  cases a.testBit i <;> cases b.testBit i <;> cases c.testBit i <;> cases d.testBit i <;> rfl

theorem OrHom.id : OrHom (fun c => c) := fun _ _ => rfl

theorem OrHom.const (k : Nat) : OrHom (fun _ => k) := fun _ _ => by
  apply Nat.eq_of_testBit_eq; intro i
  simp only [Nat.testBit_or, Bool.or_self]

theorem OrHom.and_const {F : Nat → Nat} (hF : OrHom F) (m : Nat) : OrHom (fun c => F c &&& m) :=
  fun a b => by
    show F (a ||| b) &&& m = (F a &&& m) ||| (F b &&& m)
    rw [hF a b, Nat.and_distrib_right]

theorem OrHom.shiftLeft {F : Nat → Nat} (hF : OrHom F) (k : Nat) : OrHom (fun c => F c <<< k) :=
  fun a b => by
    show F (a ||| b) <<< k = (F a <<< k) ||| (F b <<< k)
    rw [hF a b, shiftLeft_or]

theorem OrHom.shiftRight {F : Nat → Nat} (hF : OrHom F) (k : Nat) : OrHom (fun c => F c >>> k) :=
  fun a b => by
    show F (a ||| b) >>> k = (F a >>> k) ||| (F b >>> k)
    rw [hF a b, shiftRight_or]

theorem OrHom.or {F G : Nat → Nat} (hF : OrHom F) (hG : OrHom G) : OrHom (fun c => F c ||| G c) :=
  fun a b => by
    show F (a ||| b) ||| G (a ||| b) = (F a ||| G a) ||| (F b ||| G b)
    rw [hF a b, hG a b, or_or_or_comm]

theorem OrHom.mod_two_pow {F : Nat → Nat} (hF : OrHom F) (n : Nat) : OrHom (fun c => F c % 2 ^ n) :=
  fun a b => by
    show F (a ||| b) % 2 ^ n = (F a % 2 ^ n) ||| (F b % 2 ^ n)
    rw [← Nat.and_pow_two_sub_one_eq_mod, ← Nat.and_pow_two_sub_one_eq_mod,
      ← Nat.and_pow_two_sub_one_eq_mod, hF a b, Nat.and_distrib_right]

theorem OrHom.comp {F G : Nat → Nat} (hF : OrHom F) (hG : OrHom G) : OrHom (fun c => F (G c)) :=
  fun a b => by
    show F (G (a ||| b)) = F (G a) ||| F (G b)
    rw [hG a b, hF]

/-- Two or-homomorphisms that agree on zero and on the first `n` powers of two agree below
`2 ^ n`. -/
theorem OrHom.ext_below {F G : Nat → Nat} (hF : OrHom F) (hG : OrHom G) (h0 : F 0 = G 0)
    (n : Nat) (hb : ∀ j, j < n → F (2 ^ j) = G (2 ^ j)) : ∀ c, c < 2 ^ n → F c = G c := by
  induction n with
  | zero =>
    intro c hc
    have : c = 0 := by simpa using hc
    rw [this, h0]
  | succ n ih =>
    intro c hc
    have hdm : 2 ^ n * (c / 2 ^ n) + c % 2 ^ n = c := Nat.div_add_mod c (2 ^ n)
    have hlt : c % 2 ^ n < 2 ^ n := Nat.mod_lt _ (Nat.two_pow_pos n)
    have hor := Nat.mul_add_lt_is_or hlt (c / 2 ^ n)
    have hd : c / 2 ^ n < 2 := by
      rw [Nat.div_lt_iff_lt_mul (Nat.two_pow_pos n)]
      rw [Nat.pow_succ] at hc; omega
    have ihc := ih (fun j hj => hb j (by omega)) (c % 2 ^ n) hlt
    rw [← hdm, hor, hF, hG, ihc]
    congr 1
    rcases Nat.lt_succ_iff.mp hd with hle
    interval_cases h : c / 2 ^ n
    · simpa using h0
    · simpa using hb n (by omega)

theorem OrHom.masked (m k : Nat) : OrHom (fun c => ((c &&& m) <<< k) % 2 ^ 32) :=
  ((OrHom.id.and_const m).shiftLeft k).mod_two_pow 32

theorem OrHom.extract (k m : Nat) : OrHom (fun c => (c >>> k) &&& m) :=
  (OrHom.id.shiftRight k).and_const m

theorem read565_as_8888_orHom : OrHom texel565_as_8888 :=
  (((OrHom.const 0xff000000).or
      (((OrHom.masked 0x0000F800 (5 + 3)).or ((OrHom.masked 0x0000F800 (5 + 3)).shiftRight 5)).and_const
        0x00ff0000)).or
      (((OrHom.masked 0x000007E0 (3 + 2)).or ((OrHom.masked 0x000007E0 (3 + 2)).shiftRight 6)).and_const
        0x0000ff00)).or
    (((OrHom.masked 0x0000001F (0 + 3)).or ((OrHom.masked 0x0000001F (0 + 3)).shiftRight 5)).and_const
      0x000000ff)

theorem read8888_as_565_orHom : OrHom texel8888_as_565 :=
  ((((OrHom.extract (5 + 3) 0x0000F800).or (OrHom.extract (3 + 2) 0x000007E0)).or
    (OrHom.extract (0 + 3) 0x0000001F))).mod_two_pow 16

theorem read4444_as_8888_orHom : OrHom texel4444_as_8888 :=
  (((((OrHom.masked 0x0000F000 (12 + 4)).or ((OrHom.masked 0x0000F000 (12 + 4)).shiftRight 4))).or
      ((OrHom.masked 0x00000F00 (8 + 4)).or ((OrHom.masked 0x00000F00 (8 + 4)).shiftRight 4))).or
      ((OrHom.masked 0x000000F0 (4 + 4)).or ((OrHom.masked 0x000000F0 (4 + 4)).shiftRight 4))).or
    ((OrHom.masked 0x0000000F (0 + 4)).or ((OrHom.masked 0x0000000F (0 + 4)).shiftRight 4))

theorem read8888_as_4444_orHom : OrHom texel8888_as_4444 :=
  (((((OrHom.extract (8 + 4) 0x00000F00).or (OrHom.extract (4 + 4) 0x000000F0)).or
    (OrHom.extract (0 + 4) 0x0000000F)).or (OrHom.extract (12 + 4) 0x0000F000))).mod_two_pow 16

theorem texel_roundtrip_565 (c : Nat) (hc : c < 65536) :
    texel8888_as_565 (texel565_as_8888 c) = c :=
  OrHom.ext_below (OrHom.comp read8888_as_565_orHom read565_as_8888_orHom) OrHom.id
    (by decide) 16 (by decide) c hc

theorem texel_roundtrip_4444 (c : Nat) (hc : c < 65536) :
    texel8888_as_4444 (texel4444_as_8888 c) = c :=
  OrHom.ext_below (OrHom.comp read8888_as_4444_orHom read4444_as_8888_orHom) OrHom.id
    (by decide) 16 (by decide) c hc

theorem convert_lines_getD (f : Nat → Nat) (image : List (List Nat)) (width height y x : Nat)
    (hy : y < height) (hx : x < width) :
    ((convert_lines f image width height).getD y []).getD x 0
      = f ((image.getD y []).getD x 0) := by
  have h1 : y < (convert_lines f image width height).length := by
    simp [convert_lines, hy]
  rw [List.getD_eq_getElem _ _ h1]
  have h2 : (convert_lines f image width height)[y]
      = (List.range width).map fun x => f ((image.getD y []).getD x 0) := by
    simp only [convert_lines, List.getElem_map, List.getElem_range]
  rw [h2]
  have h3 : x < ((List.range width).map fun x => f ((image.getD y []).getD x 0)).length := by
    simp [hx]
  rw [List.getD_eq_getElem _ _ h3]
  simp only [List.getElem_map, List.getElem_range]

theorem convert_lines_roundtrip (f g : Nat → Nat) (hfg : ∀ c, c < 65536 → g (f c) = c)
    (image : List (List Nat)) (width height : Nat) (h : IsImage16 image width height) :
    convert_lines g (convert_lines f image width height) width height = image := by
  obtain ⟨hlen, hrows⟩ := h
  apply List.ext_getElem
  · simp [convert_lines, hlen]
  · intro y h1 h2
    have hy : y < height := by simpa [convert_lines] using h1
    have hrow := hrows image[y] (List.getElem_mem _)
    apply List.ext_getElem
    · simp [convert_lines, hrow.1]
    · intro x h3 h4
      have hx : x < width := by simpa [convert_lines] using h3
      have hc : image[y][x] < 65536 := hrow.2 _ (List.getElem_mem _)
      have e : (convert_lines g (convert_lines f image width height) width height)[y][x]
          = g (((convert_lines f image width height).getD y []).getD x 0) := by
        simp only [convert_lines, List.getElem_map, List.getElem_range]
      rw [e, convert_lines_getD f image width height y x hy hx,
        List.getD_eq_getElem _ _ h2, List.getD_eq_getElem _ _ h4]
      exact hfg _ hc

theorem OrHom.byte (F : Nat → Nat) (hF : OrHom F) (k : Nat) : OrHom (fun c => (F c >>> k) &&& 0xFF) :=
  (hF.shiftRight k).and_const 0xFF

theorem OrHom.replicate {F : Nat → Nat} (hF : OrHom F) (l r : Nat) :
    OrHom (fun c => (F c <<< l) ||| (F c >>> r)) :=
  (hF.shiftLeft l).or (hF.shiftRight r)

/-- Claim C5.  Converting a 5:6:5 texel to 8:8:8:8 and back returns the texel, for each of
the 65536 values and for every image of such texels; the same holds for 4:4:4:4, alpha
nibble included. -/
theorem C5_pixel_round_trip (image : List (List Nat)) (width height : Nat)
    (h : IsImage16 image width height) :
    (∀ c, c < 65536 → texel8888_as_565 (texel565_as_8888 c) = c) ∧
    (∀ c, c < 65536 → texel8888_as_4444 (texel4444_as_8888 c) = c) ∧
    read8888_as_565 (read565_as_8888 image width height) width height = image ∧
    read8888_as_4444 (read4444_as_8888 image width height) width height = image :=
  ⟨texel_roundtrip_565, texel_roundtrip_4444,
    convert_lines_roundtrip _ _ texel_roundtrip_565 image width height h,
    convert_lines_roundtrip _ _ texel_roundtrip_4444 image width height h⟩

/-- Claim C5 at a 2 × 2 image. -/
theorem C5_pixel_round_trip_witness :
    IsImage16 [[0x1234, 0xFFFF], [0, 0x8001]] 2 2 ∧
    read8888_as_565 (read565_as_8888 [[0x1234, 0xFFFF], [0, 0x8001]] 2 2) 2 2
      = [[0x1234, 0xFFFF], [0, 0x8001]] :=
  ⟨by decide, (C5_pixel_round_trip [[0x1234, 0xFFFF], [0, 0x8001]] 2 2
    (by decide)).2.2.1⟩

/-- Claim C6.  `read565_as_8888` sets the alpha byte to 0xFF and expands red and blue to
`(v << 3) | (v >> 2)` and green to `(g << 2) | (g >> 4)`; these expansions are monotone and
send 0 to 0 and the maximum to 255.  `read4444_as_8888` multiplies each of the four nibbles
by 17. -/
theorem C6_bit_replication (c : Nat) (hc : c < 65536) :
    texel565_as_8888 c >>> 24 = 0xFF ∧
    (texel565_as_8888 c >>> 16) &&& 0xFF
      = (((c >>> 11) &&& 0x1F) <<< 3) ||| (((c >>> 11) &&& 0x1F) >>> 2) ∧
    (texel565_as_8888 c >>> 8) &&& 0xFF
      = (((c >>> 5) &&& 0x3F) <<< 2) ||| (((c >>> 5) &&& 0x3F) >>> 4) ∧
    texel565_as_8888 c &&& 0xFF = ((c &&& 0x1F) <<< 3) ||| ((c &&& 0x1F) >>> 2) ∧
    (∀ v w, w < 32 → v ≤ w → ((v <<< 3) ||| (v >>> 2)) ≤ ((w <<< 3) ||| (w >>> 2))) ∧
    (∀ v w, w < 64 → v ≤ w → ((v <<< 2) ||| (v >>> 4)) ≤ ((w <<< 2) ||| (w >>> 4))) ∧
    ((0 <<< 3) ||| (0 >>> 2)) = 0 ∧ ((31 <<< 3) ||| (31 >>> 2)) = 255 ∧
    ((0 <<< 2) ||| (0 >>> 4)) = 0 ∧ ((63 <<< 2) ||| (63 >>> 4)) = 255 ∧
    texel4444_as_8888 c >>> 24 = ((c >>> 12) &&& 0xF) * 17 ∧
    (texel4444_as_8888 c >>> 16) &&& 0xFF = ((c >>> 8) &&& 0xF) * 17 ∧
    (texel4444_as_8888 c >>> 8) &&& 0xFF = ((c >>> 4) &&& 0xF) * 17 ∧
    texel4444_as_8888 c &&& 0xFF = (c &&& 0xF) * 17 := by
  have h17 : ∀ n, n < 16 → (n <<< 4) ||| (n >>> 0) = n * 17 := by decide
  have hn : ∀ k, (c >>> k) &&& 0xF < 16 := fun k => Nat.and_lt_two_pow _ (n := 4) (by decide)
  refine ⟨?_, ?_, ?_, ?_, ?_, ?_, by decide, by decide, by decide, by decide, ?_, ?_, ?_, ?_⟩
  · exact OrHom.ext_below (read565_as_8888_orHom.shiftRight 24) (OrHom.const 0xFF)
      (by decide) 16 (by decide) c hc
  · exact OrHom.ext_below (OrHom.byte _ read565_as_8888_orHom 16)
      ((OrHom.extract 11 0x1F).replicate 3 2) (by decide) 16 (by decide) c hc
  · exact OrHom.ext_below (OrHom.byte _ read565_as_8888_orHom 8)
      ((OrHom.extract 5 0x3F).replicate 2 4) (by decide) 16 (by decide) c hc
  · exact OrHom.ext_below (read565_as_8888_orHom.and_const 0xFF)
      ((OrHom.id.and_const 0x1F).replicate 3 2) (by decide) 16 (by decide) c hc
  · intro v w hw hvw
    have : ∀ w, w < 32 → ∀ v, v < w + 1 → ((v <<< 3) ||| (v >>> 2)) ≤ ((w <<< 3) ||| (w >>> 2)) := by
      decide
    exact this w hw v (by omega)
  · intro v w hw hvw
    have : ∀ w, w < 64 → ∀ v, v < w + 1 → ((v <<< 2) ||| (v >>> 4)) ≤ ((w <<< 2) ||| (w >>> 4)) := by
      decide
    exact this w hw v (by omega)
  · rw [← h17 _ (hn 12)]
    exact OrHom.ext_below (read4444_as_8888_orHom.shiftRight 24)
      ((OrHom.extract 12 0xF).replicate 4 0) (by decide) 16 (by decide) c hc
  · rw [← h17 _ (hn 8)]
    exact OrHom.ext_below (OrHom.byte _ read4444_as_8888_orHom 16)
      ((OrHom.extract 8 0xF).replicate 4 0) (by decide) 16 (by decide) c hc
  · rw [← h17 _ (hn 4)]
    exact OrHom.ext_below (OrHom.byte _ read4444_as_8888_orHom 8)
      ((OrHom.extract 4 0xF).replicate 4 0) (by decide) 16 (by decide) c hc
  · have h0 : c &&& 0xF < 16 := Nat.and_lt_two_pow _ (n := 4) (by decide)
    rw [← h17 _ h0]
    exact OrHom.ext_below (read4444_as_8888_orHom.and_const 0xFF)
      ((OrHom.id.and_const 0xF).replicate 4 0) (by decide) 16 (by decide) c hc

/-- Claim C6 at the texel 0xFFFF. -/
theorem C6_bit_replication_witness :
    texel565_as_8888 0xFFFF >>> 24 = 0xFF ∧
    texel4444_as_8888 0xFFFF &&& 0xFF = (0xFFFF &&& 0xF) * 17 :=
  ⟨(C6_bit_replication 0xFFFF (by decide)).1,
   (C6_bit_replication 0xFFFF (by decide)).2.2.2.2.2.2.2.2.2.2.2.2.2⟩

/-! ## Execute buffer interpreter -/

theorem read_u8_append (pre xs : List Nat) (k : Nat) :
    read_u8 (pre ++ xs) (pre.length + k) = read_u8 xs k := by
  unfold read_u8
  simp [List.getElem?_append_right]

theorem read_u16_append (pre xs : List Nat) (k : Nat) :
    read_u16 (pre ++ xs) (pre.length + k) = read_u16 xs k := by
  unfold read_u16
  rw [Nat.add_assoc, read_u8_append, read_u8_append]

theorem read_u32_append (pre xs : List Nat) (k : Nat) :
    read_u32 (pre ++ xs) (pre.length + k) = read_u32 xs k := by
  unfold read_u32
  rw [Nat.add_assoc, read_u16_append, read_u16_append]

theorem read_instruction_append (pre xs : List Nat) (k : Nat) :
    read_instruction (pre ++ xs) (pre.length + k) = read_instruction xs k := by
  unfold read_instruction
  rw [Nat.add_assoc, Nat.add_assoc, read_u8_append, read_u8_append, read_u16_append]

theorem read_u16_le16 (v : Nat) (rest : List Nat) : read_u16 (le16 v ++ rest) 0 = some v := by
  simp [read_u16, read_u8, le16]
  omega

theorem read_u32_le32 (v : Nat) (rest : List Nat) : read_u32 (le32 v ++ rest) 0 = some v := by
  simp [read_u32, read_u16, read_u8, le32, le16]
  omega

theorem flush_geometry_vertices_size (s : Surface) :
    s.flush_geometry.vertices_size = s.vertices_size := by
  unfold Surface.flush_geometry
  split
  · rfl
  · simp only
    split <;> rfl

theorem set_render_state_vertices_size (s : Surface) (t a : Nat) :
    (s.set_render_state t a).vertices_size = s.vertices_size := by
  unfold Surface.set_render_state
  split <;> rfl

theorem add_triangle_vertices_size (s : Surface) (v0 v1 v2 : Nat) :
    (s.add_triangle v0 v1 v2).vertices_size = s.vertices_size := by
  unfold Surface.add_triangle
  simp only
  split_ifs <;> simp only [flush_geometry_vertices_size]

theorem add_line_vertices_size (s : Surface) (a b : Nat) :
    (s.add_line a b).vertices_size = s.vertices_size := by
  unfold Surface.add_line
  simp only
  split_ifs <;> simp only [flush_geometry_vertices_size]

theorem add_points_vertices_size (s : Surface) (a b : Nat) :
    (s.add_points a b).vertices_size = s.vertices_size := by
  unfold Surface.add_points
  simp only
  split_ifs <;> simp only [flush_geometry_vertices_size]

theorem set_vertices_vertices_size (s : Surface) (a b : Nat) :
    (s.set_vertices a b).2.vertices_size = s.vertices_size := by
  unfold Surface.set_vertices
  split_ifs <;> rfl

theorem element_encode_length (e : Element) :
    e.encode.length = Instruction.element_size e.opcode := by
  cases e <;> rfl

theorem read_u16_field (pre mid post : List Nat) (v : Nat) :
    read_u16 (pre ++ (mid ++ (le16 v ++ post))) (pre.length + mid.length) = some v := by
  rw [← List.append_assoc, ← List.length_append, ← Nat.add_zero (pre ++ mid).length,
    read_u16_append]
  exact read_u16_le16 v post

theorem read_u32_field (pre mid post : List Nat) (v : Nat) :
    read_u32 (pre ++ (mid ++ (le32 v ++ post))) (pre.length + mid.length) = some v := by
  rw [← List.append_assoc, ← List.length_append, ← Nat.add_zero (pre ++ mid).length,
    read_u32_append]
  exact read_u32_le32 v post

theorem length_le16 (v : Nat) : (le16 v).length = 2 := rfl

theorem length_le32 (v : Nat) : (le32 v).length = 4 := rfl

theorem exec_point (pre rest : List Nat) (r : Run) (wCount wFirst : Nat) :
    execute_operation_point (pre ++ ((Element.point wCount wFirst).encode ++ rest)) pre.length r
      = some (true, { device := r.device.add_points wFirst wCount,
                      calls := r.calls ++ [DeviceCall.add_points wFirst wCount] }) := by
  have r0 := read_u16_field pre [] (le16 wFirst ++ rest) wCount
  have r2 := read_u16_field pre (le16 wCount) rest wFirst
  simp only [List.nil_append, List.length_nil, Nat.add_zero, length_le16] at r0 r2
  simp only [execute_operation_point, Element.encode, List.append_assoc, r0, r2]

theorem exec_line (pre rest : List Nat) (r : Run) (v1 v2 : Nat) :
    execute_operation_line (pre ++ ((Element.line v1 v2).encode ++ rest)) pre.length r
      = some (true, { device := r.device.add_line v1 v2,
                      calls := r.calls ++ [DeviceCall.add_line v1 v2] }) := by
  have r0 := read_u16_field pre [] (le16 v2 ++ rest) v1
  have r2 := read_u16_field pre (le16 v1) rest v2
  simp only [List.nil_append, List.length_nil, Nat.add_zero, length_le16] at r0 r2
  simp only [execute_operation_line, Element.encode, List.append_assoc, r0, r2]

theorem exec_triangle (pre rest : List Nat) (r : Run) (v1 v2 v3 wFlags : Nat) :
    execute_operation_triangle (pre ++ ((Element.triangle v1 v2 v3 wFlags).encode ++ rest))
        pre.length r
      = some (true, { device := r.device.add_triangle v1 v2 v3,
                      calls := r.calls ++ [DeviceCall.add_triangle v1 v2 v3] }) := by
  have r0 := read_u16_field pre [] (le16 v2 ++ (le16 v3 ++ (le16 wFlags ++ rest))) v1
  have r2 := read_u16_field pre (le16 v1) (le16 v3 ++ (le16 wFlags ++ rest)) v2
  have r4 := read_u16_field pre (le16 v1 ++ le16 v2) (le16 wFlags ++ rest) v3
  have r6 := read_u16_field pre (le16 v1 ++ le16 v2 ++ le16 v3) rest wFlags
  simp only [List.nil_append, List.length_nil, Nat.add_zero, length_le16, List.length_append,
    List.append_assoc] at r0 r2 r4 r6
  simp only [execute_operation_triangle, Element.encode, List.append_assoc, r0, r2, r4, r6]

theorem exec_state (pre rest : List Nat) (r : Run) (type arg : Nat) :
    execute_operation_state (pre ++ ((Element.state type arg).encode ++ rest)) pre.length r
      = some (true, { device := r.device.set_render_state type arg,
                      calls := r.calls ++ [DeviceCall.set_render_state type arg] }) := by
  have r0 := read_u32_field pre [] (le32 arg ++ rest) type
  have r4 := read_u32_field pre (le32 type) rest arg
  simp only [List.nil_append, List.length_nil, Nat.add_zero, length_le32] at r0 r4
  simp only [execute_operation_state, Element.encode, List.append_assoc, r0, r4]

theorem exec_processvertices_reads (pre rest : List Nat)
    (dwFlags wStart wDest dwCount dwReserved : Nat) :
    let memory := pre ++
      ((Element.processvertices dwFlags wStart wDest dwCount dwReserved).encode ++ rest)
    read_u32 memory pre.length = some dwFlags ∧
    read_u16 memory (pre.length + 4) = some wStart ∧
    read_u16 memory (pre.length + 6) = some wDest ∧
    read_u32 memory (pre.length + 8) = some dwCount ∧
    read_u32 memory (pre.length + 12) = some dwReserved := by
  have r0 := read_u32_field pre []
    (le16 wStart ++ (le16 wDest ++ (le32 dwCount ++ (le32 dwReserved ++ rest)))) dwFlags
  have r4 := read_u16_field pre (le32 dwFlags)
    (le16 wDest ++ (le32 dwCount ++ (le32 dwReserved ++ rest))) wStart
  have r6 := read_u16_field pre (le32 dwFlags ++ le16 wStart)
    (le32 dwCount ++ (le32 dwReserved ++ rest)) wDest
  have r8 := read_u32_field pre (le32 dwFlags ++ le16 wStart ++ le16 wDest)
    (le32 dwReserved ++ rest) dwCount
  have r12 := read_u32_field pre (le32 dwFlags ++ le16 wStart ++ le16 wDest ++ le32 dwCount)
    rest dwReserved
  simp only [List.nil_append, List.length_nil, Nat.add_zero, length_le16, length_le32,
    List.length_append, List.append_assoc] at r0 r4 r6 r8 r12
  simp only [Element.encode, List.append_assoc]
  exact ⟨r0, r4, r6, r8, r12⟩

/-- The result of `execute_operation` for a vertex-processing element, all checks spelled
out. -/
theorem exec_processvertices (pre rest : List Nat) (r : Run)
    (dwFlags wStart wDest dwCount dwReserved : Nat) :
    execute_operation_processvertices
        (pre ++ ((Element.processvertices dwFlags wStart wDest dwCount dwReserved).encode ++ rest))
        pre.length r
      = some (
        if dwFlags &&& D3DPROCESSVERTICES_OPMASK ≠ D3DPROCESSVERTICES_COPY then (false, r)
        else if dwFlags &&& D3DPROCESSVERTICES_NOCOLOR ≠ 0 then (false, r)
        else if dwFlags &&& D3DPROCESSVERTICES_UPDATEEXTENTS ≠ 0 then (false, r)
        else if wStart ≠ 0 then (false, r)
        else if wDest ≠ 0 then (false, r)
        else ((r.device.set_vertices wDest dwCount).1,
              { device := (r.device.set_vertices wDest dwCount).2,
                calls := r.calls ++ [DeviceCall.set_vertices wDest dwCount] })) := by
  obtain ⟨r0, r4, r6, r8, r12⟩ :=
    exec_processvertices_reads pre rest dwFlags wStart wDest dwCount dwReserved
  simp only [execute_operation_processvertices, r0, r4, r6, r8, r12]
  split_ifs <;> rfl

theorem set_vertices_ok (s : Surface) (count : Nat) (hc : count < 2 ^ 32)
    (hle : count ≤ s.vertices_size) : (s.set_vertices 0 count).1 = true := by
  unfold Surface.set_vertices
  split_ifs with h1 h2
  · rfl
  · exfalso
    rw [Nat.zero_add, Nat.mod_eq_of_lt (by simpa [WORD32] using hc)] at h2
    omega
  · rfl

/-- Running the operation of a well-formed element placed at `pre.length`. -/
theorem execute_element (e : Element) (vc : Nat) (he : e.InRange) (hs : e.Succeeds vc)
    (size : Nat) (operation : List Nat → Nat → Run → Option (Bool × Run))
    (hop : operation_of_opcode e.opcode = some (size, operation))
    (pre rest : List Nat) (r : Run) (hr : r.device.vertices_size = vc) :
    ∃ r1, operation (pre ++ (e.encode ++ rest)) pre.length r = some (true, r1) ∧
      r1.calls = r.calls ++ [e.call] ∧ r1.device.vertices_size = vc := by
  cases e with
  | point wCount wFirst =>
    have hop' : some (size, operation) = some (SIZEOF_D3DPOINT, execute_operation_point) :=
      hop.symm.trans rfl
    cases hop'
    exact ⟨_, exec_point pre rest r wCount wFirst, rfl,
      (add_points_vertices_size _ _ _).trans hr⟩
  | line v1 v2 =>
    have hop' : some (size, operation) = some (SIZEOF_D3DLINE, execute_operation_line) :=
      hop.symm.trans rfl
    cases hop'
    exact ⟨_, exec_line pre rest r v1 v2, rfl, (add_line_vertices_size _ _ _).trans hr⟩
  | triangle v1 v2 v3 wFlags =>
    have hop' : some (size, operation)
        = some (SIZEOF_D3DTRIANGLE, execute_operation_triangle) := hop.symm.trans rfl
    cases hop'
    exact ⟨_, exec_triangle pre rest r v1 v2 v3 wFlags, rfl,
      (add_triangle_vertices_size _ _ _ _).trans hr⟩
  | state type arg =>
    have hop' : some (size, operation) = some (SIZEOF_D3DSTATE, execute_operation_state) :=
      hop.symm.trans rfl
    cases hop'
    exact ⟨_, exec_state pre rest r type arg, rfl,
      (set_render_state_vertices_size _ _ _).trans hr⟩
  | processvertices dwFlags wStart wDest dwCount dwReserved =>
    have hop' : some (size, operation)
        = some (SIZEOF_D3DPROCESSVERTICES, execute_operation_processvertices) :=
      hop.symm.trans rfl
    cases hop'
    obtain ⟨h1, h2, h3, h4, h5, h6⟩ := hs
    obtain ⟨_, _, _, hcnt, _⟩ := he
    refine ⟨{ device := (r.device.set_vertices wDest dwCount).2,
              calls := r.calls ++ [DeviceCall.set_vertices wDest dwCount] }, ?_, rfl,
      (set_vertices_vertices_size _ _ _).trans hr⟩
    rw [exec_processvertices]
    have hok : (r.device.set_vertices wDest dwCount).1 = true := by
      rw [h5]; exact set_vertices_ok _ _ hcnt (by rw [hr]; exact h6)
    simp only [h1, h2, h3, h4, h5, ne_eq, not_true_eq_false, if_false]
    rw [← h5, hok]

theorem encode_elements_length (es : List Element) (op : Nat)
    (hes : ∀ e ∈ es, e.opcode = op) :
    (encode_elements es).length = Instruction.element_size op * es.length := by
  induction es with
  | nil => rfl
  | cons e es ih =>
    have he := hes e (by simp)
    have := ih (fun x hx => hes x (by simp [hx]))
    simp only [encode_elements, List.length_append, List.length_cons, this,
      element_encode_length, he]
    rw [Nat.mul_succ]; omega

theorem element_size_of (op size : Nat) (operation : List Nat → Nat → Run → Option (Bool × Run))
    (hop : operation_of_opcode op = some (size, operation)) :
    Instruction.element_size op = size := by
  unfold Instruction.element_size
  rw [hop]

theorem execute_block_elements (es : List Element) (vc op size : Nat)
    (operation : List Nat → Nat → Run → Option (Bool × Run))
    (hop : operation_of_opcode op = some (size, operation))
    (hes : ∀ e ∈ es, e.opcode = op ∧ e.InRange ∧ e.Succeeds vc)
    (pre rest : List Nat) (r : Run) (hr : r.device.vertices_size = vc)
    (start idx : Nat) (hstart : start + idx * size = pre.length) :
    ∃ r1, execute_block operation size (pre ++ (encode_elements es ++ rest)) start es.length idx r
        = some (true, r1) ∧
      r1.calls = r.calls ++ es.map Element.call ∧ r1.device.vertices_size = vc := by
  induction es generalizing pre r idx with
  | nil => exact ⟨r, rfl, by simp, hr⟩
  | cons e es ih =>
    obtain ⟨heop, hein, hesuc⟩ := hes e (by simp)
    have hop' : operation_of_opcode e.opcode = some (size, operation) := by rw [heop]; exact hop
    obtain ⟨r1, h1, hc1, hv1⟩ :=
      execute_element e vc hein hesuc size operation hop' pre (encode_elements es ++ rest) r hr
    have hlen : e.encode.length = size := by
      rw [element_encode_length, element_size_of _ _ _ hop']
    have hstart' : start + (idx + 1) * size = (pre ++ e.encode).length := by
      rw [List.length_append, hlen, ← hstart, Nat.add_mul]; omega
    obtain ⟨r2, h2, hc2, hv2⟩ :=
      ih (fun x hx => hes x (by simp [hx])) (pre ++ e.encode) r1 hv1 (idx + 1) hstart'
    refine ⟨r2, ?_, ?_, hv2⟩
    · show execute_block operation size (pre ++ (encode_elements (e :: es) ++ rest)) start
        (es.length + 1) idx r = some (true, r2)
      unfold execute_block
      have hm : pre ++ (encode_elements (e :: es) ++ rest)
          = pre ++ (e.encode ++ (encode_elements es ++ rest)) := by
        simp [encode_elements]
      have hm2 : pre ++ (e.encode ++ (encode_elements es ++ rest))
          = (pre ++ e.encode) ++ (encode_elements es ++ rest) := by
        simp
      rw [hm, hstart, h1]
      simp only
      rw [hm2]
      exact h2
    · rw [hc2, hc1]; simp

theorem read_instruction_header (pre rest : List Nat) (op size count : Nat) :
    read_instruction (pre ++ ([op, size] ++ le16 count ++ rest)) pre.length
      = some { bOpcode := op, bSize := size, wCount := count } := by
  have h := read_instruction_append pre ([op, size] ++ le16 count ++ rest) 0
  rw [Nat.add_zero] at h
  rw [h]
  simp [read_instruction, read_u16, read_u8, le16]
  omega

theorem loop_step_operation (asserts : Bool) (vc op : Nat) (es : List Element)
    (hwf : (Instruction.operation op es).WellFormed vc)
    (pre tail : List Nat) (r : Run) (hr : r.device.vertices_size = vc)
    (fuel m : Nat) (hm : (Instruction.operation op es).encode.length + m < 2 ^ 32) :
    ∃ r1, execute_loop asserts (pre ++ ((Instruction.operation op es).encode ++ tail)) (fuel + 1)
          pre.length ((Instruction.operation op es).encode.length + m) r
        = execute_loop asserts (pre ++ ((Instruction.operation op es).encode ++ tail)) fuel
          (pre ++ (Instruction.operation op es).encode).length m r1 ∧
      r1.calls = r.calls ++ (Instruction.operation op es).calls ∧
      r1.device.vertices_size = vc := by
  obtain ⟨hsome, hcount, hes⟩ := hwf
  obtain ⟨⟨size, operation⟩, hop⟩ := Option.isSome_iff_exists.mp hsome
  have hsize := element_size_of op size operation hop
  have hplen := encode_elements_length es op (fun e he => (hes e he).1)
  rw [hsize] at hplen
  have hmem : pre ++ ((Instruction.operation op es).encode ++ tail)
      = pre ++ ([op, size] ++ le16 es.length ++ (encode_elements es ++ tail)) := by
    simp [Instruction.encode, hsize]
  have hmem2 : pre ++ ([op, size] ++ le16 es.length ++ (encode_elements es ++ tail))
      = (pre ++ ([op, size] ++ le16 es.length)) ++ (encode_elements es ++ tail) := by
    simp
  have henc : (Instruction.operation op es).encode.length = 4 + size * es.length := by
    simp [Instruction.encode, hplen, le16]; omega
  obtain ⟨r1, hb, hc1, hv1⟩ := execute_block_elements es vc op size operation hop hes
    (pre ++ ([op, size] ++ le16 es.length)) tail r hr (pre.length + 4) 0
    (by simp [le16])
  refine ⟨r1, ?_, hc1, hv1⟩
  have hread : read_instruction (pre ++ ((Instruction.operation op es).encode ++ tail)) pre.length
      = some { bOpcode := op, bSize := size, wCount := es.length } := by
    rw [hmem, List.append_assoc]; exact read_instruction_header pre _ op size es.length
  rw [← hmem2, ← hmem] at hb
  have hoff : (pre ++ (Instruction.operation op es).encode).length
      = pre.length + SIZEOF_D3DINSTRUCTION + size * es.length := by
    rw [List.length_append, henc]; simp [SIZEOF_D3DINSTRUCTION]; omega
  rw [henc] at hm ⊢
  rw [hoff]
  generalize pre ++ ((Instruction.operation op es).encode ++ tail) = memory at *
  rw [execute_loop]
  have hl0 : ¬ (4 + size * es.length + m = 0) := by omega
  have hl1 : (4 + size * es.length + m + WORD32 - SIZEOF_D3DINSTRUCTION) % WORD32
      = size * es.length + m := by
    simp only [WORD32, SIZEOF_D3DINSTRUCTION]; omega
  have hl2 : (size * es.length + m + WORD32 - size * es.length) % WORD32 = m := by
    simp only [WORD32]; omega
  simp only [hl0, if_false, hread, hl1, hop]
  have h4 : pre.length + SIZEOF_D3DINSTRUCTION = pre.length + 4 := rfl
  have hs4 : SIZEOF_D3DINSTRUCTION = 4 := rfl
  rw [if_neg (by rintro ⟨_, h⟩; rw [hs4] at h; omega), if_neg (by rintro ⟨_, h⟩; omega),
    if_neg (by rintro ⟨_, h⟩; exact h rfl), h4, hb]
  simp only [if_true, hl2]

theorem loop_step_other (asserts : Bool) (vc op bSize wCount : Nat) (payload : List Nat)
    (hwf : (Instruction.other op bSize wCount payload).WellFormed vc)
    (hexit : op ≠ D3DOP_EXIT)
    (pre tail : List Nat) (r : Run)
    (fuel m : Nat) (hm : (Instruction.other op bSize wCount payload).encode.length + m < 2 ^ 32) :
    execute_loop asserts (pre ++ ((Instruction.other op bSize wCount payload).encode ++ tail))
        (fuel + 1) pre.length ((Instruction.other op bSize wCount payload).encode.length + m) r
      = execute_loop asserts (pre ++ ((Instruction.other op bSize wCount payload).encode ++ tail))
        fuel (pre ++ (Instruction.other op bSize wCount payload).encode).length m r := by
  obtain ⟨hnone, _, _, _, hplen, _, _⟩ := hwf
  have hop : operation_of_opcode op = none := by
    cases h : operation_of_opcode op with
    | none => rfl
    | some x => rw [h] at hnone; cases hnone
  have henc : (Instruction.other op bSize wCount payload).encode.length = 4 + bSize * wCount := by
    simp [Instruction.encode, hplen, le16]; omega
  have hread : read_instruction
      (pre ++ ((Instruction.other op bSize wCount payload).encode ++ tail)) pre.length
      = some { bOpcode := op, bSize := bSize, wCount := wCount } := by
    have : pre ++ ((Instruction.other op bSize wCount payload).encode ++ tail)
        = pre ++ ([op, bSize] ++ le16 wCount ++ (payload ++ tail)) := by
      simp [Instruction.encode]
    rw [this]; exact read_instruction_header pre _ op bSize wCount
  have hoff : (pre ++ (Instruction.other op bSize wCount payload).encode).length
      = pre.length + SIZEOF_D3DINSTRUCTION + bSize * wCount := by
    rw [List.length_append, henc]; simp [SIZEOF_D3DINSTRUCTION]; omega
  rw [henc] at hm ⊢
  rw [hoff]
  generalize pre ++ ((Instruction.other op bSize wCount payload).encode ++ tail) = memory at *
  rw [execute_loop]
  have hl0 : ¬ (4 + bSize * wCount + m = 0) := by omega
  have hl1 : (4 + bSize * wCount + m + WORD32 - SIZEOF_D3DINSTRUCTION) % WORD32
      = bSize * wCount + m := by
    simp only [WORD32, SIZEOF_D3DINSTRUCTION]; omega
  have hl2 : (bSize * wCount + m + WORD32 - bSize * wCount) % WORD32 = m := by
    simp only [WORD32]; omega
  have hs4 : SIZEOF_D3DINSTRUCTION = 4 := rfl
  simp only [hl0, if_false, hread, hl1, hop, hexit, hl2]
  rw [if_neg (by rintro ⟨_, h⟩; rw [hs4] at h; omega), if_neg (by rintro ⟨_, h⟩; omega)]

theorem loop_step_exit (asserts : Bool) (vc bSize wCount : Nat) (payload : List Nat)
    (hwf : (Instruction.other D3DOP_EXIT bSize wCount payload).WellFormed vc)
    (pre tail : List Nat) (r : Run)
    (fuel m : Nat)
    (hm : (Instruction.other D3DOP_EXIT bSize wCount payload).encode.length + m < 2 ^ 32) :
    execute_loop asserts
        (pre ++ ((Instruction.other D3DOP_EXIT bSize wCount payload).encode ++ tail))
        (fuel + 2) pre.length
        ((Instruction.other D3DOP_EXIT bSize wCount payload).encode.length + m) r
      = (Outcome.finished, r) := by
  obtain ⟨hnone, _, _, _, hplen, _, hz⟩ := hwf
  obtain ⟨hb0, hw0⟩ := hz rfl
  subst hb0 hw0
  have hop : operation_of_opcode D3DOP_EXIT = none := rfl
  have henc : (Instruction.other D3DOP_EXIT 0 0 payload).encode.length = 4 := by
    simp [Instruction.encode, le16]; simpa using hplen
  have hread : read_instruction
      (pre ++ ((Instruction.other D3DOP_EXIT 0 0 payload).encode ++ tail)) pre.length
      = some { bOpcode := D3DOP_EXIT, bSize := 0, wCount := 0 } := by
    have : pre ++ ((Instruction.other D3DOP_EXIT 0 0 payload).encode ++ tail)
        = pre ++ ([D3DOP_EXIT, 0] ++ le16 0 ++ (payload ++ tail)) := by
      simp [Instruction.encode]
    rw [this]; exact read_instruction_header pre _ D3DOP_EXIT 0 0
  rw [henc] at hm ⊢
  generalize pre ++ ((Instruction.other D3DOP_EXIT 0 0 payload).encode ++ tail) = memory at *
  rw [execute_loop]
  have hl0 : ¬ (4 + m = 0) := by omega
  have hl1 : (4 + m + WORD32 - SIZEOF_D3DINSTRUCTION) % WORD32 = m := by
    simp only [WORD32, SIZEOF_D3DINSTRUCTION]; omega
  have hl2 : (0 + WORD32 - 0 * 0) % WORD32 = 0 := by decide
  have hs4 : SIZEOF_D3DINSTRUCTION = 4 := rfl
  simp only [hl0, if_false, hread, hl1, hop, hl2, if_true]
  rw [if_neg (by rintro ⟨_, h⟩; rw [hs4] at h; omega), if_neg (by rintro ⟨_, h⟩; omega),
    if_neg (by rintro ⟨_, h⟩; rcases h with h | h <;> exact h rfl)]
  rw [execute_loop]
  simp

theorem execute_loop_stream (asserts : Bool) (vc : Nat) (stream : List Instruction)
    (hwf : StreamWellFormed vc stream) (pre post : List Nat) (r : Run)
    (hr : r.device.vertices_size = vc) (fuel : Nat) (hfuel : stream.length < fuel)
    (hlen : (encode_stream stream).length < 2 ^ 32) :
    ∃ r1, execute_loop asserts (pre ++ (encode_stream stream ++ post)) fuel pre.length
          (encode_stream stream).length r = (Outcome.finished, r1) ∧
      r1.calls = r.calls ++ calls_before_exit stream ∧ r1.device.vertices_size = vc := by
  induction stream generalizing pre r fuel with
  | nil =>
    obtain ⟨f, rfl⟩ : ∃ f, fuel = f + 1 := ⟨fuel - 1, by simp at hfuel; omega⟩
    refine ⟨r, ?_, by simp [calls_before_exit], hr⟩
    rw [execute_loop]; simp [encode_stream]
  | cons i rest ih =>
    obtain ⟨hi, hrest⟩ := hwf
    have hmem : pre ++ (encode_stream (i :: rest) ++ post)
        = pre ++ (i.encode ++ (encode_stream rest ++ post)) := by
      simp [encode_stream]
    have hmem2 : pre ++ (i.encode ++ (encode_stream rest ++ post))
        = (pre ++ i.encode) ++ (encode_stream rest ++ post) := by simp
    have hl : (encode_stream (i :: rest)).length = i.encode.length + (encode_stream rest).length := by
      simp [encode_stream]
    rw [hl] at hlen
    rw [hmem, hl]
    have hfl : rest.length + 1 < fuel := by simpa using hfuel
    cases i with
    | operation op es =>
      obtain ⟨f, rfl⟩ : ∃ f, fuel = f + 1 := ⟨fuel - 1, by omega⟩
      obtain ⟨r1, h1, hc1, hv1⟩ := loop_step_operation asserts vc op es hi pre
        (encode_stream rest ++ post) r hr f (encode_stream rest).length hlen
      obtain ⟨r2, h2, hc2, hv2⟩ := ih (hrest rfl) (pre ++ (Instruction.operation op es).encode) r1
        hv1 f (by omega) (by omega)
      refine ⟨r2, ?_, ?_, hv2⟩
      · rw [h1, hmem2]; exact h2
      · rw [hc2, hc1]; simp [calls_before_exit, Instruction.is_exit]
    | other op bSize wCount payload =>
      by_cases hexit : op = D3DOP_EXIT
      · subst hexit
        obtain ⟨f, rfl⟩ : ∃ f, fuel = f + 2 := ⟨fuel - 2, by omega⟩
        refine ⟨r, ?_, by simp [calls_before_exit, Instruction.is_exit], hr⟩
        exact loop_step_exit asserts vc bSize wCount payload hi pre _ r f _ hlen
      · obtain ⟨f, rfl⟩ : ∃ f, fuel = f + 1 := ⟨fuel - 1, by omega⟩
        have h1 := loop_step_other asserts vc op bSize wCount payload hi hexit pre
          (encode_stream rest ++ post) r f (encode_stream rest).length hlen
        have hne : (Instruction.other op bSize wCount payload).is_exit = false := by
          simp [Instruction.is_exit, hexit]
        obtain ⟨r2, h2, hc2, hv2⟩ := ih (hrest hne)
          (pre ++ (Instruction.other op bSize wCount payload).encode) r hr f (by omega) (by omega)
        refine ⟨r2, ?_, ?_, hv2⟩
        · rw [h1, hmem2]; exact h2
        · rw [hc2]; simp [calls_before_exit, hne, Instruction.calls]

theorem instruction_encode_length_ge (i : Instruction) : 4 ≤ i.encode.length := by
  cases i <;> simp [Instruction.encode, le16]

theorem encode_stream_length_ge (stream : List Instruction) :
    4 * stream.length ≤ (encode_stream stream).length := by
  induction stream with
  | nil => simp [encode_stream]
  | cons i rest ih =>
    have := instruction_encode_length_ge i
    simp only [encode_stream, List.length_append, List.length_cons]
    omega

theorem execute_loop_through (asserts : Bool) (vc : Nat) (stream : List Instruction)
    (hwf : ∀ i ∈ stream, i.WellFormed vc ∧ i.is_exit = false) (pre tail : List Nat) (r : Run)
    (hr : r.device.vertices_size = vc) (fuel m : Nat)
    (hlen : (encode_stream stream).length + m < 2 ^ 32) :
    ∃ r1, execute_loop asserts (pre ++ (encode_stream stream ++ tail)) (fuel + stream.length)
          pre.length ((encode_stream stream).length + m) r
        = execute_loop asserts (pre ++ (encode_stream stream ++ tail)) fuel
          (pre ++ encode_stream stream).length m r1 ∧
      r1.calls = r.calls ++ calls_before_exit stream ∧ r1.device.vertices_size = vc := by
  induction stream generalizing pre r with
  | nil => exact ⟨r, by simp [encode_stream], by simp [calls_before_exit], hr⟩
  | cons i rest ih =>
    obtain ⟨hi, hne⟩ := hwf i (by simp)
    have hrest : ∀ j ∈ rest, j.WellFormed vc ∧ j.is_exit = false :=
      fun j hj => hwf j (by simp [hj])
    have hmem : pre ++ (encode_stream (i :: rest) ++ tail)
        = pre ++ (i.encode ++ (encode_stream rest ++ tail)) := by
      simp [encode_stream]
    have hmem2 : pre ++ (i.encode ++ (encode_stream rest ++ tail))
        = (pre ++ i.encode) ++ (encode_stream rest ++ tail) := by simp
    have hl : (encode_stream (i :: rest)).length + m
        = i.encode.length + ((encode_stream rest).length + m) := by
      simp [encode_stream]; omega
    have hoff : (pre ++ encode_stream (i :: rest)).length
        = ((pre ++ i.encode) ++ encode_stream rest).length := by
      simp [encode_stream]
    have hfuel : fuel + (i :: rest).length = (fuel + rest.length) + 1 := by simp; omega
    rw [hl] at hlen
    rw [hmem, hl, hoff, hfuel]
    cases i with
    | operation op es =>
      obtain ⟨r1, h1, hc1, hv1⟩ := loop_step_operation asserts vc op es hi pre
        (encode_stream rest ++ tail) r hr (fuel + rest.length) ((encode_stream rest).length + m) hlen
      obtain ⟨r2, h2, hc2, hv2⟩ := ih hrest (pre ++ (Instruction.operation op es).encode) r1
        hv1 (by omega)
      refine ⟨r2, ?_, ?_, hv2⟩
      · rw [h1, hmem2]; exact h2
      · rw [hc2, hc1]; simp [calls_before_exit, Instruction.is_exit]
    | other op bSize wCount payload =>
      have hexit : op ≠ D3DOP_EXIT := by
        intro hc; rw [hc] at hne; simp [Instruction.is_exit] at hne
      have h1 := loop_step_other asserts vc op bSize wCount payload hi hexit pre
        (encode_stream rest ++ tail) r (fuel + rest.length) ((encode_stream rest).length + m) hlen
      obtain ⟨r2, h2, hc2, hv2⟩ := ih hrest
        (pre ++ (Instruction.other op bSize wCount payload).encode) r hr (by omega)
      refine ⟨r2, ?_, ?_, hv2⟩
      · rw [h1, hmem2]; exact h2
      · rw [hc2]; simp [calls_before_exit, hne, Instruction.calls]

theorem read_instruction_in_bounds (memory : List Nat) (offset : Nat)
    (instruction : D3DINSTRUCTION) (h : read_instruction memory offset = some instruction) :
    offset + 4 ≤ memory.length := by
  unfold read_instruction read_u16 read_u8 at h
  by_contra hc
  have h3 : memory.get? (offset + 2 + 1) = none := List.get?_eq_none.mpr (by omega)
  rw [h3] at h
  split at h <;> simp_all

/-- The loop never stops for lack of fuel once the fuel covers the bytes left in the buffer:
every iteration that continues has read a header inside the buffer and moves the offset by
at least four bytes. -/
theorem execute_loop_fuel_suffices (asserts : Bool) (memory : List Nat) (fuel : Nat) :
    ∀ (offset length : Nat) (r : Run), memory.length ≤ offset + 4 * fuel + 3 →
      (execute_loop asserts memory (fuel + 1) offset length r).1 ≠ Outcome.out_of_fuel := by
  induction fuel with
  | zero =>
    intro offset length r h
    rw [execute_loop]
    split
    · simp
    · split
      · simp
      · split
        · simp
        · rename_i instruction hread
          have := read_instruction_in_bounds memory offset instruction hread
          omega
  | succ fuel ih =>
    intro offset length r h
    have hs4 : SIZEOF_D3DINSTRUCTION = 4 := rfl
    rw [execute_loop]
    split
    · simp
    · split
      · simp
      · split
        · simp
        · rename_i instruction hread
          have hb := read_instruction_in_bounds memory offset instruction hread
          simp only
          split
          · simp
          · split
            · split
              · simp
              · split
                · simp
                · exact ih _ _ _ (by rw [hs4]; omega)
            · split
              · split
                · simp
                · exact ih _ _ _ (by rw [hs4]; omega)
              · exact ih _ _ _ (by rw [hs4]; omega)

/-- The fuel given by `execute` is enough: the model of `execute` never ends for lack of
fuel. -/
theorem execute_not_out_of_fuel (asserts : Bool) (memory : List Nat)
    (execute_data : D3DEXECUTEDATA) (device : Surface) :
    (execute asserts memory execute_data device).1 ≠ Outcome.out_of_fuel := by
  unfold execute
  simp only
  split_ifs
  · simp
  · have h := execute_loop_fuel_suffices asserts memory memory.length
      execute_data.dwInstructionOffset execute_data.dwInstructionLength
      { device := device.begin_geometry execute_data.dwVertexCount,
        calls := [DeviceCall.begin_geometry execute_data.dwVertexCount] } (by omega)
    split
    · simp
    · exact h

theorem sample_stream_well_formed : StreamWellFormed 3 sample_stream := by
  decide

/-- Without assertions, on a stream that is laid out as its headers say, whose operations all
succeed and whose `D3DOP_EXIT` carries no payload, `execute` finishes and the calls it makes
on the target surface are exactly `begin_geometry(dwVertexCount)`, then the calls of the
elements of the supported instructions located before the first `D3DOP_EXIT`, in stream and
payload order, then `end_geometry`. -/
theorem execute_well_formed_stream (stream : List Instruction)
    (pre post : List Nat) (vertex_offset vertex_count : Nat) (device : Surface)
    (hwf : StreamWellFormed vertex_count stream)
    (hsize : (pre ++ (encode_stream stream ++ post)).length < 2 ^ 32) :
    (execute false (pre ++ (encode_stream stream ++ post))
        { dwVertexOffset := vertex_offset, dwVertexCount := vertex_count,
          dwInstructionOffset := pre.length,
          dwInstructionLength := (encode_stream stream).length } device).1
      = Outcome.finished ∧
    (execute false (pre ++ (encode_stream stream ++ post))
        { dwVertexOffset := vertex_offset, dwVertexCount := vertex_count,
          dwInstructionOffset := pre.length,
          dwInstructionLength := (encode_stream stream).length } device).2.calls
      = [DeviceCall.begin_geometry vertex_count] ++ calls_before_exit stream
        ++ [DeviceCall.end_geometry] := by
  have hlen : (encode_stream stream).length < 2 ^ 32 := by
    simp only [List.length_append] at hsize; omega
  have hfuel : stream.length < (pre ++ (encode_stream stream ++ post)).length + 1 := by
    have := encode_stream_length_ge stream
    simp only [List.length_append]; omega
  obtain ⟨r1, h1, hc1, _⟩ := execute_loop_stream false vertex_count stream hwf pre post
    { device := device.begin_geometry vertex_count,
      calls := [DeviceCall.begin_geometry vertex_count] } rfl _ hfuel hlen
  have hres : execute false (pre ++ (encode_stream stream ++ post))
        { dwVertexOffset := vertex_offset, dwVertexCount := vertex_count,
          dwInstructionOffset := pre.length,
          dwInstructionLength := (encode_stream stream).length } device
      = (Outcome.finished, { device := r1.device.end_geometry,
                             calls := r1.calls ++ [DeviceCall.end_geometry] }) := by
    unfold execute
    simp only
    rw [if_neg, h1]
    rintro ⟨_, h⟩
    simp only [List.length_append, WORD32] at h hsize
    omega
  rw [hres]
  exact ⟨rfl, by rw [hc1]⟩

/-- Claim C7 fails on the code.  A stream in which every header and payload lies inside the
declared instruction length, the only typed instruction has the size of its element type and
no operation fails, opens with a `D3DOP_EXIT` that declares one element of four bytes.
Without assertions `execute` goes on behind that payload: the triangle located after the
first `D3DOP_EXIT` is submitted and drawn before `end_geometry`, while the calls of the
instructions before the first `D3DOP_EXIT` are none. -/
theorem C7_instructions_after_exit_are_executed :
    StreamLaidOut 3 stream_exit_with_payload ∧
    encode_stream stream_exit_with_payload
      = [11, 4, 1, 0,
         0, 0, 0, 0,
         3, 8, 1, 0,
         0, 0, 1, 0, 2, 0, 0, 0,
         11, 0, 0, 0] ∧
    calls_before_exit stream_exit_with_payload = [] ∧
    (execute false (encode_stream stream_exit_with_payload)
        { dwVertexOffset := 0, dwVertexCount := 3, dwInstructionOffset := 0,
          dwInstructionLength := 24 } Surface.blank).1 = Outcome.finished ∧
    (execute false (encode_stream stream_exit_with_payload)
        { dwVertexOffset := 0, dwVertexCount := 3, dwInstructionOffset := 0,
          dwInstructionLength := 24 } Surface.blank).2.calls
      = [DeviceCall.begin_geometry 3, DeviceCall.add_triangle 0 1 2,
         DeviceCall.end_geometry] ∧
    draw_calls (execute false (encode_stream stream_exit_with_payload)
        { dwVertexOffset := 0, dwVertexCount := 3, dwInstructionOffset := 0,
          dwInstructionLength := 24 } Surface.blank).2.device.hw_log
      = [HWCall.draw_triangles 0 3 [0, 1, 2] 1] := by
  decide

/-- Claim C8 fails on the code.  Without assertions no check is made: a `D3DOP_TRIANGLE`
instruction declares two elements (16 bytes) where 8 bytes of instruction length remain, and
both triangles are submitted before `end_geometry`; an instruction with `bSize` 4 for the
8-byte element type has its element executed, read over the header that follows. -/
theorem C8_malformed_instruction_is_executed :
    Malformed { bOpcode := D3DOP_TRIANGLE, bSize := 8, wCount := 2 } (12 - 4) ∧
    (execute false buffer_two_triangles
        { dwVertexOffset := 0, dwVertexCount := 4, dwInstructionOffset := 0,
          dwInstructionLength := 12 } Surface.blank).1 = Outcome.finished ∧
    (execute false buffer_two_triangles
        { dwVertexOffset := 0, dwVertexCount := 4, dwInstructionOffset := 0,
          dwInstructionLength := 12 } Surface.blank).2.calls
      = [DeviceCall.begin_geometry 4, DeviceCall.add_triangle 0 1 2,
         DeviceCall.add_triangle 2 1 3, DeviceCall.end_geometry] ∧
    Malformed { bOpcode := D3DOP_TRIANGLE, bSize := 4, wCount := 1 } (12 - 4) ∧
    (execute false buffer_short_element
        { dwVertexOffset := 0, dwVertexCount := 4, dwInstructionOffset := 0,
          dwInstructionLength := 12 } Surface.blank).1 = Outcome.finished ∧
    (execute false buffer_short_element
        { dwVertexOffset := 0, dwVertexCount := 4, dwInstructionOffset := 0,
          dwInstructionLength := 12 } Surface.blank).2.calls
      = [DeviceCall.begin_geometry 4, DeviceCall.add_triangle 0 1 11,
         DeviceCall.end_geometry] := by
  decide

/-- Claim C9 is broken by the code.  A vertex-processing element that requests TRANSFORM
makes `execute_operation` fail, yet the triangle instruction behind it is executed in both
builds before `end_geometry`; the same happens when `set_vertices` itself fails because
five vertices are copied into a surface holding three, and the triangle is drawn. -/
theorem C9_failed_operation_does_not_abort :
    (execute false buffer_transform_then_triangle
        { dwVertexOffset := 0, dwVertexCount := 3, dwInstructionOffset := 0,
          dwInstructionLength := 36 } Surface.blank).2.calls
      = [DeviceCall.begin_geometry 3, DeviceCall.add_triangle 0 1 2,
         DeviceCall.end_geometry] ∧
    (execute true buffer_transform_then_triangle
        { dwVertexOffset := 0, dwVertexCount := 3, dwInstructionOffset := 0,
          dwInstructionLength := 36 } Surface.blank).2.calls
      = [DeviceCall.begin_geometry 3, DeviceCall.add_triangle 0 1 2,
         DeviceCall.end_geometry] ∧
    (execute false buffer_copy_five_then_triangle
        { dwVertexOffset := 0, dwVertexCount := 3, dwInstructionOffset := 0,
          dwInstructionLength := 36 } Surface.blank).2.calls
      = [DeviceCall.begin_geometry 3, DeviceCall.set_vertices 0 5,
         DeviceCall.add_triangle 0 1 2, DeviceCall.end_geometry] ∧
    draw_calls (execute false buffer_copy_five_then_triangle
        { dwVertexOffset := 0, dwVertexCount := 3, dwInstructionOffset := 0,
          dwInstructionLength := 36 } Surface.blank).2.device.hw_log
      = [HWCall.draw_triangles 0 3 [0, 1, 2] 1] := by
  decide

/-! ## Geometry batching -/

theorem add_triangle_of_not_overlay (s : Surface) (v0 v1 v2 : Nat)
    (h : s.active_render_states.get_rs_dw D3DRENDERSTATE_SHADEMODE
      ≠ GLOW_HACK_SHADING_MODE_OVERLAY) :
    s.add_triangle v0 v1 v2 =
      (let s2 := if s.queued_geometry.get_mode ≠ GeometryMode.GEOMETRY_MODE_TRIANGLES
          then s.flush_geometry else s
       let s3 := if s2.queued_geometry.is_empty = false
            ∧ s2.queued_geometry.is_state_set_unchanged s2.active_render_states = false
          then s2.flush_geometry else s2
       let batch := if s3.queued_geometry.is_empty then
            (s3.queued_geometry.set_mode GeometryMode.GEOMETRY_MODE_TRIANGLES).set_state_set
              s3.active_render_states
          else s3.queued_geometry
       { s3 with queued_geometry := batch.add_triangle v0 v1 v2 }) := by
  unfold Surface.add_triangle
  simp only [h, false_and, if_false, decide_False, Bool.false_eq_true]

theorem is_empty_reset (g : GeometryInfo) : g.reset.is_empty = true := rfl

theorem get_mode_reset (g : GeometryInfo) :
    g.reset.get_mode = GeometryMode.GEOMETRY_MODE_TRIANGLES := rfl

theorem is_empty_add_triangle (g : GeometryInfo) (v0 v1 v2 : Nat) :
    (g.add_triangle v0 v1 v2).is_empty = false := by
  simp [GeometryInfo.is_empty, GeometryInfo.add_triangle]

/-- Queuing a triangle on a surface whose primary batch is in its reset state and whose
active shading mode is not the overlay sentinel opens a batch with the active state. -/
theorem add_triangle_opens_batch (s : Surface) (v0 v1 v2 : Nat)
    (h : s.active_render_states.get_rs_dw D3DRENDERSTATE_SHADEMODE
      ≠ GLOW_HACK_SHADING_MODE_OVERLAY)
    (hq : s.queued_geometry.reset = s.queued_geometry) :
    s.add_triangle v0 v1 v2 =
      { s with queued_geometry :=
          ((s.queued_geometry.set_mode GeometryMode.GEOMETRY_MODE_TRIANGLES).set_state_set
            s.active_render_states).add_triangle v0 v1 v2 } := by
  have he : s.queued_geometry.is_empty = true := by rw [← hq]; rfl
  have hm : s.queued_geometry.get_mode = GeometryMode.GEOMETRY_MODE_TRIANGLES := by
    rw [← hq]; rfl
  rw [add_triangle_of_not_overlay s v0 v1 v2 h]
  simp only [hm, ne_eq, not_true_eq_false, if_false, he, Bool.true_eq_false, false_and, if_true]

/-- Queuing a triangle on a non-empty triangle batch whose snapshot still matches the
active state appends to the batch. -/
theorem add_triangle_appends (s : Surface) (v0 v1 v2 : Nat)
    (h : s.active_render_states.get_rs_dw D3DRENDERSTATE_SHADEMODE
      ≠ GLOW_HACK_SHADING_MODE_OVERLAY)
    (hm : s.queued_geometry.get_mode = GeometryMode.GEOMETRY_MODE_TRIANGLES)
    (he : s.queued_geometry.is_empty = false)
    (hu : s.queued_geometry.is_state_set_unchanged s.active_render_states = true) :
    s.add_triangle v0 v1 v2 =
      { s with queued_geometry := s.queued_geometry.add_triangle v0 v1 v2 } := by
  rw [add_triangle_of_not_overlay s v0 v1 v2 h]
  simp only [hm, ne_eq, not_true_eq_false, if_false, he, hu, Bool.true_eq_false, and_false,
    Bool.false_eq_true]

/-- Flushing a non-empty triangle batch while the overlay batch is empty. -/
theorem flush_geometry_triangles (s : Surface)
    (hm : s.queued_geometry.get_mode = GeometryMode.GEOMETRY_MODE_TRIANGLES)
    (he : s.queued_geometry.is_empty = false)
    (ho : s.queued_overlay_geometry.is_empty = true) :
    s.flush_geometry.queued_geometry = s.queued_geometry.reset ∧
    s.flush_geometry.queued_overlay_geometry = s.queued_overlay_geometry ∧
    s.flush_geometry.active_render_states = s.active_render_states ∧
    draw_calls s.flush_geometry.hw_log = draw_calls s.hw_log ++
      [HWCall.draw_triangles s.queued_geometry.min_vertex s.queued_geometry.vertex_count
        s.queued_geometry.indices (s.queued_geometry.indices.length / 3)] := by
  have hm' : s.queued_geometry.geometry_mode = GeometryMode.GEOMETRY_MODE_TRIANGLES := hm
  unfold Surface.flush_geometry
  simp only [he, ho, Bool.false_eq_true, if_false, if_true, GeometryInfo.draw_geometry, hm']
  refine ⟨trivial, trivial, trivial, ?_⟩
  split_ifs <;> simp [draw_calls, HWCall.is_draw, List.filter_append]

theorem get_rs_dw_set_self (a : RenderStateSet) (t v : Nat) (ht : t < a.states.length) :
    (a.set_rs_dw t v).2.get_rs_dw t = v := by
  unfold RenderStateSet.get_rs_dw
  rw [set_rs_dw_states, List.getD_eq_getElem _ _ (by rw [List.length_set]; exact ht)]
  exact List.getElem_set_self _

theorem get_rs_dw_set_ne (a : RenderStateSet) (t u v : Nat) (hne : t ≠ u) :
    (a.set_rs_dw t v).2.get_rs_dw u = a.get_rs_dw u := by
  unfold RenderStateSet.get_rs_dw
  rw [set_rs_dw_states]
  simp only [List.getD_eq_getElem?_getD]
  rw [List.getElem?_set_ne hne]

/-- A set call that changes a slot is noticed by the comparison with the older copy. -/
theorem change_detected (a : RenderStateSet) (t v : Nat) (ha : a.Valid)
    (ht : t < RENDER_STATE_COUNT) (hne : v ≠ a.get_rs_dw t) :
    a.equals_with_sequence (a.set_rs_dw t v).2 = false := by
  have hne' : a.states.getD t 0 ≠ v := fun h => hne h.symm
  have hlt : t < a.states.length := by rw [ha.length_eq]; exact ht
  have hstates : a.states ≠ a.states.set t v := by
    intro h
    have h1 : (a.states.set t v).getD t 0 = v := by
      rw [List.getD_eq_getElem _ _ (by rw [List.length_set]; exact hlt)]
      exact List.getElem_set_self _
    rw [← h] at h1
    exact hne' h1
  have hseq : a.sequence_number ≠ (a.sequence_number + 1) % WORD32 := by
    have := ha.seq_lt
    simp only [WORD32] at *
    omega
  rw [set_rs_dw_eq_of_ne a t v hne']
  unfold RenderStateSet.equals_with_sequence RenderStateSet.equals RenderStateSet.compare_states
  simp only [hseq, if_false, hstates, decide_False]
  split <;> rfl

theorem active_after_overlay_check_valid (s : Surface) (hv : s.active_render_states.Valid) :
    (active_after_overlay_check s).Valid := by
  unfold active_after_overlay_check
  split
  · exact set_rs_dw_valid _ _ _ hv (by decide) (by decide)
  · exact hv

theorem active_after_overlay_check_shade (s : Surface) (hv : s.active_render_states.Valid) :
    (active_after_overlay_check s).get_rs_dw D3DRENDERSTATE_SHADEMODE
      ≠ GLOW_HACK_SHADING_MODE_OVERLAY := by
  unfold active_after_overlay_check
  split
  · rw [get_rs_dw_set_self _ _ _ (by rw [hv.length_eq]; decide)]; decide
  · assumption

/-- Queuing a triangle on a surface whose primary batch is in its reset state. -/
theorem add_triangle_on_reset (s : Surface) (v0 v1 v2 : Nat)
    (hq : s.queued_geometry.reset = s.queued_geometry) (hv : s.active_render_states.Valid) :
    s.add_triangle v0 v1 v2 =
      { s with active_render_states := active_after_overlay_check s,
               queued_geometry :=
                ((s.queued_geometry.set_mode GeometryMode.GEOMETRY_MODE_TRIANGLES).set_state_set
                  (active_after_overlay_check s)).add_triangle v0 v1 v2 } := by
  have he : s.queued_geometry.is_empty = true := by rw [← hq]; rfl
  by_cases h : s.active_render_states.get_rs_dw D3DRENDERSTATE_SHADEMODE
      = GLOW_HACK_SHADING_MODE_OVERLAY
  · have hs := active_after_overlay_check_shade s hv
    have e : s.add_triangle v0 v1 v2
        = ({ s with active_render_states := active_after_overlay_check s }).add_triangle
            v0 v1 v2 := by
      have hact : active_after_overlay_check s
          = (s.active_render_states.set_rs_dw D3DRENDERSTATE_SHADEMODE D3DSHADE_FLAT).2 := by
        unfold active_after_overlay_check; rw [if_pos h]
      conv_lhs => unfold Surface.add_triangle
      conv_rhs => unfold Surface.add_triangle
      simp only [h, he, true_or, and_self, if_true, hs, false_and, if_false, ← hact]
    rw [e]
    exact add_triangle_opens_batch
      { s with active_render_states := active_after_overlay_check s } v0 v1 v2 hs hq
  · have hact : active_after_overlay_check s = s.active_render_states := by
      unfold active_after_overlay_check; rw [if_neg h]
    rw [hact, add_triangle_opens_batch s v0 v1 v2 h hq]

/-- Queuing a triangle after the active state moved away from the snapshot of a non-empty
triangle batch: the batch is flushed and a new one is opened. -/
theorem add_triangle_flushes (s : Surface) (v0 v1 v2 : Nat)
    (h : s.active_render_states.get_rs_dw D3DRENDERSTATE_SHADEMODE
      ≠ GLOW_HACK_SHADING_MODE_OVERLAY)
    (hm : s.queued_geometry.get_mode = GeometryMode.GEOMETRY_MODE_TRIANGLES)
    (he : s.queued_geometry.is_empty = false)
    (ho : s.queued_overlay_geometry.is_empty = true)
    (hu : s.queued_geometry.is_state_set_unchanged s.active_render_states = false) :
    s.add_triangle v0 v1 v2 =
      { s.flush_geometry with queued_geometry :=
          ((s.queued_geometry.reset.set_mode GeometryMode.GEOMETRY_MODE_TRIANGLES).set_state_set
            s.active_render_states).add_triangle v0 v1 v2 } := by
  obtain ⟨f1, _, f3, _⟩ := flush_geometry_triangles s hm he ho
  rw [add_triangle_of_not_overlay s v0 v1 v2 h]
  simp only [hm, ne_eq, not_true_eq_false, if_false, he, hu, and_self, if_true, f1, f3,
    is_empty_reset]

theorem reset_fields (g : GeometryInfo) (hq : g.reset = g) :
    g.indices = [] ∧ g.min_vertex = WORD32 - 1 ∧ g.max_vertex = 0 ∧
    g.geometry_mode = GeometryMode.GEOMETRY_MODE_TRIANGLES := by
  rw [← hq]; exact ⟨rfl, rfl, rfl, rfl⟩

theorem batch_same_state (s : Surface) (a0 a1 a2 b0 b1 b2 : Nat)
    (hq : s.queued_geometry.reset = s.queued_geometry)
    (ho : s.queued_overlay_geometry.is_empty = true)
    (hv : s.active_render_states.Valid) :
    draw_calls ((s.add_triangle a0 a1 a2).add_triangle b0 b1 b2).hw_log = draw_calls s.hw_log ∧
    draw_calls ((s.add_triangle a0 a1 a2).add_triangle b0 b1 b2).flush_geometry.hw_log
      = draw_calls s.hw_log ++
        [HWCall.draw_triangles
          ((GeometryInfo.new.add_triangle a0 a1 a2).add_triangle b0 b1 b2).min_vertex
          ((GeometryInfo.new.add_triangle a0 a1 a2).add_triangle b0 b1 b2).vertex_count
          [a0, a1, a2, b0, b1, b2] 2] := by
  obtain ⟨hi, hmin, hmax, hmode⟩ := reset_fields _ hq
  have hs := active_after_overlay_check_shade s hv
  have h1 := add_triangle_on_reset s a0 a1 a2 hq hv
  have h2 := add_triangle_appends (s.add_triangle a0 a1 a2) b0 b1 b2
    (by rw [h1]; exact hs) (by rw [h1]; rfl) (by rw [h1]; exact is_empty_add_triangle _ _ _ _)
    (by rw [h1]
        show RenderStateSet.equals_with_sequence _ _ = true
        unfold RenderStateSet.equals_with_sequence
        exact if_pos rfl)
  have h3 := flush_geometry_triangles ((s.add_triangle a0 a1 a2).add_triangle b0 b1 b2)
    (by rw [h2, h1]; rfl) (by rw [h2]; exact is_empty_add_triangle _ _ _ _)
    (by rw [h2, h1]; exact ho)
  refine ⟨by rw [h2, h1], ?_⟩
  rw [h3.2.2.2]
  rw [h2, h1]
  simp only [GeometryInfo.add_triangle, GeometryInfo.set_state_set, GeometryInfo.set_mode,
    GeometryInfo.new, GeometryInfo.vertex_count, hi, hmin, hmax, List.nil_append,
    List.cons_append, List.length_cons, List.length_nil]

theorem set_render_state_in_range (s : Surface) (t x : Nat) (ht : t < RENDER_STATE_COUNT) :
    s.set_render_state t x
      = { s with active_render_states := (s.active_render_states.set_rs_dw t x).2 } := by
  unfold Surface.set_render_state
  rw [if_neg (by omega)]

theorem batch_changed_state (s : Surface) (a0 a1 a2 b0 b1 b2 t x : Nat)
    (hq : s.queued_geometry.reset = s.queued_geometry)
    (ho : s.queued_overlay_geometry.is_empty = true)
    (hv : s.active_render_states.Valid)
    (ht : t < RENDER_STATE_COUNT)
    (hx : x ≠ (s.add_triangle a0 a1 a2).active_render_states.get_rs_dw t)
    (hnot : ¬ (t = D3DRENDERSTATE_SHADEMODE ∧ x = GLOW_HACK_SHADING_MODE_OVERLAY)) :
    draw_calls (((s.add_triangle a0 a1 a2).set_render_state t x).add_triangle b0 b1 b2).hw_log
      = draw_calls s.hw_log ++
        [HWCall.draw_triangles (GeometryInfo.new.add_triangle a0 a1 a2).min_vertex
          (GeometryInfo.new.add_triangle a0 a1 a2).vertex_count [a0, a1, a2] 1] ∧
    draw_calls (((s.add_triangle a0 a1 a2).set_render_state t x).add_triangle b0 b1 b2
        ).flush_geometry.hw_log
      = draw_calls s.hw_log ++
        [HWCall.draw_triangles (GeometryInfo.new.add_triangle a0 a1 a2).min_vertex
          (GeometryInfo.new.add_triangle a0 a1 a2).vertex_count [a0, a1, a2] 1,
         HWCall.draw_triangles (GeometryInfo.new.add_triangle b0 b1 b2).min_vertex
          (GeometryInfo.new.add_triangle b0 b1 b2).vertex_count [b0, b1, b2] 1] := by
  obtain ⟨hi, hmin, hmax, hmode⟩ := reset_fields _ hq
  have hs := active_after_overlay_check_shade s hv
  have hA := active_after_overlay_check_valid s hv
  have h1 := add_triangle_on_reset s a0 a1 a2 hq hv
  rw [h1] at hx
  have hx' : x ≠ (active_after_overlay_check s).get_rs_dw t := hx
  have h2 := set_render_state_in_range (s.add_triangle a0 a1 a2) t x ht
  have hshade : ((s.add_triangle a0 a1 a2).set_render_state t x).active_render_states.get_rs_dw
      D3DRENDERSTATE_SHADEMODE ≠ GLOW_HACK_SHADING_MODE_OVERLAY := by
    rw [h2, h1]
    show ((active_after_overlay_check s).set_rs_dw t x).2.get_rs_dw D3DRENDERSTATE_SHADEMODE
      ≠ GLOW_HACK_SHADING_MODE_OVERLAY
    by_cases hts : t = D3DRENDERSTATE_SHADEMODE
    · subst hts
      rw [get_rs_dw_set_self _ _ _ (by rw [hA.length_eq]; decide)]
      exact fun hc => hnot ⟨rfl, hc⟩
    · rw [get_rs_dw_set_ne _ _ _ _ hts]; exact hs
  have hchg : ((s.add_triangle a0 a1 a2).set_render_state t x).queued_geometry.is_state_set_unchanged
      ((s.add_triangle a0 a1 a2).set_render_state t x).active_render_states = false := by
    rw [h2, h1]
    exact change_detected (active_after_overlay_check s) t x hA ht hx'
  have hm2 : ((s.add_triangle a0 a1 a2).set_render_state t x).queued_geometry.get_mode
      = GeometryMode.GEOMETRY_MODE_TRIANGLES := by rw [h2, h1]; rfl
  have he2 : ((s.add_triangle a0 a1 a2).set_render_state t x).queued_geometry.is_empty = false := by
    rw [h2, h1]; exact is_empty_add_triangle _ _ _ _
  have ho2 : ((s.add_triangle a0 a1 a2).set_render_state t x).queued_overlay_geometry.is_empty
      = true := by rw [h2, h1]; exact ho
  have h3 := add_triangle_flushes _ b0 b1 b2 hshade hm2 he2 ho2 hchg
  obtain ⟨f1, f2, f3, f4⟩ := flush_geometry_triangles _ hm2 he2 ho2
  have hlog3 : draw_calls
      (((s.add_triangle a0 a1 a2).set_render_state t x).add_triangle b0 b1 b2).hw_log
      = draw_calls s.hw_log ++
        [HWCall.draw_triangles (GeometryInfo.new.add_triangle a0 a1 a2).min_vertex
          (GeometryInfo.new.add_triangle a0 a1 a2).vertex_count [a0, a1, a2] 1] := by
    rw [h3]
    show draw_calls ((s.add_triangle a0 a1 a2).set_render_state t x).flush_geometry.hw_log = _
    rw [f4, h2, h1]
    simp only [GeometryInfo.add_triangle, GeometryInfo.set_state_set, GeometryInfo.set_mode,
      GeometryInfo.new, GeometryInfo.vertex_count, hi, hmin, hmax, List.nil_append,
      List.cons_append, List.length_cons, List.length_nil]
  refine ⟨hlog3, ?_⟩
  obtain ⟨_, _, _, g4⟩ := flush_geometry_triangles
    (((s.add_triangle a0 a1 a2).set_render_state t x).add_triangle b0 b1 b2)
    (by rw [h3]; rfl) (by rw [h3]; exact is_empty_add_triangle _ _ _ _)
    (by rw [h3]
        show ((s.add_triangle a0 a1 a2).set_render_state t x).flush_geometry.queued_overlay_geometry.is_empty
          = true
        rw [f2]; exact ho2)
  rw [g4, hlog3, h3]
  simp only [GeometryInfo.add_triangle, GeometryInfo.set_state_set, GeometryInfo.set_mode,
    GeometryInfo.new, GeometryInfo.vertex_count, GeometryInfo.reset, List.nil_append,
    List.cons_append, List.length_cons, List.length_nil, List.append_assoc]

/-- Claim C10 fails as stated.  After a flat-shaded triangle, assigning the overlay sentinel
to SHADEMODE changes the stored field, yet the sentinel is rewritten to flat shading and
the flush issues one draw call with both triangles; after a triangle shaded with the base
sentinel the same assignment routes the second triangle to the overlay batch, so nothing
is drawn before the second triangle is queued. -/
theorem C10_counterexample :
    ((Surface.blank.set_render_state D3DRENDERSTATE_SHADEMODE D3DSHADE_FLAT).add_triangle
        0 1 2).active_render_states.get_rs_dw D3DRENDERSTATE_SHADEMODE
      ≠ GLOW_HACK_SHADING_MODE_OVERLAY ∧
    (((Surface.blank.set_render_state D3DRENDERSTATE_SHADEMODE D3DSHADE_FLAT).add_triangle
        0 1 2).set_render_state D3DRENDERSTATE_SHADEMODE
          GLOW_HACK_SHADING_MODE_OVERLAY).active_render_states.get_rs_dw
        D3DRENDERSTATE_SHADEMODE
      = GLOW_HACK_SHADING_MODE_OVERLAY ∧
    draw_calls ((((Surface.blank.set_render_state D3DRENDERSTATE_SHADEMODE
        D3DSHADE_FLAT).add_triangle 0 1 2).set_render_state D3DRENDERSTATE_SHADEMODE
          GLOW_HACK_SHADING_MODE_OVERLAY).add_triangle 2 1 3).flush_geometry.hw_log
      = [HWCall.draw_triangles 0 4 [0, 1, 2, 2, 1, 3] 2] ∧
    draw_calls ((((Surface.blank.set_render_state D3DRENDERSTATE_SHADEMODE
        GLOW_HACK_SHADING_MODE_BASE).add_triangle 0 1 2).set_render_state
          D3DRENDERSTATE_SHADEMODE GLOW_HACK_SHADING_MODE_OVERLAY).add_triangle 2 1 3).hw_log
      = [] := by
  decide

/-- Claim C10, amended.  On a surface whose primary batch is in its reset state and whose
overlay batch is empty, two consecutive triangles with no state change in between are
drawn by the following flush in one `draw_triangles` call holding both (count 2), nothing
being drawn before; if a render-state assignment between them changes a stored field and is
not the assignment of the overlay sentinel to SHADEMODE, the first triangle is drawn on its
own when the second is queued and the following flush draws the second in a separate
call. -/
theorem C10_batching (s : Surface) (a0 a1 a2 b0 b1 b2 : Nat)
    (hq : s.queued_geometry.reset = s.queued_geometry)
    (ho : s.queued_overlay_geometry.is_empty = true)
    (hv : s.active_render_states.Valid) :
    (draw_calls ((s.add_triangle a0 a1 a2).add_triangle b0 b1 b2).hw_log = draw_calls s.hw_log ∧
     draw_calls ((s.add_triangle a0 a1 a2).add_triangle b0 b1 b2).flush_geometry.hw_log
      = draw_calls s.hw_log ++
        [HWCall.draw_triangles
          ((GeometryInfo.new.add_triangle a0 a1 a2).add_triangle b0 b1 b2).min_vertex
          ((GeometryInfo.new.add_triangle a0 a1 a2).add_triangle b0 b1 b2).vertex_count
          [a0, a1, a2, b0, b1, b2] 2]) ∧
    (∀ t x, t < RENDER_STATE_COUNT →
      x ≠ (s.add_triangle a0 a1 a2).active_render_states.get_rs_dw t →
      ¬ (t = D3DRENDERSTATE_SHADEMODE ∧ x = GLOW_HACK_SHADING_MODE_OVERLAY) →
      draw_calls (((s.add_triangle a0 a1 a2).set_render_state t x).add_triangle b0 b1 b2).hw_log
        = draw_calls s.hw_log ++
          [HWCall.draw_triangles (GeometryInfo.new.add_triangle a0 a1 a2).min_vertex
            (GeometryInfo.new.add_triangle a0 a1 a2).vertex_count [a0, a1, a2] 1] ∧
      draw_calls (((s.add_triangle a0 a1 a2).set_render_state t x).add_triangle b0 b1 b2
          ).flush_geometry.hw_log
        = draw_calls s.hw_log ++
          [HWCall.draw_triangles (GeometryInfo.new.add_triangle a0 a1 a2).min_vertex
            (GeometryInfo.new.add_triangle a0 a1 a2).vertex_count [a0, a1, a2] 1,
           HWCall.draw_triangles (GeometryInfo.new.add_triangle b0 b1 b2).min_vertex
            (GeometryInfo.new.add_triangle b0 b1 b2).vertex_count [b0, b1, b2] 1]) :=
  ⟨batch_same_state s a0 a1 a2 b0 b1 b2 hq ho hv,
   fun t x ht hx hnot => batch_changed_state s a0 a1 a2 b0 b1 b2 t x hq ho hv ht hx hnot⟩

/-- Claim C10, amended, at the triangles (0, 1, 2) and (2, 1, 3) on a blank surface. -/
theorem C10_batching_witness :
    Surface.blank.queued_geometry.reset = Surface.blank.queued_geometry ∧
    Surface.blank.queued_overlay_geometry.is_empty = true ∧
    draw_calls ((Surface.blank.add_triangle 0 1 2).add_triangle 2 1 3).flush_geometry.hw_log
      = [HWCall.draw_triangles 0 4 [0, 1, 2, 2, 1, 3] 2] :=
  ⟨rfl, rfl, (C10_batching Surface.blank 0 1 2 2 1 3 rfl rfl new_valid).1.2⟩

/-! ## Geometry batches and the overlay batch -/

/-- What queuing keeps true of a batch that started fresh: it is still fresh, or it is
non-empty with a window that is not inverted and stays far below the word size. -/
theorem apply_keeps_window_order (g : GeometryInfo) (op : BatchOp) (hop : op.InRange)
    (h : g.IsFresh ∨ (g.indices ≠ [] ∧ g.min_vertex ≤ g.max_vertex ∧ g.max_vertex < 2 ^ 17)) :
    (op.apply g).IsFresh ∨ ((op.apply g).indices ≠ [] ∧
      (op.apply g).min_vertex ≤ (op.apply g).max_vertex ∧ (op.apply g).max_vertex < 2 ^ 17) := by
  cases op with
  | add_triangle v0 v1 v2 =>
    right
    obtain ⟨h0, h1, h2⟩ := hop
    simp only [BatchOp.apply, GeometryInfo.add_triangle]
    refine ⟨by simp, ?_⟩
    rcases h with ⟨_, hmin, hmax⟩ | ⟨_, hle, hlt⟩
    · rw [hmin, hmax]; simp only [WORD32]; omega
    · omega
  | add_line v0 v1 =>
    right
    obtain ⟨h0, h1⟩ := hop
    simp only [BatchOp.apply, GeometryInfo.add_line]
    refine ⟨by simp, ?_⟩
    rcases h with ⟨_, hmin, hmax⟩ | ⟨_, hle, hlt⟩
    · rw [hmin, hmax]; simp only [WORD32]; omega
    · omega
  | add_points first count =>
    obtain ⟨h0, h1⟩ := hop
    simp only [BatchOp.apply, GeometryInfo.add_points]
    by_cases hc : count = 0
    · rw [if_pos hc]; exact h
    · rw [if_neg hc]
      right
      refine ⟨?_, ?_⟩
      · intro hnil
        have hlen := congrArg List.length hnil
        simp only [List.length_append, List.length_map, List.length_range, List.length_nil]
          at hlen
        omega
      · rcases h with ⟨_, hmin, hmax⟩ | ⟨_, hle, hlt⟩
        · rw [hmin, hmax]; simp only [WORD32]; omega
        · simp only [WORD32]; omega

theorem queue_keeps_window_order (ops : List BatchOp) :
    ∀ g : GeometryInfo, (∀ op ∈ ops, op.InRange) →
    (g.IsFresh ∨ (g.indices ≠ [] ∧ g.min_vertex ≤ g.max_vertex ∧ g.max_vertex < 2 ^ 17)) →
    ((g.queue ops).IsFresh ∨ ((g.queue ops).indices ≠ [] ∧
      (g.queue ops).min_vertex ≤ (g.queue ops).max_vertex ∧
      (g.queue ops).max_vertex < 2 ^ 17)) := by
  induction ops with
  | nil => intro g _ h; exact h
  | cons op ops ih =>
    intro g hops h
    exact ih (op.apply g) (fun o ho => hops o (List.mem_cons_of_mem _ ho))
      (apply_keeps_window_order g op (hops op (List.mem_cons_self _ _)) h)

/-- On a non-empty batch queued from a fresh one, the vertex count handed to the draw call is
`max_vertex − min_vertex + 1` without wrap-around. -/
theorem vertex_count_of_queue (g : GeometryInfo) (ops : List BatchOp) (hg : g.IsFresh)
    (hops : ∀ op ∈ ops, op.InRange) (hne : (g.queue ops).is_empty = false) :
    (g.queue ops).min_vertex ≤ (g.queue ops).max_vertex ∧
    (g.queue ops).vertex_count = (g.queue ops).max_vertex - (g.queue ops).min_vertex + 1 := by
  rcases queue_keeps_window_order ops g hops (Or.inl hg) with ⟨hnil, _, _⟩ | ⟨_, hle, hlt⟩
  · simp [GeometryInfo.is_empty, hnil] at hne
  · refine ⟨hle, ?_⟩
    unfold GeometryInfo.vertex_count
    simp only [WORD32]
    omega

/-- A queuing call whose indices survive the cast to `unsigned short` keeps every stored
index inside the window. -/
theorem apply_keeps_window (g : GeometryInfo) (op : BatchOp) (hop : op.InRange)
    (hfit : op.Fits) (hw : g.WindowHolds) : (op.apply g).WindowHolds := by
  cases op with
  | add_triangle v0 v1 v2 =>
    intro i hi
    simp only [BatchOp.apply, GeometryInfo.add_triangle, List.mem_append, List.mem_cons,
      List.mem_singleton, List.not_mem_nil, or_false] at hi ⊢
    rcases hi with hi | rfl | rfl | rfl
    · have := hw i hi; omega
    all_goals omega
  | add_line v0 v1 =>
    intro i hi
    simp only [BatchOp.apply, GeometryInfo.add_line, List.mem_append, List.mem_cons,
      List.mem_singleton, List.not_mem_nil, or_false] at hi ⊢
    rcases hi with hi | rfl | rfl
    · have := hw i hi; omega
    all_goals omega
  | add_points first count =>
    obtain ⟨h0, h1⟩ := hop
    simp only [BatchOp.apply, GeometryInfo.add_points]
    by_cases hc : count = 0
    · rw [if_pos hc]; exact hw
    · rw [if_neg hc]
      have hf : first + count - 1 < 2 ^ 16 := by
        rcases hfit with h | h
        · exact absurd h hc
        · exact h
      intro i hi
      simp only [List.mem_append, List.mem_map, List.mem_range] at hi ⊢
      rcases hi with hi | ⟨k, hk, rfl⟩
      · have := hw i hi; simp only [WORD32]; omega
      · simp only [WORD32]; omega

/-- The window invariant under the condition asserted by `add_points`. -/
theorem queue_keeps_window (ops : List BatchOp) :
    ∀ g : GeometryInfo, (∀ op ∈ ops, op.InRange ∧ op.Fits) → g.WindowHolds →
      (g.queue ops).WindowHolds := by
  induction ops with
  | nil => intro g _ h; exact h
  | cons op ops ih =>
    intro g hops h
    exact ih (op.apply g) (fun o ho => hops o (List.mem_cons_of_mem _ ho))
      (apply_keeps_window g op (hops op (List.mem_cons_self _ _)).1
        (hops op (List.mem_cons_self _ _)).2 h)

/-- Claim C11.  On an empty batch draw_geometry issues nothing and changes nothing.  On a
non-empty batch it issues exactly one draw call of the topology of the batch, with
vertex_start = min_vertex, the vertex count (max_vertex - min_vertex) + 1, the accumulated
indices and the primitive count |indices| / 3, |indices| / 2 or |indices|, and leaves the
batch reset with its state snapshot unchanged; for a batch queued from a fresh one the
vertex count is max_vertex - min_vertex + 1 with no wrap-around.  Scenario A, in both
builds: the execute finishes and makes exactly one draw, draw_triangles with vertex_start 0,
vertex_count 3, indices [0, 1, 2] and one triangle. -/
theorem C11_draw_geometry (g : GeometryInfo) (log : List HWCall) :
    (g.is_empty = true → g.draw_geometry log = (g, log)) ∧
    (g.is_empty = false →
      (g.draw_geometry log).2 = log ++
        [match g.geometry_mode with
         | GeometryMode.GEOMETRY_MODE_TRIANGLES =>
           HWCall.draw_triangles g.min_vertex g.vertex_count g.indices (g.indices.length / 3)
         | GeometryMode.GEOMETRY_MODE_LINES =>
           HWCall.draw_lines g.min_vertex g.vertex_count g.indices (g.indices.length / 2)
         | GeometryMode.GEOMETRY_MODE_POINTS =>
           HWCall.draw_points g.min_vertex g.vertex_count g.indices g.indices.length] ∧
      (g.draw_geometry log).1 =
        { geometry_mode := GeometryMode.GEOMETRY_MODE_TRIANGLES,
          indices := [],
          min_vertex := WORD32 - 1,
          max_vertex := 0,
          state_set := g.state_set } ∧
      (g.draw_geometry log).1.is_empty = true) ∧
    (∀ (fresh : GeometryInfo) (ops : List BatchOp), fresh.IsFresh →
      (∀ op ∈ ops, op.InRange) → g = fresh.queue ops → g.is_empty = false →
      g.min_vertex ≤ g.max_vertex ∧
      g.vertex_count = g.max_vertex - g.min_vertex + 1) ∧
    (∀ asserts : Bool,
      (execute asserts buffer_scenario_a
        { dwVertexOffset := 0, dwVertexCount := 3, dwInstructionOffset := 0,
          dwInstructionLength := 36 } Surface.blank).1 = Outcome.finished ∧
      draw_calls (execute asserts buffer_scenario_a
        { dwVertexOffset := 0, dwVertexCount := 3, dwInstructionOffset := 0,
          dwInstructionLength := 36 } Surface.blank).2.device.hw_log
        = [HWCall.draw_triangles 0 3 [0, 1, 2] 1]) := by
  refine ⟨?_, ?_, ?_, ?_⟩
  · intro he
    unfold GeometryInfo.draw_geometry
    rw [if_pos he]
  · intro he
    unfold GeometryInfo.draw_geometry
    rw [if_neg (by rw [he]; decide)]
    exact ⟨rfl, rfl, rfl⟩
  · intro fresh ops hf hops hg hne
    subst hg
    exact vertex_count_of_queue fresh ops hf hops hne
  · decide

/-- Claim C11 at the batch holding the triangles (0, 1, 2) and (2, 1, 3). -/
theorem C11_draw_geometry_witness :
    (GeometryInfo.new.draw_geometry []) = (GeometryInfo.new, []) ∧
    ((GeometryInfo.new.queue [BatchOp.add_triangle 0 1 2,
        BatchOp.add_triangle 2 1 3]).draw_geometry []).2
      = [HWCall.draw_triangles 0 4 [0, 1, 2, 2, 1, 3] 2] ∧
    (GeometryInfo.new.queue [BatchOp.add_triangle 0 1 2,
        BatchOp.add_triangle 2 1 3]).vertex_count = 3 - 0 + 1 :=
  ⟨(C11_draw_geometry GeometryInfo.new []).1 rfl,
   ((C11_draw_geometry (GeometryInfo.new.queue [BatchOp.add_triangle 0 1 2,
      BatchOp.add_triangle 2 1 3]) []).2.1 (by decide)).1,
   ((C11_draw_geometry (GeometryInfo.new.queue [BatchOp.add_triangle 0 1 2,
      BatchOp.add_triangle 2 1 3]) []).2.2.1 GeometryInfo.new
        [BatchOp.add_triangle 0 1 2, BatchOp.add_triangle 2 1 3] (by decide) (by decide)
        rfl (by decide)).2⟩

/-- Claim C12 fails as stated.  The point range with first = 65535 and count = 2, both
values of a WORD, queued on a fresh batch stores the indices 65535 and 0 (the second one
wrapped by the cast to unsigned short) while the window becomes [65535, 65536]: the index 0
lies below min_vertex.  Interpreting a buffer with that D3DOP_POINT instruction hands the
draw call draw_points(vertex_start 65535, vertex_count 2, indices [65535, 0]). -/
theorem C12_counterexample :
    BatchOp.InRange (BatchOp.add_points 65535 2) ∧
    GeometryInfo.IsFresh (GeometryInfo.new.set_mode GeometryMode.GEOMETRY_MODE_POINTS) ∧
    ((GeometryInfo.new.set_mode GeometryMode.GEOMETRY_MODE_POINTS).add_points 65535 2).indices
      = [65535, 0] ∧
    ((GeometryInfo.new.set_mode GeometryMode.GEOMETRY_MODE_POINTS).add_points 65535
      2).min_vertex = 65535 ∧
    ((GeometryInfo.new.set_mode GeometryMode.GEOMETRY_MODE_POINTS).add_points 65535
      2).max_vertex = 65536 ∧
    ¬ ((GeometryInfo.new.set_mode GeometryMode.GEOMETRY_MODE_POINTS).queue
        [BatchOp.add_points 65535 2]).WindowHolds ∧
    (∀ asserts : Bool,
      (execute asserts buffer_points_wrap
        { dwVertexOffset := 0, dwVertexCount := 65537, dwInstructionOffset := 0,
          dwInstructionLength := 12 } Surface.blank).1 = Outcome.finished ∧
      draw_calls (execute asserts buffer_points_wrap
        { dwVertexOffset := 0, dwVertexCount := 65537, dwInstructionOffset := 0,
          dwInstructionLength := 12 } Surface.blank).2.device.hw_log
        = [HWCall.draw_points 65535 2 [65535, 0] 2]) := by
  decide

/-- Claim C12, amended.  For a batch that is fresh (after construction, reset or draw), after
any sequence of add_triangle, add_line and add_points calls with 16-bit arguments in which
every add_points(first, count) has count = 0 or first + count - 1 below 65536 (the condition
that add_points asserts), every stored index lies between min_vertex and max_vertex. -/
theorem C12_window_invariant (g : GeometryInfo) (ops : List BatchOp) (hg : g.IsFresh)
    (hops : ∀ op ∈ ops, op.InRange ∧ op.Fits) :
    ∀ i ∈ (g.queue ops).indices, (g.queue ops).min_vertex ≤ i ∧ i ≤ (g.queue ops).max_vertex :=
  queue_keeps_window ops g hops (by
    intro i hi
    rw [hg.1] at hi
    exact absurd hi (List.not_mem_nil i))

/-- Claim C12, amended, at a point batch queued with the ranges (3, 2) and (0, 65536 - 1)
followed by an empty range. -/
theorem C12_window_invariant_witness :
    GeometryInfo.IsFresh (GeometryInfo.new.set_mode GeometryMode.GEOMETRY_MODE_POINTS) ∧
    (∀ op ∈ [BatchOp.add_points 3 2, BatchOp.add_points 0 65535, BatchOp.add_points 65535 0],
      op.InRange ∧ op.Fits) ∧
    (∀ i ∈ ((GeometryInfo.new.set_mode GeometryMode.GEOMETRY_MODE_POINTS).queue
        [BatchOp.add_points 3 2, BatchOp.add_points 0 65535,
         BatchOp.add_points 65535 0]).indices,
      ((GeometryInfo.new.set_mode GeometryMode.GEOMETRY_MODE_POINTS).queue
        [BatchOp.add_points 3 2, BatchOp.add_points 0 65535,
         BatchOp.add_points 65535 0]).min_vertex ≤ i ∧
      i ≤ ((GeometryInfo.new.set_mode GeometryMode.GEOMETRY_MODE_POINTS).queue
        [BatchOp.add_points 3 2, BatchOp.add_points 0 65535,
         BatchOp.add_points 65535 0]).max_vertex) :=
  ⟨by decide, by decide,
   C12_window_invariant (GeometryInfo.new.set_mode GeometryMode.GEOMETRY_MODE_POINTS)
     [BatchOp.add_points 3 2, BatchOp.add_points 0 65535, BatchOp.add_points 65535 0]
     (by decide) (by decide)⟩

/-- Claim C13 fails on the code.  With a base triangle and an overlay triangle queued, a
change of another render state followed by a second overlay triangle makes add_triangle
flush both batches and then queue the triangle on the overlay batch: the primary batch is
empty while the overlay batch holds the triangle (0, 2, 3).  The end_geometry that follows
returns at the empty primary batch, so that triangle is never drawn; the same happens when
the calls come from the interpreter. -/
theorem C13_overlay_left_without_base :
    surface_overlay_state_change.queued_geometry.is_empty = true ∧
    surface_overlay_state_change.queued_overlay_geometry.is_empty = false ∧
    surface_overlay_state_change.queued_overlay_geometry.indices = [0, 2, 3] ∧
    surface_overlay_state_change.end_geometry.queued_geometry.is_empty = true ∧
    surface_overlay_state_change.end_geometry.queued_overlay_geometry.indices = [0, 2, 3] ∧
    draw_calls surface_overlay_state_change.end_geometry.hw_log
      = [HWCall.draw_triangles 0 3 [0, 1, 2] 1, HWCall.draw_triangles 0 3 [0, 1, 2] 1] ∧
    StreamWellFormed 4 stream_overlay_state_change ∧
    (execute false (encode_stream stream_overlay_state_change)
        { dwVertexOffset := 0, dwVertexCount := 4, dwInstructionOffset := 0,
          dwInstructionLength := (encode_stream stream_overlay_state_change).length }
        Surface.blank).1 = Outcome.finished ∧
    (execute false (encode_stream stream_overlay_state_change)
        { dwVertexOffset := 0, dwVertexCount := 4, dwInstructionOffset := 0,
          dwInstructionLength := (encode_stream stream_overlay_state_change).length }
        Surface.blank).2.device.queued_overlay_geometry.indices = [0, 2, 3] ∧
    draw_calls (execute false (encode_stream stream_overlay_state_change)
        { dwVertexOffset := 0, dwVertexCount := 4, dwInstructionOffset := 0,
          dwInstructionLength := (encode_stream stream_overlay_state_change).length }
        Surface.blank).2.device.hw_log
      = [HWCall.draw_triangles 0 3 [0, 1, 2] 1, HWCall.draw_triangles 0 3 [0, 1, 2] 1] := by
  decide

/-- Claim C14 fails on the code.  After the calls of claim C13, a change to flat shading
and the triangle (1, 2, 3) leave a primary batch whose snapshot has SHADEMODE =
D3DSHADE_FLAT next to the overlay batch holding (0, 2, 3); the flush draws the flat primary
batch and immediately afterwards the overlay batch, which so renders after a primary batch
that does not carry the base sentinel. -/
theorem C14_overlay_drawn_after_flat_batch :
    surface_overlay_then_flat.queued_geometry.indices = [1, 2, 3] ∧
    surface_overlay_then_flat.queued_geometry.get_shade_mode_render_state = D3DSHADE_FLAT ∧
    surface_overlay_then_flat.queued_overlay_geometry.indices = [0, 2, 3] ∧
    surface_overlay_then_flat.queued_overlay_geometry.get_shade_mode_render_state
      = GLOW_HACK_SHADING_MODE_OVERLAY ∧
    surface_overlay_then_flat.flush_geometry.hw_log
      = surface_overlay_then_flat.hw_log ++
        [HWCall.synchronize_hw,
         HWCall.apply_render_states surface_overlay_then_flat.queued_geometry.state_set,
         HWCall.draw_triangles 1 3 [1, 2, 3] 1,
         HWCall.apply_render_states surface_overlay_then_flat.queued_overlay_geometry.state_set,
         HWCall.draw_triangles 0 4 [0, 2, 3] 1] ∧
    StreamWellFormed 4 stream_overlay_then_flat ∧
    draw_calls (execute false (encode_stream stream_overlay_then_flat)
        { dwVertexOffset := 0, dwVertexCount := 4, dwInstructionOffset := 0,
          dwInstructionLength := (encode_stream stream_overlay_then_flat).length }
        Surface.blank).2.device.hw_log
      = [HWCall.draw_triangles 0 3 [0, 1, 2] 1, HWCall.draw_triangles 0 3 [0, 1, 2] 1,
         HWCall.draw_triangles 1 3 [1, 2, 3] 1, HWCall.draw_triangles 0 4 [0, 2, 3] 1] := by
  decide

/-! ## States derived from the render-state set -/

theorem get_rs_bool_eq (s : RenderStateSet) (t : Nat) :
    s.get_rs_bool t = decide (s.get_rs_dw t ≠ 0) := rfl

/-- The decision of `get_depth_test_state` in terms of the three slot values. -/
theorem get_depth_test_state_eq (s : RenderStateSet) :
    s.get_depth_test_state =
      if s.get_rs_dw D3DRENDERSTATE_ZENABLE = 0 then DepthTest.DEPTH_TEST_NONE
      else if s.get_rs_dw D3DRENDERSTATE_ZFUNC = D3DCMP_ALWAYS
          ∧ s.get_rs_dw D3DRENDERSTATE_ZWRITEENABLE = 0 then DepthTest.DEPTH_TEST_NONE
      else if s.get_rs_dw D3DRENDERSTATE_ZFUNC ≠ D3DCMP_LESSEQUAL then DepthTest.DEPTH_TEST_NONE
      else if s.get_rs_dw D3DRENDERSTATE_ZWRITEENABLE = 0 then DepthTest.DEPTH_TEST_NOZWRITE
      else DepthTest.DEPTH_TEST_ON := by
  unfold RenderStateSet.get_depth_test_state
  simp only [get_rs_bool_eq, ne_eq, decide_not, Bool.not_not, decide_eq_true_eq]

/-- Claim C15.  The method get_depth_test_state answers DEPTH_TEST_ON exactly when ZENABLE
is non-zero, ZFUNC is D3DCMP_LESSEQUAL and ZWRITEENABLE is non-zero, DEPTH_TEST_NOZWRITE
exactly when ZENABLE is non-zero, ZFUNC is D3DCMP_LESSEQUAL and ZWRITEENABLE is zero, and
DEPTH_TEST_NONE in every other case; two sets that agree on these three slots get the
same answer. -/
theorem C15_depth_test_decision :
    (∀ s : RenderStateSet,
      (s.get_depth_test_state = DepthTest.DEPTH_TEST_ON ↔
        s.get_rs_dw D3DRENDERSTATE_ZENABLE ≠ 0 ∧
        s.get_rs_dw D3DRENDERSTATE_ZFUNC = D3DCMP_LESSEQUAL ∧
        s.get_rs_dw D3DRENDERSTATE_ZWRITEENABLE ≠ 0) ∧
      (s.get_depth_test_state = DepthTest.DEPTH_TEST_NOZWRITE ↔
        s.get_rs_dw D3DRENDERSTATE_ZENABLE ≠ 0 ∧
        s.get_rs_dw D3DRENDERSTATE_ZFUNC = D3DCMP_LESSEQUAL ∧
        s.get_rs_dw D3DRENDERSTATE_ZWRITEENABLE = 0) ∧
      (s.get_depth_test_state = DepthTest.DEPTH_TEST_NONE ↔
        s.get_rs_dw D3DRENDERSTATE_ZENABLE = 0 ∨
        s.get_rs_dw D3DRENDERSTATE_ZFUNC ≠ D3DCMP_LESSEQUAL)) ∧
    (∀ s other : RenderStateSet,
      s.get_rs_dw D3DRENDERSTATE_ZENABLE = other.get_rs_dw D3DRENDERSTATE_ZENABLE →
      s.get_rs_dw D3DRENDERSTATE_ZFUNC = other.get_rs_dw D3DRENDERSTATE_ZFUNC →
      s.get_rs_dw D3DRENDERSTATE_ZWRITEENABLE = other.get_rs_dw D3DRENDERSTATE_ZWRITEENABLE →
      s.get_depth_test_state = other.get_depth_test_state) := by
  constructor
  · intro s
    rw [get_depth_test_state_eq]
    generalize s.get_rs_dw D3DRENDERSTATE_ZENABLE = z
    generalize s.get_rs_dw D3DRENDERSTATE_ZFUNC = f
    generalize s.get_rs_dw D3DRENDERSTATE_ZWRITEENABLE = w
    simp only [D3DCMP_ALWAYS, D3DCMP_LESSEQUAL]
    refine ⟨?_, ?_, ?_⟩ <;> split_ifs <;> simp_all
  · intro s other h1 h2 h3
    rw [get_depth_test_state_eq, get_depth_test_state_eq, h1, h2, h3]

/-- Claim C15 at a set with the depth test enabled, the less-or-equal function and depth
writes enabled, compared with a set that differs in another slot only. -/
theorem C15_depth_test_decision_witness :
    (RenderStateSet.ofCalls [SetCall.dw D3DRENDERSTATE_ZENABLE 1,
        SetCall.dw D3DRENDERSTATE_ZFUNC D3DCMP_LESSEQUAL,
        SetCall.dw D3DRENDERSTATE_ZWRITEENABLE 1]).get_depth_test_state
      = DepthTest.DEPTH_TEST_ON ∧
    (RenderStateSet.ofCalls [SetCall.dw D3DRENDERSTATE_ZENABLE 1,
        SetCall.dw D3DRENDERSTATE_ZFUNC D3DCMP_LESSEQUAL,
        SetCall.dw D3DRENDERSTATE_ZWRITEENABLE 1]).get_depth_test_state
      = (RenderStateSet.ofCalls [SetCall.dw D3DRENDERSTATE_ZENABLE 1,
        SetCall.dw D3DRENDERSTATE_ZFUNC D3DCMP_LESSEQUAL,
        SetCall.dw D3DRENDERSTATE_ZWRITEENABLE 1,
        SetCall.dw D3DRENDERSTATE_SHADEMODE 2]).get_depth_test_state :=
  ⟨((C15_depth_test_decision.1 _).1).2 (by decide),
   C15_depth_test_decision.2 _ _ (by decide) (by decide) (by decide)⟩

theorem get_alpha_blend_state_eq (s : RenderStateSet) :
    s.get_alpha_blend_state =
      if s.get_rs_dw D3DRENDERSTATE_BLENDENABLE = 0 then Blend.BLEND_NONE
      else if s.get_rs_dw D3DRENDERSTATE_SRCBLEND = D3DBLEND_ONE
          ∧ s.get_rs_dw D3DRENDERSTATE_DESTBLEND = D3DBLEND_ZERO then Blend.BLEND_NONE
      else if s.get_rs_dw D3DRENDERSTATE_SRCBLEND = D3DBLEND_SRCALPHA
          ∧ s.get_rs_dw D3DRENDERSTATE_DESTBLEND = D3DBLEND_INVSRCALPHA then Blend.BLEND_OVER
      else if s.get_rs_dw D3DRENDERSTATE_SRCBLEND = D3DBLEND_BOTHSRCALPHA then Blend.BLEND_OVER
      else Blend.BLEND_NONE := by
  unfold RenderStateSet.get_alpha_blend_state
  simp only [get_rs_bool_eq, ne_eq, decide_not, Bool.not_not, decide_eq_true_eq]

/-- Claim C16.  The method get_alpha_blend_state returns BLEND_OVER exactly when BLENDENABLE
is non-zero and either SRCBLEND is D3DBLEND_SRCALPHA with DESTBLEND D3DBLEND_INVSRCALPHA or
SRCBLEND is D3DBLEND_BOTHSRCALPHA; in every other case it returns BLEND_NONE, and it never
returns BLEND_ADD. -/
theorem C16_alpha_blend_decision (s : RenderStateSet) :
    (s.get_alpha_blend_state = Blend.BLEND_OVER ↔
      s.get_rs_dw D3DRENDERSTATE_BLENDENABLE ≠ 0 ∧
      ((s.get_rs_dw D3DRENDERSTATE_SRCBLEND = D3DBLEND_SRCALPHA ∧
        s.get_rs_dw D3DRENDERSTATE_DESTBLEND = D3DBLEND_INVSRCALPHA) ∨
       s.get_rs_dw D3DRENDERSTATE_SRCBLEND = D3DBLEND_BOTHSRCALPHA)) ∧
    (s.get_alpha_blend_state = Blend.BLEND_NONE ↔
      ¬ (s.get_rs_dw D3DRENDERSTATE_BLENDENABLE ≠ 0 ∧
        ((s.get_rs_dw D3DRENDERSTATE_SRCBLEND = D3DBLEND_SRCALPHA ∧
          s.get_rs_dw D3DRENDERSTATE_DESTBLEND = D3DBLEND_INVSRCALPHA) ∨
         s.get_rs_dw D3DRENDERSTATE_SRCBLEND = D3DBLEND_BOTHSRCALPHA))) ∧
    s.get_alpha_blend_state ≠ Blend.BLEND_ADD := by
  rw [get_alpha_blend_state_eq]
  generalize s.get_rs_dw D3DRENDERSTATE_BLENDENABLE = e
  generalize s.get_rs_dw D3DRENDERSTATE_SRCBLEND = src
  generalize s.get_rs_dw D3DRENDERSTATE_DESTBLEND = dest
  simp only [D3DBLEND_ONE, D3DBLEND_ZERO, D3DBLEND_SRCALPHA, D3DBLEND_INVSRCALPHA,
    D3DBLEND_BOTHSRCALPHA]
  refine ⟨?_, ?_, ?_⟩ <;> split_ifs <;> simp_all

/-! ## Master-copy state machine -/

theorem master_set_master (d : DirectDrawSurfaceEmu) (m : Master) :
    (d.set_master m).master = m := rfl

theorem hw_surface_set_master (d : DirectDrawSurfaceEmu) (m : Master) :
    (d.set_master m).hw_surface = d.hw_surface := rfl

theorem surface_calls_set_master (d : DirectDrawSurfaceEmu) (m : Master) :
    (d.set_master m).surface_calls = d.surface_calls := rfl

theorem memory_set_master (d : DirectDrawSurfaceEmu) (m : Master) :
    (d.set_master m).memory = d.memory := rfl

theorem dwCaps_set_master (d : DirectDrawSurfaceEmu) (m : Master) :
    (d.set_master m).dwCaps = d.dwCaps := rfl

/-- Claim C17 fails as stated.  On a surface whose backend resource exists and whose master
is COMPOSITION_NONKEY, synchronize_hw with a working backend applies the composition and
returns with master = HW, not SYNCHRONIZED; the same holds for master = COMPOSITION. -/
theorem C17_counterexample :
    (back_buffer_with 1 Master.MASTER_COMPOSITION_NONKEY).master
      = Master.MASTER_COMPOSITION_NONKEY ∧
    ((back_buffer_with 1 Master.MASTER_COMPOSITION_NONKEY).synchronize_hw 2).master
      ≠ Master.MASTER_SYNCHRONIZED ∧
    ((back_buffer_with 1 Master.MASTER_COMPOSITION_NONKEY).synchronize_hw 2).master
      = Master.MASTER_HW ∧
    ((back_buffer_with 1 Master.MASTER_COMPOSITION).synchronize_hw 2).master
      = Master.MASTER_HW := by
  decide

/-- Claim C17, amended.  With resource creation succeeding: on master NONE or MEMORY
synchronize_hw returns with master = SYNCHRONIZED, creating the missing resource with the
CPU buffer as initial content unless master was NONE, or uploading the CPU buffer to the
existing resource with exactly one update_surface call; on master COMPOSITION_NONKEY or
COMPOSITION with an existing resource it applies the pending composition (for COMPOSITION
only when the key colour in memory is non-zero or the scan finds a non-zero value) and
returns with master = HW; on master HW or SYNCHRONIZED it makes no call and changes
nothing. -/
theorem C17_synchronize_hw (d : DirectDrawSurfaceEmu) (created : Nat)
    (hc : created ≠ INVALID_SURFACE_HANDLE) :
    ((d.master = Master.MASTER_HW ∨ d.master = Master.MASTER_SYNCHRONIZED) →
      d.synchronize_hw created = d) ∧
    ((d.master = Master.MASTER_NONE ∨ d.master = Master.MASTER_MEMORY) →
      d.hw_surface = INVALID_SURFACE_HANDLE →
      (d.synchronize_hw created).master = Master.MASTER_SYNCHRONIZED ∧
      (d.synchronize_hw created).hw_surface = created ∧
      (d.synchronize_hw created).hw_surface ≠ INVALID_SURFACE_HANDLE ∧
      (d.synchronize_hw created).surface_calls = d.surface_calls ++
        [SurfaceCall.create_surface
          (if d.master = Master.MASTER_NONE then none else some d.memory)
          (decide (d.dwCaps &&& DDSCAPS_3DDEVICE ≠ 0))]) ∧
    ((d.master = Master.MASTER_NONE ∨ d.master = Master.MASTER_MEMORY) →
      d.hw_surface ≠ INVALID_SURFACE_HANDLE →
      (d.synchronize_hw created).master = Master.MASTER_SYNCHRONIZED ∧
      (d.synchronize_hw created).hw_surface = d.hw_surface ∧
      (d.synchronize_hw created).surface_calls = d.surface_calls ++
        [SurfaceCall.update_surface d.hw_surface d.memory]) ∧
    ((d.master = Master.MASTER_COMPOSITION ∨ d.master = Master.MASTER_COMPOSITION_NONKEY) →
      d.hw_surface ≠ INVALID_SURFACE_HANDLE →
      (d.synchronize_hw created).master = Master.MASTER_HW ∧
      (d.synchronize_hw created).hw_surface = d.hw_surface ∧
      (d.synchronize_hw created).surface_calls = d.surface_calls ++
        (if d.master = Master.MASTER_COMPOSITION_NONKEY ∨ d.composition_needed = true then
          [SurfaceCall.compose_render_target d.hw_surface d.memory d.geometry.inside_sfad3d]
         else [])) := by
  refine ⟨?_, ?_, ?_, ?_⟩
  · intro h
    unfold DirectDrawSurfaceEmu.synchronize_hw
    rw [if_pos h]
  · intro h hs
    have h1 : ¬ (d.master = Master.MASTER_HW ∨ d.master = Master.MASTER_SYNCHRONIZED) := by
      rcases h with h | h <;> rw [h] <;> decide
    unfold DirectDrawSurfaceEmu.synchronize_hw
    rw [if_neg h1, if_pos hs]
    exact ⟨rfl, rfl, hc, rfl⟩
  · intro h hs
    have h1 : ¬ (d.master = Master.MASTER_HW ∨ d.master = Master.MASTER_SYNCHRONIZED) := by
      rcases h with h | h <;> rw [h] <;> decide
    have h2 : d.master ≠ Master.MASTER_COMPOSITION := by
      rcases h with h | h <;> rw [h] <;> decide
    have h3 : d.master ≠ Master.MASTER_COMPOSITION_NONKEY := by
      rcases h with h | h <;> rw [h] <;> decide
    unfold DirectDrawSurfaceEmu.synchronize_hw
    rw [if_neg h1, if_neg hs, if_neg h2, if_neg h3]
    exact ⟨rfl, rfl, rfl⟩
  · intro h hs
    have h1 : ¬ (d.master = Master.MASTER_HW ∨ d.master = Master.MASTER_SYNCHRONIZED) := by
      rcases h with h | h <;> rw [h] <;> decide
    unfold DirectDrawSurfaceEmu.synchronize_hw
    rw [if_neg h1, if_neg hs]
    rcases h with h | h
    · rw [if_pos h]
      have h3 : d.master ≠ Master.MASTER_COMPOSITION_NONKEY := by rw [h]; decide
      by_cases hn : d.composition_needed = true
      · simp [hn, h3, DirectDrawSurfaceEmu.compose_render_target, master_set_master,
          hw_surface_set_master, surface_calls_set_master]
      · simp [hn, h3, master_set_master, hw_surface_set_master, surface_calls_set_master]
    · have h2 : d.master ≠ Master.MASTER_COMPOSITION := by rw [h]; decide
      rw [if_neg h2, if_pos h]
      simp [h, DirectDrawSurfaceEmu.compose_render_target, master_set_master,
        hw_surface_set_master, surface_calls_set_master]

/-- Claim C17, amended, at a surface with master MEMORY and no backend resource, and at a
surface with master COMPOSITION_NONKEY and the backend resource 1. -/
theorem C17_synchronize_hw_witness :
    ((2 : Nat) ≠ INVALID_SURFACE_HANDLE) ∧
    ((back_buffer_with INVALID_SURFACE_HANDLE Master.MASTER_MEMORY).synchronize_hw 2).master
      = Master.MASTER_SYNCHRONIZED ∧
    ((back_buffer_with 1 Master.MASTER_COMPOSITION_NONKEY).synchronize_hw 2).master
      = Master.MASTER_HW ∧
    (back_buffer_with 1 Master.MASTER_HW).synchronize_hw 2 = back_buffer_with 1 Master.MASTER_HW :=
  ⟨by decide,
   ((C17_synchronize_hw (back_buffer_with INVALID_SURFACE_HANDLE Master.MASTER_MEMORY) 2
      (by decide)).2.1 (Or.inr rfl) rfl).1,
   ((C17_synchronize_hw (back_buffer_with 1 Master.MASTER_COMPOSITION_NONKEY) 2
      (by decide)).2.2.2 (Or.inr rfl) (by decide)).1,
   (C17_synchronize_hw (back_buffer_with 1 Master.MASTER_HW) 2 (by decide)).1 (Or.inl rfl)⟩

/-- Claim C18 fails on the code.  When create_surface fails (it returns
INVALID_SURFACE_HANDLE) during synchronize_hw on a surface with master MEMORY and no backend
resource, the call still assigns master = SYNCHRONIZED: the master changed although no
backend copy exists, a later synchronize_hw with a working backend returns at once without
creating the resource, and get_hw_surface hands out the invalid handle. -/
theorem C18_failed_creation_changes_master :
    (back_buffer_with INVALID_SURFACE_HANDLE Master.MASTER_MEMORY).master
      = Master.MASTER_MEMORY ∧
    ((back_buffer_with INVALID_SURFACE_HANDLE Master.MASTER_MEMORY).synchronize_hw
      INVALID_SURFACE_HANDLE).master = Master.MASTER_SYNCHRONIZED ∧
    ((back_buffer_with INVALID_SURFACE_HANDLE Master.MASTER_MEMORY).synchronize_hw
      INVALID_SURFACE_HANDLE).hw_surface = INVALID_SURFACE_HANDLE ∧
    ((back_buffer_with INVALID_SURFACE_HANDLE Master.MASTER_MEMORY).synchronize_hw
      INVALID_SURFACE_HANDLE).surface_calls
      = [SurfaceCall.create_surface (some [0, 0, 0, 0, 0, 0, 0, 0]) true] ∧
    (((back_buffer_with INVALID_SURFACE_HANDLE Master.MASTER_MEMORY).synchronize_hw
      INVALID_SURFACE_HANDLE).synchronize_hw 2).hw_surface = INVALID_SURFACE_HANDLE ∧
    (((back_buffer_with INVALID_SURFACE_HANDLE Master.MASTER_MEMORY).synchronize_hw
      INVALID_SURFACE_HANDLE).get_hw_surface false 2).1 = INVALID_SURFACE_HANDLE := by
  decide

theorem synchronize_hw_queued_geometry (d : DirectDrawSurfaceEmu) (created : Nat) :
    (d.synchronize_hw created).geometry.queued_geometry = d.geometry.queued_geometry := by
  unfold DirectDrawSurfaceEmu.synchronize_hw
  split_ifs <;> rfl

theorem flush_geometry_master (s : Surface) (h : s.queued_geometry.is_empty = false) :
    s.flush_geometry.master = Master.MASTER_HW := by
  unfold Surface.flush_geometry
  rw [if_neg (by rw [h]; decide)]
  simp only
  split <;> rfl

/-- The flush made by `Lock` never makes the CPU buffer the master. -/
theorem lock_entry_master (d : DirectDrawSurfaceEmu) (created : Nat)
    (h : (lock_entry d created).master = Master.MASTER_MEMORY) :
    d.master = Master.MASTER_MEMORY := by
  unfold lock_entry at h
  split at h
  · unfold DirectDrawSurfaceEmu.flush_geometry at h
    split at h
    · exact h
    · rename_i hne
      have hq := synchronize_hw_queued_geometry
        { d with lock_count := (d.lock_count + 1) % WORD32 } created
      have hm := flush_geometry_master
        ({ d with lock_count := (d.lock_count + 1) % WORD32 }.synchronize_hw created).geometry
        (by rw [hq]; simpa using hne)
      have h' : ({ d with lock_count := (d.lock_count + 1) % WORD32 }.synchronize_hw
          created).geometry.flush_geometry.master = Master.MASTER_MEMORY := h
      rw [hm] at h'
      exact absurd h' (by decide)
  · exact h

/-- The master that `synchronize_memory` leaves is MEMORY only if it was MEMORY. -/
theorem synchronize_memory_master (d : DirectDrawSurfaceEmu) (readback : List Nat)
    (h : (d.synchronize_memory readback).master = Master.MASTER_MEMORY) :
    d.master = Master.MASTER_MEMORY := by
  unfold DirectDrawSurfaceEmu.synchronize_memory at h
  split at h
  · exact h
  · rw [master_set_master] at h
    exact absurd h (by decide)

theorem synchronize_hw_dwCaps (d : DirectDrawSurfaceEmu) (created : Nat) :
    (d.synchronize_hw created).dwCaps = d.dwCaps := by
  unfold DirectDrawSurfaceEmu.synchronize_hw
  split_ifs <;> rfl

theorem synchronize_memory_dwCaps (d : DirectDrawSurfaceEmu) (readback : List Nat) :
    (d.synchronize_memory readback).dwCaps = d.dwCaps := by
  unfold DirectDrawSurfaceEmu.synchronize_memory
  split_ifs <;> rfl

theorem lock_entry_dwCaps (d : DirectDrawSurfaceEmu) (created : Nat) :
    (lock_entry d created).dwCaps = d.dwCaps := by
  unfold lock_entry DirectDrawSurfaceEmu.flush_geometry
  split_ifs
  · rfl
  · exact synchronize_hw_dwCaps _ _
  · rfl

/-- The ordinary path of `Lock`. -/
theorem lock_ordinary (d : DirectDrawSurfaceEmu) (rect_null : Bool)
    (flags caller caller2 created : Nat) (readback : List Nat)
    (hpath : ¬ lock_hack_applies (lock_entry d created) rect_null
      (lock_flags flags caller caller2)) :
    d.Lock true rect_null flags caller caller2 created readback =
      (HRESULT.DD_OK,
        if lock_flags flags caller caller2 &&& DDLOCK_READONLY = 0
            ∧ d.dwCaps &&& DDSCAPS_ZBUFFER = 0 then
          ((lock_entry d created).synchronize_memory readback).set_master Master.MASTER_MEMORY
        else (lock_entry d created).synchronize_memory readback) := by
  have hcaps : ((lock_entry d created).synchronize_memory readback).dwCaps = d.dwCaps := by
    rw [synchronize_memory_dwCaps, lock_entry_dwCaps]
  unfold lock_hack_applies at hpath
  unfold DirectDrawSurfaceEmu.Lock
  simp only [Bool.true_eq_false, if_false]
  have he : (if ({ d with lock_count := (d.lock_count + 1) % WORD32 } :
        DirectDrawSurfaceEmu).dwCaps &&& DDSCAPS_BACKBUFFER ≠ 0 then
      ({ d with lock_count := (d.lock_count + 1) % WORD32 } :
        DirectDrawSurfaceEmu).flush_geometry created
      else { d with lock_count := (d.lock_count + 1) % WORD32 }) = lock_entry d created := rfl
  rw [he, hcaps]
  generalize lock_entry d created = e at hpath ⊢
  generalize lock_flags flags caller caller2 = fl at hpath ⊢
  by_cases hs : e.geometry.inside_sfad3d = true
  · rw [if_neg (by rw [hs]; decide), if_neg (fun hc => hpath (Or.inr ⟨hs, hc⟩))]
    split_ifs <;> rfl
  · have hs' : e.geometry.inside_sfad3d = false := by simpa using hs
    rw [if_pos hs']
    by_cases hc : e.dwCaps &&& DDSCAPS_BACKBUFFER ≠ 0 ∧ rect_null = true
        ∧ e.master ≠ Master.MASTER_MEMORY ∧ fl = 2049
    · rw [if_pos hc]
      rw [if_neg (fun hf => hpath (Or.inl ⟨hs', hc.1, hc.2.1, hc.2.2.1, hc.2.2.2, by tauto⟩)),
        if_neg (fun hf => hpath (Or.inl ⟨hs', hc.1, hc.2.1, hc.2.2.1, hc.2.2.2, by tauto⟩))]
      split_ifs <;> rfl
    · rw [if_neg hc]
      split_ifs <;> rfl

/-- Claim C19.  On master NONE, MEMORY or SYNCHRONIZED synchronize_memory makes no backend
call and changes nothing.  On master HW, COMPOSITION or COMPOSITION_NONKEY it ends with
master = SYNCHRONIZED and the CPU buffer holding what the backend delivered, after exactly
one read_surface, preceded by exactly one compose_render_target if master was
COMPOSITION_NONKEY, or if master was COMPOSITION and the key colour in memory is non-zero
or the scan of the CPU buffer answers that it found a non-zero value, and by no compose call
otherwise. -/
theorem C19_synchronize_memory (d : DirectDrawSurfaceEmu) (readback : List Nat) :
    ((d.master = Master.MASTER_NONE ∨ d.master = Master.MASTER_MEMORY
        ∨ d.master = Master.MASTER_SYNCHRONIZED) →
      d.synchronize_memory readback = d) ∧
    ((d.master = Master.MASTER_HW ∨ d.master = Master.MASTER_COMPOSITION
        ∨ d.master = Master.MASTER_COMPOSITION_NONKEY) →
      (d.synchronize_memory readback).master = Master.MASTER_SYNCHRONIZED ∧
      (d.synchronize_memory readback).memory = readback ∧
      (d.synchronize_memory readback).hw_surface = d.hw_surface ∧
      (d.synchronize_memory readback).surface_calls = d.surface_calls ++
        (if d.master = Master.MASTER_COMPOSITION_NONKEY ∨
            (d.master = Master.MASTER_COMPOSITION ∧
              (get_composition_key_memory d.geometry.inside_sfad3d ≠ 0 ∨
               is_nonzero d.composition_compare_enabled d.memory
                ((d.dwHeight * d.lPitch) % WORD32) = true)) then
          [SurfaceCall.compose_render_target d.hw_surface d.memory d.geometry.inside_sfad3d]
         else []) ++
        [SurfaceCall.read_surface d.hw_surface]) := by
  refine ⟨?_, ?_⟩
  · intro h
    unfold DirectDrawSurfaceEmu.synchronize_memory
    rw [if_pos h]
  · intro h
    have h1 : ¬ (d.master = Master.MASTER_NONE ∨ d.master = Master.MASTER_MEMORY
        ∨ d.master = Master.MASTER_SYNCHRONIZED) := by
      rcases h with h | h | h <;> rw [h] <;> decide
    have hn : d.composition_needed = true ↔
        (get_composition_key_memory d.geometry.inside_sfad3d ≠ 0 ∨
         is_nonzero d.composition_compare_enabled d.memory
          ((d.dwHeight * d.lPitch) % WORD32) = true) := by
      unfold DirectDrawSurfaceEmu.composition_needed
      simp only [Bool.or_eq_true, decide_eq_true_eq]
    unfold DirectDrawSurfaceEmu.synchronize_memory
    rw [if_neg h1]
    rcases h with h | h | h
    · rw [if_neg (by rw [h]; decide), if_neg (by rw [h]; decide),
        if_neg (by rw [h]; rintro (hc | ⟨hc, _⟩) <;> exact absurd hc (by decide))]
      exact ⟨rfl, rfl, rfl, by simp [surface_calls_set_master]⟩
    · rw [if_pos h]
      by_cases hc : d.composition_needed = true
      · rw [if_pos hc, if_pos (Or.inr ⟨h, hn.1 hc⟩)]
        exact ⟨rfl, rfl, rfl, by simp [DirectDrawSurfaceEmu.compose_render_target, surface_calls_set_master]⟩
      · rw [if_neg hc, if_neg (by
          rintro (hk | ⟨_, hk⟩)
          · rw [h] at hk; exact absurd hk (by decide)
          · exact hc (hn.2 hk))]
        exact ⟨rfl, rfl, rfl, by simp [surface_calls_set_master]⟩
    · rw [if_neg (by rw [h]; decide), if_pos h, if_pos (Or.inl h)]
      exact ⟨rfl, rfl, rfl, by simp [DirectDrawSurfaceEmu.compose_render_target, surface_calls_set_master]⟩

/-- Claim C19 at surfaces with master MEMORY, HW and COMPOSITION_NONKEY. -/
theorem C19_synchronize_memory_witness :
    (back_buffer_with 1 Master.MASTER_MEMORY).synchronize_memory [1, 2]
      = back_buffer_with 1 Master.MASTER_MEMORY ∧
    ((back_buffer_with 1 Master.MASTER_HW).synchronize_memory [1, 2]).master
      = Master.MASTER_SYNCHRONIZED ∧
    ((back_buffer_with 1 Master.MASTER_COMPOSITION_NONKEY).synchronize_memory
        [1, 2]).surface_calls
      = [SurfaceCall.compose_render_target 1 [0, 0, 0, 0, 0, 0, 0, 0] false,
         SurfaceCall.read_surface 1] :=
  ⟨(C19_synchronize_memory (back_buffer_with 1 Master.MASTER_MEMORY) [1, 2]).1
      (Or.inr (Or.inl rfl)),
   ((C19_synchronize_memory (back_buffer_with 1 Master.MASTER_HW) [1, 2]).2 (Or.inl rfl)).1,
   ((C19_synchronize_memory (back_buffer_with 1 Master.MASTER_COMPOSITION_NONKEY) [1, 2]).2
      (Or.inr (Or.inr rfl))).2.2.2⟩

/-- Claim C25 fails as stated.  For an untextured draw the combine mode is not part of the
index, so two distinct key triples share an index; and the table holds 13 variants, not
2 x 2 x SIZE_OF_FOG + 4 = 16. -/
theorem C25_counterexample :
    (false, TextureBlend.TEXTURE_BLEND_MODULATE, Fog.FOG_NONE)
      ≠ (false, TextureBlend.TEXTURE_BLEND_MODULATEALPHA, Fog.FOG_NONE) ∧
    get_shader_index false TextureBlend.TEXTURE_BLEND_MODULATE Fog.FOG_NONE
      = get_shader_index false TextureBlend.TEXTURE_BLEND_MODULATEALPHA Fog.FOG_NONE ∧
    DX9_SHADER_VARIANT_COUNT ≠ 2 * 2 * SIZE_OF_FOG + 4 := by
  decide

/-- Claim C25, amended.  The function get_shader_index gives two key triples the same index
exactly when they agree on textured? and on the fog mode and, unless untextured, on the
combine mode; every index lies in [SHADER_GAME_BASE, DX9_SHADER_VARIANT_COUNT) and differs
from the four fixed-purpose variants; the table size is 3 x SIZE_OF_FOG + 4. -/
theorem C25_shader_index (texture texture2 : Bool) (txt_blend txt_blend2 : TextureBlend)
    (fog fog2 : Fog) :
    (get_shader_index texture txt_blend fog = get_shader_index texture2 txt_blend2 fog2 ↔
      texture = texture2 ∧ fog = fog2 ∧ (texture = false ∨ txt_blend = txt_blend2)) ∧
    SHADER_GAME_BASE ≤ get_shader_index texture txt_blend fog ∧
    get_shader_index texture txt_blend fog < DX9_SHADER_VARIANT_COUNT ∧
    get_shader_index texture txt_blend fog ≠ SHADER_PRESENT ∧
    get_shader_index texture txt_blend fog ≠ SHADER_COMPOSE ∧
    get_shader_index texture txt_blend fog ≠ SHADER_COMPOSE_NON_BLACK_KEY ∧
    get_shader_index texture txt_blend fog ≠ SHADER_COPY ∧
    DX9_SHADER_VARIANT_COUNT = 3 * SIZE_OF_FOG + 4 := by
  cases texture <;> cases texture2 <;> cases txt_blend <;> cases txt_blend2 <;>
    cases fog <;> cases fog2 <;> decide

/-- Claim C23 fails on the code.  The width 512 passes the size test and has the size index
9, which is not below SURFACE_CACHE_SIZE_SLOTS; the slot of a 512 x 512 surface of format
5:6:5 is 181 and that of format 4:4:4:4 is 182, both outside the cache array of 163 slots,
and already a 512 x 256 surface gets slot 163. -/
theorem C23_slot_outside_cache_array :
    ¬ (512 > MAX_CACHED_SURFACE_SIZE) ∧
    log2_rounded_up 512 = 9 ∧
    ¬ (log2_rounded_up 512 < SURFACE_CACHE_SIZE_SLOTS) ∧
    SURFACE_CACHE_SLOTS = 163 ∧
    get_cache_slot 512 512 HWFORMAT_R5G6B5 = 181 ∧
    get_cache_slot 512 512 HWFORMAT_R4G4B4A4 = 182 ∧
    get_cache_slot 512 256 HWFORMAT_R5G6B5 = 163 ∧
    ¬ (get_cache_slot 512 512 HWFORMAT_R5G6B5 < SURFACE_CACHE_SLOTS) := by
  decide

/-- Claim C27 fails on the code.  With the compare enabled, a block of eight bytes whose only
non-zero byte lies in the last four bytes is reported as all zero, and so is a block of four
bytes with a non-zero byte; a non-zero byte in an earlier dword is found. -/
theorem C27_last_dword_not_scanned :
    is_nonzero true [0, 0, 0, 0, 1, 0, 0, 0] 8 = false ∧
    is_nonzero true [0, 0, 0, 0, 0, 0, 0, 255] 8 = false ∧
    is_nonzero true [0, 0, 7, 0] 4 = false ∧
    is_nonzero true [1, 0, 0, 0, 0, 0, 0, 0] 8 = true ∧
    is_nonzero true [0, 0, 0, 0, 0, 0, 0, 0] 8 = false ∧
    repe_scasd [0, 0, 0, 0, 1, 0, 0, 0] 0 2 = 0 := by
  decide

/-- Claim C29 fails on the code.  After set_default_render_states the FILLMODE slot holds 2
(the value of D3DSHADE_GOURAUD, not D3DFILL_SOLID) and the SHADEMODE slot holds 3 (the value
of D3DFILL_SOLID, not D3DSHADE_GOURAUD): the two values are assigned to each other's state,
and apply_render_states reports the default FILLMODE as unsupported. -/
theorem C29_default_fill_and_shade_swapped :
    set_default_render_states.get_rs_dw D3DRENDERSTATE_FILLMODE = D3DSHADE_GOURAUD ∧
    set_default_render_states.get_rs_dw D3DRENDERSTATE_FILLMODE ≠ D3DFILL_SOLID ∧
    set_default_render_states.get_rs_dw D3DRENDERSTATE_SHADEMODE = D3DFILL_SOLID ∧
    set_default_render_states.get_rs_dw D3DRENDERSTATE_SHADEMODE ≠ D3DSHADE_GOURAUD ∧
    fillmode_reported_unsupported set_default_render_states = true := by
  decide

/-! ## Point lists and depth read-back -/

/-- The blocks drawn by the loop of draw_points cover the open block followed by the remaining
indices; no block is empty and the counts add up. -/
theorem draw_points_loop_covers (rest : List Nat) :
    ∀ base count : Nat, 1 ≤ count → base + count ≤ 65536 → (∀ i ∈ rest, i < 65536) →
      drawn_indices (draw_points_loop rest base count) = List.range' base count ++ rest ∧
      (∀ block ∈ draw_points_loop rest base count, 1 ≤ block.2) ∧
      drawn_count (draw_points_loop rest base count) = count + rest.length := by
  induction rest with
  | nil =>
    intro base count hc _ _
    have h0 : count > 0 := hc
    simp [draw_points_loop, h0, drawn_indices, drawn_count, block_indices]
    exact hc
  | cons current_index rest ih =>
    intro base count hc hb hr
    have hcur : current_index < 65536 := hr current_index (List.mem_cons_self _ _)
    have hrest : ∀ i ∈ rest, i < 65536 := fun i hi => hr i (List.mem_cons_of_mem _ hi)
    have hmod : (base + count) % WORD32 = base + count := by
      apply Nat.mod_eq_of_lt; simp only [WORD32]; omega
    have hmod1 : (count + 1) % WORD32 = count + 1 := by
      apply Nat.mod_eq_of_lt; simp only [WORD32]; omega
    by_cases heq : current_index = base + count
    · have hstep : draw_points_loop (current_index :: rest) base count
          = draw_points_loop rest base (count + 1) := by
        simp [draw_points_loop, hmod, hmod1, heq]
      rw [hstep]
      obtain ⟨h1, h2, h3⟩ := ih base (count + 1) (by omega) (by omega) hrest
      refine ⟨?_, h2, ?_⟩
      · rw [h1, List.range'_concat]
        simp
        exact heq.symm
      · rw [h3]; simp; omega
    · have hstep : draw_points_loop (current_index :: rest) base count
          = (base, count) :: draw_points_loop rest current_index 1 := by
        simp [draw_points_loop, hmod, heq]
      rw [hstep]
      obtain ⟨h1, h2, h3⟩ := ih current_index 1 (by omega) (by omega) hrest
      refine ⟨?_, ?_, ?_⟩
      · simp only [drawn_indices] at h1 ⊢
        simp only [List.map_cons, List.flatten_cons, h1, block_indices]
        simp
      · intro block hblock
        rcases List.mem_cons.mp hblock with h | h
        · rw [h]; exact hc
        · exact h2 block h
      · simp only [drawn_count] at h3 ⊢
        simp only [List.map_cons, List.sum_cons, h3]
        simp; omega

/-- Claim C28.  For an index array of unsigned shorts and a point count within it,
draw_points issues a sequence of blocks (base, count) whose expansions base, base + 1, ...,
base + count - 1, concatenated in drawing order, are the first point_count indices (the whole
list when point_count is its length); every block has count at least 1 and the counts sum to
point_count; for point_count = 0 nothing is drawn. -/
theorem C28_draw_points_covers (indices : List Nat) (point_count : Nat)
    (hshort : ∀ i ∈ indices, i < 65536) (hcount : point_count ≤ indices.length) :
    ∃ blocks, draw_points indices point_count = some blocks ∧
      drawn_indices blocks = indices.take point_count ∧
      (point_count = indices.length → drawn_indices blocks = indices) ∧
      (∀ block ∈ blocks, 1 ≤ block.2) ∧
      drawn_count blocks = point_count ∧
      (point_count = 0 → blocks = []) := by
  by_cases h0 : point_count = 0
  · refine ⟨[], ?_, ?_, ?_, ?_, ?_, ?_⟩
    · simp [draw_points, h0]
    · simp [h0, drawn_indices]
    · intro h; rw [h0] at h
      have : indices = [] := List.length_eq_zero.mp h.symm
      simp [this, drawn_indices]
    · intro block hblock; simp at hblock
    · simp [h0, drawn_count]
    · intro _; rfl
  · have hlen : ¬ indices.length < point_count := by omega
    have htake : (indices.take point_count).length = point_count := by
      simp [List.length_take]; omega
    cases hsplit : indices.take point_count with
    | nil => rw [hsplit] at htake; simp at htake; omega
    | cons first rest =>
      have hmem : ∀ i ∈ first :: rest, i < 65536 := by
        intro i hi
        rw [← hsplit] at hi
        exact hshort i (List.mem_of_mem_take hi)
      have hfirst : first < 65536 := hmem first (List.mem_cons_self _ _)
      have hrest : ∀ i ∈ rest, i < 65536 := fun i hi => hmem i (List.mem_cons_of_mem _ hi)
      obtain ⟨h1, h2, h3⟩ := draw_points_loop_covers rest first 1 (by omega) (by omega) hrest
      have hrun : draw_points indices point_count = some (draw_points_loop rest first 1) := by
        simp [draw_points, h0, hlen, hsplit]
      have hcover : drawn_indices (draw_points_loop rest first 1) = first :: rest := by
        rw [h1]; simp
      refine ⟨draw_points_loop rest first 1, hrun, hcover, ?_, h2, ?_, ?_⟩
      · intro h
        rw [hcover, ← hsplit, h, List.take_length]
      · rw [h3, ← htake, hsplit]; simp; omega
      · intro h; exact absurd h h0

/-- Witness of C28 on the indices 5, 6, 7, 2, 3, 9. -/
theorem C28_draw_points_covers_witness :
    (∀ i ∈ [5, 6, 7, 2, 3, 9], i < 65536) ∧ 6 ≤ [5, 6, 7, 2, 3, 9].length ∧
    draw_points [5, 6, 7, 2, 3, 9] 6 = some [(5, 3), (2, 2), (9, 1)] ∧
    ∃ blocks, draw_points [5, 6, 7, 2, 3, 9] 6 = some blocks ∧
      drawn_indices blocks = [5, 6, 7, 2, 3, 9].take 6 ∧
      (6 = [5, 6, 7, 2, 3, 9].length → drawn_indices blocks = [5, 6, 7, 2, 3, 9]) ∧
      (∀ block ∈ blocks, 1 ≤ block.2) ∧
      drawn_count blocks = 6 ∧
      (6 = 0 → blocks = []) :=
  ⟨by decide, by decide, by decide,
   C28_draw_points_covers [5, 6, 7, 2, 3, 9] 6 (by decide) (by decide)⟩

/-- A store of a 16-bit value changes only the two bytes it addresses. -/
theorem write_u16_other (memory memory1 : List Nat) (offset value i : Nat)
    (h : write_u16 memory offset value = some memory1) (hi : i < offset ∨ offset + 2 ≤ i) :
    memory1.get? i = memory.get? i := by
  unfold write_u16 at h
  split_ifs at h
  simp only [Option.some.injEq] at h
  rw [← h]
  simp only [List.get?_eq_getElem?]
  rw [List.getElem?_set_ne (by omega), List.getElem?_set_ne (by omega)]

/-- The inner loop of the 32-bit-float branch changes only the bytes of the texels it
stores. -/
theorem d32f_texels_other (convert : Nat → Nat) (bits : List Nat) (count : Nat) :
    ∀ (dest src : Nat) (memory : List Nat) (out : List Nat × Nat × Nat) (i : Nat),
      d32f_texels convert bits count dest src memory = some out →
      (i < dest ∨ dest + 2 * count ≤ i) → out.1.get? i = memory.get? i := by
  induction count with
  | zero =>
    intro dest src memory out i h _
    simp only [d32f_texels, Option.some.injEq] at h
    rw [← h]
  | succ count ih =>
    intro dest src memory out i h hi
    simp only [d32f_texels] at h
    cases hread : read_u32 bits src with
    | none => rw [hread] at h; simp at h
    | some texel =>
      rw [hread] at h
      simp only at h
      cases hwrite : write_u16 memory dest (convert texel) with
      | none => rw [hwrite] at h; simp at h
      | some memory1 =>
        rw [hwrite] at h
        simp only at h
        rw [ih (dest + 2) (src + 4) memory1 out i h (by omega)]
        exact write_u16_other memory memory1 dest (convert texel) i hwrite (by omega)

/-- Whatever the height, the 32-bit-float branch changes no byte of the CPU buffer beyond the
first line of texels. -/
theorem d32f_lines_other (convert : Nat → Nat) (bits : List Nat) (width stride Pitch : Nat)
    (line_dest line_src : Nat) (lines : Nat) :
    ∀ (memory out : List Nat) (i : Nat),
      d32f_lines convert bits width stride Pitch line_dest line_src lines memory = some out →
      (i < line_dest ∨ line_dest + 2 * width ≤ i) → out.get? i = memory.get? i := by
  induction lines with
  | zero =>
    intro memory out i h _
    simp only [d32f_lines, Option.some.injEq] at h
    rw [← h]
  | succ lines ih =>
    intro memory out i h hi
    simp only [d32f_lines] at h
    cases hrow : d32f_texels convert bits width line_dest line_src memory with
    | none => rw [hrow] at h; simp at h
    | some row =>
      rw [hrow] at h
      simp only at h
      rw [ih row.1 out i h hi]
      exact d32f_texels_other convert bits width line_dest line_src memory row i hrow hi

/-- Claim C30 fails on the code.  On a 32-bit-float surface of width 1 and height 2 whose two
lines hold the texels 1 and 2 (conversion taken as the low 16 bits), read_depth_surface leaves
the second destination line at its old bytes 9, 9: both passes read the first source line and
store to the first destination line.  The transfer by rows that the claim describes, and the
line loop of read_same_format used for the 16-bit format, fill both lines. -/
theorem C30_lines_not_advanced :
    read_depth_surface (fun t => t % 65536) DepthFormat.D3DFMT_D32F_LOCKABLE 1 2 2
      (some ([1, 0, 0, 0, 2, 0, 0, 0], 4)) [9, 9, 9, 9] = some [1, 0, 9, 9] ∧
    d32f_lines_by_row (fun t => t % 65536) [1, 0, 0, 0, 2, 0, 0, 0] 1 2 4 0 2 [9, 9, 9, 9]
      = some [1, 0, 2, 0] ∧
    read_depth_surface (fun t => t % 65536) DepthFormat.D3DFMT_D16_LOCKABLE 1 2 2
      (some ([1, 0, 0, 0, 2, 0, 0, 0], 4)) [9, 9, 9, 9] = some [1, 0, 2, 0] := by
  decide

/-! ## Flipping the front and the back buffer -/

/-- Claim C21 fails as stated.  A primary front buffer is flipped with a back buffer whose
master is the CPU buffer: Flip returns DD_OK, yet the front buffer ends with master
SYNCHRONIZED instead of the MEMORY the back buffer had, because an update_surface call was
made for it before the display; with a back buffer that has no backend resource the front
buffer ends with a newly created handle instead of the invalid one. -/
theorem C21_counterexample :
    (DirectDrawSurfaceEmu.Flip (some front_buffer_sample)
      (some (back_buffer_with 2 Master.MASTER_MEMORY)) false 7 9).1 = HRESULT.DD_OK ∧
    (back_buffer_with 2 Master.MASTER_MEMORY).master = Master.MASTER_MEMORY ∧
    (DirectDrawSurfaceEmu.Flip (some front_buffer_sample)
      (some (back_buffer_with 2 Master.MASTER_MEMORY)) false 7 9).2.1.map
        DirectDrawSurfaceEmu.master = some Master.MASTER_SYNCHRONIZED ∧
    (DirectDrawSurfaceEmu.Flip (some front_buffer_sample)
      (some (back_buffer_with 2 Master.MASTER_MEMORY)) false 7 9).2.1.map
        DirectDrawSurfaceEmu.surface_calls
      = some [SurfaceCall.update_surface 2 [0, 0, 0, 0, 0, 0, 0, 0],
              SurfaceCall.display_surface 2] ∧
    back_buffer_sample.hw_surface = INVALID_SURFACE_HANDLE ∧
    (DirectDrawSurfaceEmu.Flip (some front_buffer_sample)
      (some back_buffer_sample) false 7 9).2.1.map DirectDrawSurfaceEmu.hw_surface = some 9 ∧
    (DirectDrawSurfaceEmu.Flip (some front_buffer_sample)
      (some back_buffer_sample) false 7 9).2.1.map DirectDrawSurfaceEmu.surface_calls
      = some [SurfaceCall.create_surface none false, SurfaceCall.display_surface 9] := by
  decide

/-- The members of a surface after the exchanges of Flip. -/
theorem flipped_with_fields (d other : DirectDrawSurfaceEmu) :
    (d.flipped_with other).memory = other.memory ∧
    (d.flipped_with other).hw_surface = other.hw_surface ∧
    (d.flipped_with other).master = other.master ∧
    (d.flipped_with other).surface_calls = d.surface_calls ∧
    (d.flipped_with other).dwCaps = d.dwCaps :=
  ⟨rfl, rfl, rfl, rfl, rfl⟩

/-- The wait for the next scene touches none of the members exchanged by Flip. -/
theorem start_wait_for_3d_scene_fields (d : DirectDrawSurfaceEmu) (time : Nat) :
    (d.start_wait_for_3d_scene time).memory = d.memory ∧
    (d.start_wait_for_3d_scene time).hw_surface = d.hw_surface ∧
    (d.start_wait_for_3d_scene time).master = d.master ∧
    (d.start_wait_for_3d_scene time).surface_calls = d.surface_calls :=
  ⟨rfl, rfl, rfl, rfl⟩

/-- The method synchronize_hw keeps the CPU buffer. -/
theorem synchronize_hw_memory (d : DirectDrawSurfaceEmu) (created : Nat) :
    (d.synchronize_hw created).memory = d.memory := by
  unfold DirectDrawSurfaceEmu.synchronize_hw
  split_ifs <;> simp [memory_set_master, DirectDrawSurfaceEmu.compose_render_target]

/-- The method show_primary keeps the CPU buffer. -/
theorem show_primary_memory (d : DirectDrawSurfaceEmu) (created : Nat) :
    (d.show_primary created).memory = d.memory := by
  unfold DirectDrawSurfaceEmu.show_primary
  split_ifs
  · rfl
  · exact synchronize_hw_memory d created

/-- On a surface that is not primary show_primary does nothing. -/
theorem show_primary_not_primary (d : DirectDrawSurfaceEmu) (created : Nat)
    (h : d.dwCaps &&& DDSCAPS_PRIMARYSURFACE = 0) : d.show_primary created = d := by
  unfold DirectDrawSurfaceEmu.show_primary
  rw [if_pos h]

/-- On a primary surface whose backend copy is current show_primary only displays it. -/
theorem show_primary_current (d : DirectDrawSurfaceEmu) (created : Nat)
    (h : d.dwCaps &&& DDSCAPS_PRIMARYSURFACE ≠ 0)
    (hm : d.master = Master.MASTER_HW ∨ d.master = Master.MASTER_SYNCHRONIZED) :
    d.show_primary created
      = { d with surface_calls := d.surface_calls ++ [SurfaceCall.display_surface d.hw_surface] } := by
  unfold DirectDrawSurfaceEmu.show_primary
  rw [if_neg h]
  have hs : d.synchronize_hw created = d := by
    unfold DirectDrawSurfaceEmu.synchronize_hw
    rw [if_pos hm]
  simp only [hs]

/-- On a primary surface whose backend copy is not current show_primary brings it up to date
with one creating or transferring call, or with none when a keyed composition has nothing to
compose, and then displays it. -/
theorem show_primary_stale (d : DirectDrawSurfaceEmu) (created : Nat)
    (h : d.dwCaps &&& DDSCAPS_PRIMARYSURFACE ≠ 0)
    (hm : ¬ (d.master = Master.MASTER_HW ∨ d.master = Master.MASTER_SYNCHRONIZED)) :
    (d.show_primary created).master ≠ d.master ∧
    ((d.show_primary created).master = Master.MASTER_SYNCHRONIZED ∨
      (d.show_primary created).master = Master.MASTER_HW) ∧
    (d.show_primary created).hw_surface
      = (if d.hw_surface = INVALID_SURFACE_HANDLE then created else d.hw_surface) ∧
    ∃ calls : List SurfaceCall,
      (d.show_primary created).surface_calls
        = d.surface_calls ++ calls
            ++ [SurfaceCall.display_surface (d.show_primary created).hw_surface] ∧
      calls.length ≤ 1 ∧ (∀ c ∈ calls, c.is_data_copy = true) ∧
      (calls = [] → d.master = Master.MASTER_COMPOSITION ∧ d.composition_needed = false) := by
  unfold DirectDrawSurfaceEmu.show_primary
  rw [if_neg h]
  unfold DirectDrawSurfaceEmu.synchronize_hw
  rw [if_neg hm]
  push_neg at hm
  by_cases hh : d.hw_surface = INVALID_SURFACE_HANDLE
  · rw [if_pos hh, if_pos hh]
    refine ⟨?_, Or.inl rfl, rfl, ?_⟩
    · intro hc
      apply hm.2
      rw [← hc]; rfl
    · refine ⟨[SurfaceCall.create_surface
          (if d.master = Master.MASTER_NONE then none else some d.memory)
          (decide (d.dwCaps &&& DDSCAPS_3DDEVICE ≠ 0))], ?_, by simp, ?_, by simp⟩
      · simp [surface_calls_set_master, hw_surface_set_master]
      · intro c hc
        simp only [List.mem_singleton] at hc
        rw [hc]; rfl
  · rw [if_neg hh, if_neg hh]
    by_cases hc : d.master = Master.MASTER_COMPOSITION
    · rw [if_pos hc]
      by_cases hn : d.composition_needed = true
      · rw [if_pos hn]
        refine ⟨?_, Or.inr rfl, rfl, ?_⟩
        · intro he; apply hm.1; rw [← he]; rfl
        · refine ⟨[SurfaceCall.compose_render_target d.hw_surface d.memory
              d.geometry.inside_sfad3d], ?_, by simp, ?_, by simp⟩
          · simp [surface_calls_set_master, hw_surface_set_master,
              DirectDrawSurfaceEmu.compose_render_target]
          · intro c hc
            simp only [List.mem_singleton] at hc
            rw [hc]; rfl
      · rw [if_neg hn]
        refine ⟨?_, Or.inr rfl, rfl, ?_⟩
        · intro he; apply hm.1; rw [← he]; rfl
        · refine ⟨[], ?_, by simp, by simp, ?_⟩
          · simp [surface_calls_set_master, hw_surface_set_master]
          · intro _
            exact ⟨hc, by simpa using hn⟩
    · rw [if_neg hc]
      by_cases hk : d.master = Master.MASTER_COMPOSITION_NONKEY
      · rw [if_pos hk]
        refine ⟨?_, Or.inr rfl, rfl, ?_⟩
        · intro he; apply hm.1; rw [← he]; rfl
        · refine ⟨[SurfaceCall.compose_render_target d.hw_surface d.memory
              d.geometry.inside_sfad3d], ?_, by simp, ?_, by simp⟩
          · simp [surface_calls_set_master, hw_surface_set_master,
              DirectDrawSurfaceEmu.compose_render_target]
          · intro c hc
            simp only [List.mem_singleton] at hc
            rw [hc]; rfl
      · rw [if_neg hk]
        refine ⟨?_, Or.inl rfl, rfl, ?_⟩
        · intro he; apply hm.2; rw [← he]; rfl
        · refine ⟨[SurfaceCall.update_surface d.hw_surface d.memory], ?_, by simp, ?_, by simp⟩
          · simp [surface_calls_set_master, hw_surface_set_master]
          · intro c hc
            simp only [List.mem_singleton] at hc
            rw [hc]; rfl

/-- Claim C21, amended.  Flip swaps and then shows the front buffer.  With a surface override
it returns DDERR_UNSUPPORTED, with a missing front or back buffer DDERR_NOTFLIPPABLE, and both
surfaces are unchanged.  Otherwise it returns DD_OK; the back buffer holds exactly the CPU
buffer, handle and master the front buffer had and no backend call is made for it; the front
buffer holds the CPU buffer the back buffer had; if the front buffer is not primary it holds
exactly the handle and master the back buffer had and no backend call is made; if it is
primary and the back buffer's master was HW or SYNCHRONIZED the same holds apart from one
display_surface call; if it is primary and the back buffer's master was anything else, the
front buffer is brought up to date before the display: its master becomes SYNCHRONIZED or HW,
its handle is the back buffer's or a newly created one, and at most one create_surface,
update_surface or compose_render_target call precedes the display_surface call. -/
theorem C21_flip_swaps_then_shows (f b : DirectDrawSurfaceEmu) (time created : Nat) :
    (∀ front back : Option DirectDrawSurfaceEmu,
      DirectDrawSurfaceEmu.Flip front back true time created
        = (HRESULT.DDERR_UNSUPPORTED, front, back)) ∧
    (∀ front back : Option DirectDrawSurfaceEmu, front = none ∨ back = none →
      DirectDrawSurfaceEmu.Flip front back false time created
        = (HRESULT.DDERR_NOTFLIPPABLE, front, back)) ∧
    ∃ f2 b2 : DirectDrawSurfaceEmu,
      DirectDrawSurfaceEmu.Flip (some f) (some b) false time created
        = (HRESULT.DD_OK, some f2, some b2) ∧
      b2.memory = f.memory ∧ b2.hw_surface = f.hw_surface ∧ b2.master = f.master ∧
      b2.surface_calls = b.surface_calls ∧
      f2.memory = b.memory ∧
      (f.dwCaps &&& DDSCAPS_PRIMARYSURFACE = 0 →
        f2.hw_surface = b.hw_surface ∧ f2.master = b.master ∧
        f2.surface_calls = f.surface_calls) ∧
      (f.dwCaps &&& DDSCAPS_PRIMARYSURFACE ≠ 0 →
        (b.master = Master.MASTER_HW ∨ b.master = Master.MASTER_SYNCHRONIZED) →
        f2.hw_surface = b.hw_surface ∧ f2.master = b.master ∧
        f2.surface_calls = f.surface_calls ++ [SurfaceCall.display_surface b.hw_surface]) ∧
      (f.dwCaps &&& DDSCAPS_PRIMARYSURFACE ≠ 0 →
        ¬ (b.master = Master.MASTER_HW ∨ b.master = Master.MASTER_SYNCHRONIZED) →
        f2.master ≠ b.master ∧
        (f2.master = Master.MASTER_SYNCHRONIZED ∨ f2.master = Master.MASTER_HW) ∧
        f2.hw_surface
          = (if b.hw_surface = INVALID_SURFACE_HANDLE then created else b.hw_surface) ∧
        ∃ calls : List SurfaceCall,
          f2.surface_calls
            = f.surface_calls ++ calls ++ [SurfaceCall.display_surface f2.hw_surface] ∧
          calls.length ≤ 1 ∧ (∀ c ∈ calls, c.is_data_copy = true) ∧
          (calls = [] →
            b.master = Master.MASTER_COMPOSITION ∧
            (f.flipped_with b).composition_needed = false)) := by
  refine ⟨?_, ?_, ?_⟩
  · intro front back
    simp [DirectDrawSurfaceEmu.Flip]
  · intro front back h
    rcases h with h | h
    · subst h; simp [DirectDrawSurfaceEmu.Flip]
    · subst h; cases front <;> simp [DirectDrawSurfaceEmu.Flip]
  · obtain ⟨hfm, hfh, hfma, hfc, hfd⟩ := flipped_with_fields f b
    obtain ⟨hbm, hbh, hbma, hbc, _⟩ := flipped_with_fields b f
    have key : ∃ f2 b2 : DirectDrawSurfaceEmu,
        DirectDrawSurfaceEmu.Flip (some f) (some b) false time created
          = (HRESULT.DD_OK, some f2, some b2) ∧
        b2.memory = f.memory ∧ b2.hw_surface = f.hw_surface ∧ b2.master = f.master ∧
        b2.surface_calls = b.surface_calls ∧
        f2.memory = ((f.flipped_with b).show_primary created).memory ∧
        f2.hw_surface = ((f.flipped_with b).show_primary created).hw_surface ∧
        f2.master = ((f.flipped_with b).show_primary created).master ∧
        f2.surface_calls = ((f.flipped_with b).show_primary created).surface_calls := by
      by_cases hi : f.has_emulation_info = true
      · refine ⟨((f.flipped_with b).show_primary created).start_wait_for_3d_scene time,
          (b.flipped_with f).start_wait_for_3d_scene time, ?_, ?_⟩
        · simp [DirectDrawSurfaceEmu.Flip, hi]
        · exact ⟨hbm, hbh, hbma, hbc, rfl, rfl, rfl, rfl⟩
      · refine ⟨(f.flipped_with b).show_primary created, b.flipped_with f, ?_, ?_⟩
        · simp [DirectDrawSurfaceEmu.Flip, hi]
        · exact ⟨hbm, hbh, hbma, hbc, rfl, rfl, rfl, rfl⟩
    obtain ⟨f2, b2, hrun, h1, h2, h3, h4, g1, g2, g3, g4⟩ := key
    refine ⟨f2, b2, hrun, h1, h2, h3, h4, ?_, ?_, ?_, ?_⟩
    · rw [g1, show_primary_memory, hfm]
    · intro hp
      have hp2 : (f.flipped_with b).dwCaps &&& DDSCAPS_PRIMARYSURFACE = 0 := by rw [hfd]; exact hp
      rw [g2, g3, g4, show_primary_not_primary _ created hp2]
      exact ⟨hfh, hfma, hfc⟩
    · intro hp hm
      have hp2 : (f.flipped_with b).dwCaps &&& DDSCAPS_PRIMARYSURFACE ≠ 0 := by rw [hfd]; exact hp
      have hm2 : (f.flipped_with b).master = Master.MASTER_HW ∨
          (f.flipped_with b).master = Master.MASTER_SYNCHRONIZED := by rw [hfma]; exact hm
      rw [g2, g3, g4, show_primary_current _ created hp2 hm2]
      refine ⟨hfh, hfma, ?_⟩
      simp only [hfc, hfh]
    · intro hp hm
      have hp2 : (f.flipped_with b).dwCaps &&& DDSCAPS_PRIMARYSURFACE ≠ 0 := by rw [hfd]; exact hp
      have hm2 : ¬ ((f.flipped_with b).master = Master.MASTER_HW ∨
          (f.flipped_with b).master = Master.MASTER_SYNCHRONIZED) := by rw [hfma]; exact hm
      have hs := show_primary_stale (f.flipped_with b) created hp2 hm2
      rw [hfma, hfh, hfc] at hs
      rw [g2, g3, g4]
      exact hs

/-- Witness of C21 on a primary front buffer and a back buffer whose backend copy is
current. -/
theorem C21_flip_swaps_then_shows_witness :
    front_buffer_sample.dwCaps &&& DDSCAPS_PRIMARYSURFACE ≠ 0 ∧
    ((back_buffer_with 2 Master.MASTER_HW).master = Master.MASTER_HW ∨
      (back_buffer_with 2 Master.MASTER_HW).master = Master.MASTER_SYNCHRONIZED) ∧
    ∃ f2 b2 : DirectDrawSurfaceEmu,
      DirectDrawSurfaceEmu.Flip (some front_buffer_sample)
          (some (back_buffer_with 2 Master.MASTER_HW)) false 7 9
        = (HRESULT.DD_OK, some f2, some b2) ∧
      b2.hw_surface = 1 ∧ b2.master = Master.MASTER_HW ∧
      f2.hw_surface = 2 ∧ f2.master = Master.MASTER_HW ∧
      f2.surface_calls = [SurfaceCall.display_surface 2] := by
  obtain ⟨f2, b2, hrun, _, h2, h3, _, _, _, hcur, _⟩ :=
    (C21_flip_swaps_then_shows front_buffer_sample (back_buffer_with 2 Master.MASTER_HW)
      7 9).2.2
  obtain ⟨g1, g2, g3⟩ := hcur (by decide) (by decide)
  exact ⟨by decide, by decide, f2, b2, hrun, h2, h3, g1, g2, g3⟩

/-! ## Multisample copies of a render target -/

/-- Both resolve copies keep the record coherent and keep the content named by msaa_sync;
after synchronize_texture the texture holds that content. -/
theorem synchronize_respects_authority (info : HWSurfaceInfo) (h : info.Coherent) :
    info.synchronize_texture.Coherent ∧
    info.synchronize_texture.authoritative = info.authoritative ∧
    info.synchronize_texture.surface_0 = info.authoritative ∧
    info.synchronize_msaa.Coherent ∧
    info.synchronize_msaa.authoritative = info.authoritative := by
  obtain ⟨width, height, format, render_target, surface_0, msaa, sync, cache_slot, next⟩ := info
  unfold HWSurfaceInfo.Coherent at h
  cases msaa <;> cases sync <;>
    simp_all [HWSurfaceInfo.synchronize_texture, HWSurfaceInfo.synchronize_msaa,
      HWSurfaceInfo.Coherent, HWSurfaceInfo.authoritative]

/-- The three draws keep the record coherent and draw on top of the content named by
msaa_sync; a record with a multisample target is left in the state MSAA_SYNC_RT. -/
theorem draws_respect_authority (info : HWSurfaceInfo) (h : info.Coherent) (count : Nat) :
    (info.draw_triangles count).Coherent ∧
    (info.draw_triangles count).authoritative
      = Picture.drawn D3DPT_TRIANGLELIST count info.authoritative ∧
    (info.draw_lines count).Coherent ∧
    (info.draw_lines count).authoritative
      = Picture.drawn D3DPT_LINELIST count info.authoritative ∧
    (info.draw_points count).Coherent ∧
    (count ≠ 0 → (info.draw_points count).authoritative
      = Picture.drawn D3DPT_POINTLIST count info.authoritative) ∧
    (info.msaa_render_target ≠ none →
      (info.draw_triangles count).msaa_sync = MSAASync.MSAA_SYNC_RT ∧
      (info.draw_lines count).msaa_sync = MSAASync.MSAA_SYNC_RT ∧
      (count ≠ 0 → (info.draw_points count).msaa_sync = MSAASync.MSAA_SYNC_RT)) := by
  obtain ⟨width, height, format, render_target, surface_0, msaa, sync, cache_slot, next⟩ := info
  unfold HWSurfaceInfo.Coherent at h
  by_cases hc : count = 0 <;> cases msaa <;> cases sync <;>
    simp_all [HWSurfaceInfo.draw_triangles, HWSurfaceInfo.draw_lines,
      HWSurfaceInfo.draw_points, HWSurfaceInfo.upload_before_draw,
      HWSurfaceInfo.synchronize_msaa, HWSurfaceInfo.write_bound_target,
      HWSurfaceInfo.Coherent, HWSurfaceInfo.authoritative]

/-- Composition, update, read, display and bitblt keep the records coherent and act on the
content named by msaa_sync; reads deliver that content and leave it in the texture. -/
theorem transfers_respect_authority (info source : HWSurfaceInfo) (h : info.Coherent)
    (hs : source.Coherent) (memory : List Nat) (color_key hw_color_conversion : Bool)
    (x y src_x src_y src_width src_height : Nat) :
    (info.compose_render_target memory color_key true).Coherent ∧
    (info.compose_render_target memory color_key true).authoritative
      = Picture.composed memory color_key info.authoritative ∧
    (info.update_render_target memory hw_color_conversion true).Coherent ∧
    (info.update_render_target memory hw_color_conversion true).authoritative
      = Picture.updated memory ∧
    info.read_render_target.1.Coherent ∧
    info.read_render_target.2 = info.authoritative ∧
    info.read_render_target.1.authoritative = info.authoritative ∧
    info.read_render_target.1.surface_0 = info.authoritative ∧
    info.display_surface.1.Coherent ∧
    info.display_surface.2 = info.authoritative ∧
    info.display_surface.1.authoritative = info.authoritative ∧
    (info.bitblt source x y src_x src_y src_width src_height).1.authoritative
      = Picture.blitted x y src_x src_y src_width src_height source.authoritative
          info.authoritative ∧
    (info.bitblt source x y src_x src_y src_width src_height).2.Coherent ∧
    (info.bitblt source x y src_x src_y src_width src_height).2.authoritative
      = source.authoritative := by
  obtain ⟨width, height, format, render_target, surface_0, msaa, sync, cache_slot, next⟩ := info
  obtain ⟨w2, h2, f2, r2, s2, msaa2, sync2, c2, n2⟩ := source
  unfold HWSurfaceInfo.Coherent at h hs
  cases msaa <;> cases sync <;> cases msaa2 <;> cases sync2 <;> cases hw_color_conversion <;>
    simp_all [HWSurfaceInfo.compose_render_target,
      HWSurfaceInfo.compose_or_update_render_target, HWSurfaceInfo.update_render_target,
      HWSurfaceInfo.read_render_target, HWSurfaceInfo.display_surface, HWSurfaceInfo.bitblt,
      HWSurfaceInfo.synchronize_texture,
      HWSurfaceInfo.Coherent, HWSurfaceInfo.authoritative]

/-- A clear keeps the record coherent and acts on the content named by msaa_sync whenever it
clears the colour, or its rectangle is not exactly the surface, or the multisample target
already holds the latest content, or there is no multisample target. -/
theorem clear_respects_authority (info : HWSurfaceInfo) (h : info.Coherent)
    (left top right bottom : Int) (color depth has_depth_info : Bool) (color_value : Nat)
    (hcase : color = true ∨
      (left ≠ 0 ∨ right ≠ (info.width : Int) ∨ top ≠ 0 ∨ bottom ≠ (info.height : Int)) ∨
      info.msaa_sync ≠ MSAASync.MSAA_SYNC_TEXTURE ∨ info.msaa_render_target = none) :
    (info.clear left top right bottom color depth has_depth_info color_value).Coherent ∧
    (info.clear left top right bottom color depth has_depth_info color_value).authoritative
      = d3d_clear info.width info.height left top right bottom
          ((if color then D3DCLEAR_TARGET else 0)
            + (if depth && has_depth_info then D3DCLEAR_ZBUFFER else 0))
          color_value info.authoritative := by
  obtain ⟨width, height, format, render_target, surface_0, msaa, sync, cache_slot, next⟩ := info
  unfold HWSurfaceInfo.Coherent at h
  by_cases hrect : left ≠ 0 ∨ right ≠ (width : Int) ∨ top ≠ 0 ∨ bottom ≠ (height : Int)
  · cases msaa <;> cases sync <;>
      simp_all [HWSurfaceInfo.clear, HWSurfaceInfo.synchronize_msaa,
        HWSurfaceInfo.write_bound_target, HWSurfaceInfo.Coherent, HWSurfaceInfo.authoritative]
  · have hfull : left = 0 ∧ right = (width : Int) ∧ top = 0 ∧ bottom = (height : Int) := by
      push_neg at hrect; exact hrect
    obtain ⟨h1, h2, h3, h4⟩ := hfull
    subst h1 h2 h3 h4
    cases msaa <;> cases sync <;> cases color <;> cases depth <;> cases has_depth_info <;>
      simp_all [HWSurfaceInfo.clear, HWSurfaceInfo.synchronize_msaa,
        HWSurfaceInfo.write_bound_target, HWSurfaceInfo.Coherent, HWSurfaceInfo.authoritative,
        d3d_clear, D3DCLEAR_TARGET, D3DCLEAR_ZBUFFER]

/-- Claim C26 fails on the code.  A render target whose texture holds the latest content
(state MSAA_SYNC_TEXTURE, multisample target not yet written) receives a clear of exactly the
whole surface with the depth flag only.  The colour content is not touched by such a clear,
yet the state becomes MSAA_SYNC_RT without the copy to the multisample target: the copy named
as latest is the blank multisample target, a following read_render_target resolves it over
the texture and delivers it, and a following draw goes on top of it.  With a rectangle one
line short of the surface the copy is made and the latest content stays the uploaded one. -/
theorem C26_depth_only_clear_moves_authority :
    render_target_sample.Coherent ∧
    render_target_sample.msaa_sync = MSAASync.MSAA_SYNC_TEXTURE ∧
    render_target_sample.authoritative = Picture.updated [1, 2, 3, 4] ∧
    d3d_clear 640 480 0 0 640 480 D3DCLEAR_ZBUFFER 0 (Picture.updated [1, 2, 3, 4])
      = Picture.updated [1, 2, 3, 4] ∧
    (render_target_sample.clear 0 0 640 480 false true true 0).msaa_sync
      = MSAASync.MSAA_SYNC_RT ∧
    (render_target_sample.clear 0 0 640 480 false true true 0).msaa_render_target
      = some Picture.blank ∧
    (render_target_sample.clear 0 0 640 480 false true true 0).authoritative
      = Picture.blank ∧
    (render_target_sample.clear 0 0 640 480 false true true 0).read_render_target.2
      = Picture.blank ∧
    (render_target_sample.clear 0 0 640 480 false true true 0).read_render_target.1.surface_0
      = Picture.blank ∧
    ((render_target_sample.clear 0 0 640 480 false true true 0).draw_triangles 1).authoritative
      = Picture.drawn D3DPT_TRIANGLELIST 1 Picture.blank ∧
    (render_target_sample.clear 0 0 640 479 false true true 0).authoritative
      = Picture.updated [1, 2, 3, 4] := by
  decide

/-- A chain that starts at the null address is empty. -/
theorem IsChain_null (infos : Nat → Option HWSurfaceInfo) (l : List Nat)
    (h : DX9HWLayer.IsChain infos 0 l) : l = [] := by
  cases l with
  | nil => rfl
  | cons x xs =>
    obtain ⟨h1, h2, _⟩ := h
    exact absurd h1.symm h2

/-- A chain is kept by a change of a record that is not on it. -/
theorem IsChain_update (infos : Nat → Option HWSurfaceInfo) (a : Nat)
    (v : Option HWSurfaceInfo) (l : List Nat) :
    ∀ head, DX9HWLayer.IsChain infos head l → a ∉ l →
      DX9HWLayer.IsChain (Function.update infos a v) head l := by
  induction l with
  | nil => intro head h _; exact h
  | cons x xs ih =>
    intro head h ha
    obtain ⟨h1, h2, r, hr, hrest⟩ := h
    have hxa : x ≠ a := fun e => ha (by rw [e]; exact List.mem_cons_self _ _)
    refine ⟨h1, h2, r, ?_, ih _ hrest (fun hm => ha (List.mem_cons_of_mem _ hm))⟩
    rw [Function.update_noteq hxa]
    exact hr

/-- Linking a record with null successor behind the last record of a chain extends the
chain by that record. -/
theorem IsChain_append (infos : Nat → Option HWSurfaceInfo) (surface : Nat)
    (r : HWSurfaceInfo) (hsurface : surface ≠ 0) (hr : infos surface = some r)
    (hnext : r.next_in_cache = 0) (y : Nat) (ys : List Nat) :
    ∀ head, DX9HWLayer.IsChain infos head (y :: ys) → (y :: ys).Nodup → surface ∉ y :: ys →
      ∃ last, infos ((y :: ys).getLast?.getD 0) = some last ∧
        DX9HWLayer.IsChain
          (Function.update infos ((y :: ys).getLast?.getD 0)
            (some { last with next_in_cache := surface }))
          head (y :: ys ++ [surface]) := by
  induction ys generalizing y with
  | nil =>
    intro head h _ hs
    obtain ⟨h1, h2, r0, hr0, hrest⟩ := h
    have hsy : surface ≠ y := fun e => hs (by rw [e]; exact List.mem_cons_self _ _)
    refine ⟨r0, by simpa using hr0, ?_⟩
    simp only [List.getLast?_singleton, Option.getD_some, List.singleton_append]
    refine ⟨h1, h2, { r0 with next_in_cache := surface }, by simp, ?_⟩
    refine ⟨rfl, hsurface, r, ?_, ?_⟩
    · rw [Function.update_noteq hsy]; exact hr
    · rw [hnext]; rfl
  | cons z zs ih =>
    intro head h hnd hs
    obtain ⟨h1, h2, r0, hr0, hrest⟩ := h
    have hnd2 : (z :: zs).Nodup := (List.nodup_cons.mp hnd).2
    have hs2 : surface ∉ z :: zs := fun hm => hs (List.mem_cons_of_mem _ hm)
    obtain ⟨last, hlast, hchain⟩ := ih z _ hrest hnd2 hs2
    have hlasteq : (y :: z :: zs).getLast?.getD 0 = (z :: zs).getLast?.getD 0 := by
      simp [List.getLast?_cons_cons]
    have hmem : (z :: zs).getLast?.getD 0 ∈ z :: zs := by
      have : (z :: zs).getLast? = some ((z :: zs).getLast (by simp)) :=
        List.getLast?_eq_getLast _ _
      rw [this]
      exact List.getLast_mem _
    have hy : y ≠ (z :: zs).getLast?.getD 0 := by
      intro e
      exact (List.nodup_cons.mp hnd).1 (by rw [e]; exact hmem)
    refine ⟨last, by rw [hlasteq]; exact hlast, ?_⟩
    rw [hlasteq]
    refine ⟨h1, h2, r0, ?_, hchain⟩
    rw [Function.update_noteq hy]
    exact hr0

/-! ## The surface cache -/

/-- The upload into a record changes neither its size, format and kind nor its place in the
cache. -/
theorem update_surface_keeps (info : HWSurfaceInfo) (memory : List Nat)
    (hw_color_conversion lock_ok : Bool) :
    (info.update_surface memory hw_color_conversion lock_ok).width = info.width ∧
    (info.update_surface memory hw_color_conversion lock_ok).height = info.height ∧
    (info.update_surface memory hw_color_conversion lock_ok).format = info.format ∧
    (info.update_surface memory hw_color_conversion lock_ok).render_target
      = info.render_target ∧
    (info.update_surface memory hw_color_conversion lock_ok).cache_slot = info.cache_slot ∧
    (info.update_surface memory hw_color_conversion lock_ok).next_in_cache
      = info.next_in_cache := by
  obtain ⟨width, height, format, render_target, surface_0, msaa, sync, cache_slot, next⟩ := info
  by_cases hf : format = HWFORMAT_ZBUFFER <;> cases msaa <;> cases hw_color_conversion <;>
    cases lock_ok <;> cases render_target <;>
    simp [HWSurfaceInfo.update_surface, HWSurfaceInfo.update_render_target,
      HWSurfaceInfo.compose_or_update_render_target, hf]

/-- The optional upload of create_surface changes neither the size, format and kind of a
record nor its place in the cache. -/
theorem optional_upload_keeps (info : HWSurfaceInfo) (memory : Option (List Nat))
    (hw_color_conversion lock_ok : Bool) :
    (match memory with
      | some m => info.update_surface m hw_color_conversion lock_ok
      | none => info).width = info.width ∧
    (match memory with
      | some m => info.update_surface m hw_color_conversion lock_ok
      | none => info).height = info.height ∧
    (match memory with
      | some m => info.update_surface m hw_color_conversion lock_ok
      | none => info).format = info.format ∧
    (match memory with
      | some m => info.update_surface m hw_color_conversion lock_ok
      | none => info).render_target = info.render_target ∧
    (match memory with
      | some m => info.update_surface m hw_color_conversion lock_ok
      | none => info).cache_slot = info.cache_slot ∧
    (match memory with
      | some m => info.update_surface m hw_color_conversion lock_ok
      | none => info).next_in_cache = info.next_in_cache := by
  cases memory with
  | none => exact ⟨rfl, rfl, rfl, rfl, rfl, rfl⟩
  | some m => exact update_surface_keeps info m hw_color_conversion lock_ok

/-- The queues of a cache hold each record in one bucket only. -/
theorem CacheIs_disjoint (L : DX9HWLayer) (queue : Nat → List Nat) (h : L.CacheIs queue)
    (s1 s2 a : Nat) (h1 : a ∈ queue s1) (h2 : a ∈ queue s2) : s1 = s2 := by
  obtain ⟨r1, hr1, hc1⟩ := h.slot_of s1 a h1
  obtain ⟨r2, hr2, hc2⟩ := h.slot_of s2 a h2
  rw [hr1] at hr2
  cases hr2
  rw [← hc1, ← hc2]

/-- After initialisation every bucket is the empty queue. -/
theorem initial_CacheIs (surface_cache_enabled multisample hw_color_conversion : Bool) :
    (DX9HWLayer.initial surface_cache_enabled multisample hw_color_conversion).CacheIs
      (fun _ => []) := by
  refine ⟨?_, ?_, rfl, ?_, ?_, ?_, ?_⟩
  · intro slot c hc
    simp only [DX9HWLayer.initial, List.get?_eq_getElem?] at hc
    rw [List.getElem?_replicate] at hc
    split_ifs at hc
    cases hc
    exact ⟨rfl, rfl⟩
  · intro _ _; rfl
  · intro _; exact List.nodup_nil
  · intro slot a ha; simp at ha
  · intro a r hr; simp [DX9HWLayer.initial] at hr
  · intro a r hr; simp [DX9HWLayer.initial] at hr

/-- A new record at an address that holds no live record leaves every bucket as it is,
provided it has a null successor and, if it is a render target or a depth record, the cache
slot 0. -/
theorem CacheIs_new_record (L : DX9HWLayer) (queue : Nat → List Nat) (h : L.CacheIs queue)
    (fresh : Nat) (hfresh : L.infos fresh = none) (info : HWSurfaceInfo)
    (hnext : info.next_in_cache = 0)
    (htarget : info.render_target = true ∨ info.format = HWFORMAT_ZBUFFER →
      info.cache_slot = 0) :
    DX9HWLayer.CacheIs { L with infos := Function.update L.infos fresh (some info) } queue := by
  have hnot : ∀ slot, fresh ∉ queue slot := by
    intro slot hm
    obtain ⟨r, hr, _⟩ := h.slot_of slot fresh hm
    rw [hfresh] at hr
    cases hr
  refine ⟨?_, h.outside, h.first, h.nodup, ?_, ?_, ?_⟩
  · intro slot c hc
    obtain ⟨h1, h2⟩ := h.chain slot c hc
    exact ⟨IsChain_update _ _ _ _ _ h1 (hnot slot), h2⟩
  · intro slot a ha
    obtain ⟨r, hr, hs⟩ := h.slot_of slot a ha
    have hne : a ≠ fresh := fun e => hnot slot (by rw [← e]; exact ha)
    exact ⟨r, by simp only [Function.update_noteq hne]; exact hr, hs⟩
  · intro a r hr hq
    by_cases hne : a = fresh
    · subst hne
      simp only [Function.update_same, Option.some.injEq] at hr
      rw [← hr]; exact hnext
    · simp only [Function.update_noteq hne] at hr
      exact h.free_next a r hr hq
  · intro a r hr
    by_cases hne : a = fresh
    · subst hne
      simp only [Function.update_same, Option.some.injEq] at hr
      rw [← hr]; exact htarget
    · simp only [Function.update_noteq hne] at hr
      exact h.targets a r hr

/-- The unbinding that opens destroy_surface touches neither the records nor the cache. -/
theorem unbind_keeps (L : DX9HWLayer) (surface : Nat) :
    (L.unbind surface).infos = L.infos ∧ (L.unbind surface).cache = L.cache := by
  unfold DX9HWLayer.unbind
  dsimp only
  split_ifs <;> exact ⟨rfl, rfl⟩

/-- The description of the buckets depends on the records and on the array only. -/
theorem CacheIs_congr (L L2 : DX9HWLayer) (queue : Nat → List Nat)
    (hinfos : L2.infos = L.infos) (hcache : L2.cache = L.cache) (h : L.CacheIs queue) :
    L2.CacheIs queue := by
  obtain ⟨h1, h2, h3, h4, h5, h6, h7⟩ := h
  refine ⟨?_, ?_, h3, h4, ?_, ?_, ?_⟩
  · rw [hinfos, hcache]; exact h1
  · rw [hcache]; exact h2
  · rw [hinfos]; exact h5
  · rw [hinfos]; exact h6
  · rw [hinfos]; exact h7

/-- The records of a chain are not at the null address. -/
theorem IsChain_mem_ne_zero (infos : Nat → Option HWSurfaceInfo) (l : List Nat) :
    ∀ head, DX9HWLayer.IsChain infos head l → ∀ a ∈ l, a ≠ 0 := by
  induction l with
  | nil => intro _ _ a ha; simp at ha
  | cons x xs ih =>
    intro head h a ha
    obtain ⟨_, h2, r, _, hrest⟩ := h
    rcases List.mem_cons.mp ha with e | hm
    · rw [e]; exact h2
    · exact ih _ hrest a hm

/-- Membership in the queues after one queue has been replaced. -/
theorem mem_update_queue (queue : Nat → List Nat) (s : Nat) (l : List Nat) (slot a : Nat) :
    a ∈ Function.update queue s l slot ↔ (slot = s ∧ a ∈ l) ∨ (slot ≠ s ∧ a ∈ queue slot) := by
  by_cases h : slot = s
  · subst h; simp
  · simp [Function.update_noteq h, h]

/-- Retiring a handed-out record into its bucket appends it to the queue of that bucket. -/
theorem destroy_surface_appends (L : DX9HWLayer) (queue : Nat → List Nat)
    (h : L.CacheIs queue) (surface : Nat) (r : HWSurfaceInfo)
    (hout : L.HandedOut queue surface) (hr : L.infos surface = some r)
    (hslot : r.cache_slot ≠ 0) (hrange : r.cache_slot < L.cache.length) :
    ∃ L2, L.destroy_surface surface = some L2 ∧
      L2.CacheIs (Function.update queue r.cache_slot (queue r.cache_slot ++ [surface])) := by
  obtain ⟨hsurface, -, hfree⟩ := hout
  obtain ⟨hui, huc⟩ := unbind_keeps L surface
  have hU : (L.unbind surface).CacheIs queue := CacheIs_congr L _ queue hui huc h
  have hrU : (L.unbind surface).infos surface = some r := by rw [hui]; exact hr
  have hrangeU : r.cache_slot < (L.unbind surface).cache.length := by rw [huc]; exact hrange
  unfold DX9HWLayer.destroy_surface
  dsimp only
  generalize L.unbind surface = U at hU hrU hrangeU
  clear hui huc h hr hrange L
  have hget : U.cache.get? r.cache_slot = some (U.cache.get ⟨r.cache_slot, hrangeU⟩) := by
    simp [List.get?_eq_getElem?, List.getElem?_eq_getElem hrangeU]
  generalize U.cache.get ⟨r.cache_slot, hrangeU⟩ = c at hget
  obtain ⟨hchain, htail⟩ := hU.chain r.cache_slot c hget
  have hnext : r.next_in_cache = 0 := hU.free_next surface r hrU hfree
  rw [hrU]
  simp only [hslot, ne_eq, not_false_eq_true, if_true, hget]
  have hlen : ∀ v, (U.cache.set r.cache_slot v).length = U.cache.length :=
    fun v => List.length_set _ _ _
  have hgetset : ∀ v slot c2, (U.cache.set r.cache_slot v).get? slot = some c2 →
      (slot = r.cache_slot ∧ c2 = v) ∨ (slot ≠ r.cache_slot ∧ U.cache.get? slot = some c2) := by
    intro v slot c2 hc2
    simp only [List.get?_eq_getElem?] at hc2 ⊢
    by_cases hs : slot = r.cache_slot
    · subst hs
      rw [List.getElem?_set_self hrangeU] at hc2
      simp only [Option.some.injEq] at hc2
      exact Or.inl ⟨rfl, hc2.symm⟩
    · rw [List.getElem?_set_ne (fun e => hs e.symm)] at hc2
      exact Or.inr ⟨hs, hc2⟩
  have hnotin : surface ∉ queue r.cache_slot := hfree r.cache_slot
  cases hq : queue r.cache_slot with
  | nil =>
    rw [hq] at hchain htail
    simp only [DX9HWLayer.IsChain] at hchain
    simp only [List.getLast?_nil, Option.getD_none] at htail
    rw [if_neg (by simpa using htail)]
    refine ⟨_, rfl, ?_⟩
    refine ⟨?_, ?_, ?_, ?_, ?_, ?_, ?_⟩
    · intro slot c2 hc2
      rcases hgetset _ slot c2 hc2 with ⟨hs, hv⟩ | ⟨hs, hv⟩
      · subst hs hv
        simp only [Function.update_same, List.nil_append, List.getLast?_singleton,
          Option.getD_some, and_true]
        exact ⟨rfl, hsurface, r, hrU, by rw [hnext]; rfl⟩
      · rw [Function.update_noteq hs]
        exact hU.chain slot c2 hv
    · intro slot hs
      rw [hlen] at hs
      rw [Function.update_noteq (by omega)]
      exact hU.outside slot hs
    · rw [Function.update_noteq (fun e => hslot e.symm)]
      exact hU.first
    · intro slot
      by_cases hs : slot = r.cache_slot
      · subst hs; simp
      · rw [Function.update_noteq hs]; exact hU.nodup slot
    · intro slot a ha
      rcases (mem_update_queue _ _ _ _ _).mp ha with ⟨hs, hm⟩ | ⟨_, hm⟩
      · simp only [List.nil_append, List.mem_singleton] at hm
        subst hm
        exact ⟨r, hrU, hs.symm⟩
      · exact hU.slot_of slot a hm
    · intro a r2 hr2 hq2
      apply hU.free_next a r2 hr2
      intro slot hm
      by_cases hs : slot = r.cache_slot
      · subst hs; rw [hq] at hm; simp at hm
      · exact hq2 slot ((mem_update_queue _ _ _ _ _).mpr (Or.inr ⟨hs, hm⟩))
    · exact hU.targets
  | cons y ys =>
    rw [hq] at hchain htail hnotin
    have hnd : (y :: ys).Nodup := by rw [← hq]; exact hU.nodup r.cache_slot
    obtain ⟨last, hlast, hchain2⟩ :=
      IsChain_append U.infos surface r hsurface hrU hnext y ys c.head hchain hnd hnotin
    rw [← htail] at hlast hchain2
    have htmem : c.tail ∈ queue r.cache_slot := by
      rw [hq, htail]
      have : (y :: ys).getLast? = some ((y :: ys).getLast (by simp)) :=
        List.getLast?_eq_getLast _ _
      rw [this]
      exact List.getLast_mem _
    have htne : c.tail ≠ 0 :=
      IsChain_mem_ne_zero U.infos (y :: ys) c.head hchain c.tail (by rw [← hq]; exact htmem)
    have hst : surface ≠ c.tail := fun e => hfree r.cache_slot (by rw [e]; exact htmem)
    rw [if_pos htne, hlast]
    refine ⟨_, rfl, ?_⟩
    have hsame : ∀ a r0, U.infos a = some r0 →
        ∃ r1, Function.update U.infos c.tail (some { last with next_in_cache := surface }) a
            = some r1 ∧
          r1.cache_slot = r0.cache_slot ∧ r1.render_target = r0.render_target ∧
          r1.format = r0.format := by
      intro a r0 hr0
      by_cases ha : a = c.tail
      · subst ha
        rw [hlast] at hr0
        cases hr0
        exact ⟨_, Function.update_same _ _ _, rfl, rfl, rfl⟩
      · exact ⟨r0, by rw [Function.update_noteq ha]; exact hr0, rfl, rfl, rfl⟩
    have hback : ∀ a r1,
        Function.update U.infos c.tail (some { last with next_in_cache := surface }) a
            = some r1 →
        ∃ r0, U.infos a = some r0 ∧
          r1.cache_slot = r0.cache_slot ∧ r1.render_target = r0.render_target ∧
          r1.format = r0.format ∧ (a ≠ c.tail → r1 = r0) := by
      intro a r1 hr1
      by_cases ha : a = c.tail
      · subst ha
        simp only [Function.update_same, Option.some.injEq] at hr1
        subst hr1
        exact ⟨last, hlast, rfl, rfl, rfl, fun e => absurd rfl e⟩
      · rw [Function.update_noteq ha] at hr1
        exact ⟨r1, hr1, rfl, rfl, rfl, fun _ => rfl⟩
    refine ⟨?_, ?_, ?_, ?_, ?_, ?_, ?_⟩
    · intro slot c2 hc2
      rcases hgetset _ slot c2 hc2 with ⟨hs, hv⟩ | ⟨hs, hv⟩
      · subst hs hv
        simp only [Function.update_same]
        refine ⟨hchain2, ?_⟩
        show surface = ((y :: ys) ++ [surface]).getLast?.getD 0
        rw [List.getLast?_concat]
        rfl
      · rw [Function.update_noteq hs]
        obtain ⟨h1, h2⟩ := hU.chain slot c2 hv
        refine ⟨IsChain_update _ _ _ _ _ h1 ?_, h2⟩
        intro hm
        exact hs (CacheIs_disjoint U queue hU _ _ _ hm htmem)
    · intro slot hs
      rw [hlen] at hs
      rw [Function.update_noteq (by omega)]
      exact hU.outside slot hs
    · rw [Function.update_noteq (fun e => hslot e.symm)]
      exact hU.first
    · intro slot
      by_cases hs : slot = r.cache_slot
      · subst hs
        simp only [Function.update_same]
        rw [List.nodup_append]
        refine ⟨hnd, List.nodup_singleton _, ?_⟩
        intro a ha hb
        simp only [List.mem_singleton] at hb
        subst hb
        exact hnotin ha
      · rw [Function.update_noteq hs]; exact hU.nodup slot
    · intro slot a ha
      rcases (mem_update_queue _ _ _ _ _).mp ha with ⟨hs, hm⟩ | ⟨_, hm⟩
      · rcases List.mem_append.mp hm with hm1 | hm1
        · obtain ⟨r0, hr0, hc0⟩ := hU.slot_of r.cache_slot a (by rw [hq]; exact hm1)
          obtain ⟨r1, hr1, hc1, _, _⟩ := hsame a r0 hr0
          exact ⟨r1, hr1, by rw [hc1, hc0, hs]⟩
        · simp only [List.mem_singleton] at hm1
          subst hm1
          exact ⟨r, by dsimp only; rw [Function.update_noteq hst]; exact hrU, hs.symm⟩
      · obtain ⟨r0, hr0, hc0⟩ := hU.slot_of slot a hm
        obtain ⟨r1, hr1, hc1, _, _⟩ := hsame a r0 hr0
        exact ⟨r1, hr1, by rw [hc1, hc0]⟩
    · intro a r2 hr2 hq2
      have hat : a ≠ c.tail := by
        intro e
        apply hq2 r.cache_slot
        rw [Function.update_same, e]
        exact List.mem_append_left _ (by rw [← hq]; exact htmem)
      obtain ⟨r0, hr0, _, _, _, heq⟩ := hback a r2 hr2
      rw [heq hat]
      apply hU.free_next a r0 hr0
      intro slot hm
      by_cases hs : slot = r.cache_slot
      · subst hs
        apply hq2 r.cache_slot
        rw [Function.update_same]
        exact List.mem_append_left _ (by rw [← hq]; exact hm)
      · exact hq2 slot ((mem_update_queue _ _ _ _ _).mpr (Or.inr ⟨hs, hm⟩))
    · intro a r1 hr1
      obtain ⟨r0, hr0, hc, hrt, hf, _⟩ := hback a r1 hr1
      rw [hc, hrt, hf]
      exact hU.targets a r0 hr0

/-- Destroying a handed-out record of cache slot 0 deletes it and leaves every bucket as it
is. -/
theorem destroy_surface_deletes (L : DX9HWLayer) (queue : Nat → List Nat)
    (h : L.CacheIs queue) (surface : Nat) (r : HWSurfaceInfo)
    (hout : L.HandedOut queue surface) (hr : L.infos surface = some r)
    (hslot : r.cache_slot = 0) :
    ∃ L2, L.destroy_surface surface = some L2 ∧ L2.CacheIs queue ∧
      L2.infos surface = none := by
  obtain ⟨hsurface, -, hfree⟩ := hout
  obtain ⟨hui, huc⟩ := unbind_keeps L surface
  have hU : (L.unbind surface).CacheIs queue := CacheIs_congr L _ queue hui huc h
  have hrU : (L.unbind surface).infos surface = some r := by rw [hui]; exact hr
  unfold DX9HWLayer.destroy_surface
  dsimp only
  generalize L.unbind surface = U at hU hrU
  clear hui huc h hr L
  rw [hrU]
  simp only [hslot, ne_eq, not_true_eq_false, if_false]
  refine ⟨_, rfl, ?_, by simp⟩
  refine ⟨?_, hU.outside, hU.first, hU.nodup, ?_, ?_, ?_⟩
  · intro slot c hc
    obtain ⟨h1, h2⟩ := hU.chain slot c hc
    exact ⟨IsChain_update _ _ _ _ _ h1 (hfree slot), h2⟩
  · intro slot a ha
    obtain ⟨r0, hr0, hs⟩ := hU.slot_of slot a ha
    have hne : a ≠ surface := fun e => hfree slot (by rw [← e]; exact ha)
    exact ⟨r0, by dsimp only; rw [Function.update_noteq hne]; exact hr0, hs⟩
  · intro a r2 hr2 hq
    by_cases hne : a = surface
    · subst hne
      simp at hr2
    · dsimp only at hr2
      rw [Function.update_noteq hne] at hr2
      exact hU.free_next a r2 hr2 hq
  · intro a r2 hr2
    by_cases hne : a = surface
    · subst hne
      simp at hr2
    · dsimp only at hr2
      rw [Function.update_noteq hne] at hr2
      exact hU.targets a r2 hr2

/-- Unlinking the head of a bucket leaves the rest of its queue; the record, with a null
successor, is in no bucket afterwards. -/
theorem CacheIs_pop (L : DX9HWLayer) (queue : Nat → List Nat) (h : L.CacheIs queue)
    (s : Nat) (c : CacheSlot) (x : Nat) (xs : List Nat) (r info2 : HWSurfaceInfo)
    (hslot : s ≠ 0) (hrange : s < L.cache.length) (hget : L.cache.get? s = some c)
    (hq : queue s = x :: xs) (hx : x ≠ 0) (hr : L.infos x = some r)
    (hrest : DX9HWLayer.IsChain L.infos r.next_in_cache xs)
    (htail : c.tail = (x :: xs).getLast?.getD 0)
    (hnext2 : info2.next_in_cache = 0) (hslot2 : info2.cache_slot = r.cache_slot)
    (hrt2 : info2.render_target = r.render_target) (hf2 : info2.format = r.format) :
    DX9HWLayer.CacheIs
      { L with infos := Function.update L.infos x (some info2),
               cache := L.cache.set s
                 { head := r.next_in_cache,
                   tail := if r.next_in_cache = 0 then 0 else c.tail } }
      (Function.update queue s xs) ∧
    DX9HWLayer.HandedOut
      { L with infos := Function.update L.infos x (some info2),
               cache := L.cache.set s
                 { head := r.next_in_cache,
                   tail := if r.next_in_cache = 0 then 0 else c.tail } }
      (Function.update queue s xs) x := by
  have hnd : (x :: xs).Nodup := by rw [← hq]; exact h.nodup s
  have hxs : x ∉ xs := (List.nodup_cons.mp hnd).1
  have hxmem : x ∈ queue s := by rw [hq]; exact List.mem_cons_self _ _
  have hxother : ∀ slot, slot ≠ s → x ∉ queue slot :=
    fun slot hs hm => hs (CacheIs_disjoint L queue h _ _ _ hm hxmem)
  have hxnew : ∀ slot, x ∉ Function.update queue s xs slot := by
    intro slot hm
    rcases (mem_update_queue _ _ _ _ _).mp hm with ⟨_, hm1⟩ | ⟨hs, hm1⟩
    · exact hxs hm1
    · exact hxother slot hs hm1
  refine ⟨⟨?_, ?_, ?_, ?_, ?_, ?_, ?_⟩, hx, ⟨info2, by simp⟩, hxnew⟩
  · intro slot c2 hc2
    dsimp only at hc2 ⊢
    simp only [List.get?_eq_getElem?] at hc2
    by_cases hs : slot = s
    · subst hs
      rw [List.getElem?_set_self hrange] at hc2
      simp only [Option.some.injEq] at hc2
      subst hc2
      simp only [Function.update_same]
      refine ⟨IsChain_update _ _ _ _ _ hrest hxs, ?_⟩
      cases xs with
      | nil =>
        simp only [DX9HWLayer.IsChain] at hrest
        simp [hrest]
      | cons z zs =>
        obtain ⟨hz, hz0, _⟩ := hrest
        rw [if_neg (by rw [hz]; exact hz0), htail]
        simp [List.getLast?_cons_cons]
    · rw [List.getElem?_set_ne (fun e => hs e.symm)] at hc2
      rw [Function.update_noteq hs]
      obtain ⟨h1, h2⟩ := h.chain slot c2 (by simpa [List.get?_eq_getElem?] using hc2)
      exact ⟨IsChain_update _ _ _ _ _ h1 (hxother slot hs), h2⟩
  · intro slot hs
    dsimp only at hs
    rw [List.length_set] at hs
    rw [Function.update_noteq (by omega)]
    exact h.outside slot hs
  · rw [Function.update_noteq (fun e => hslot e.symm)]
    exact h.first
  · intro slot
    by_cases hs : slot = s
    · subst hs
      rw [Function.update_same]
      exact (List.nodup_cons.mp hnd).2
    · rw [Function.update_noteq hs]; exact h.nodup slot
  · intro slot a ha
    have hax : a ≠ x := fun e => hxnew slot (by rw [← e]; exact ha)
    have ham : a ∈ queue slot := by
      rcases (mem_update_queue _ _ _ _ _).mp ha with ⟨hs, hm1⟩ | ⟨_, hm1⟩
      · rw [hs, hq]; exact List.mem_cons_of_mem _ hm1
      · exact hm1
    obtain ⟨r0, hr0, hc0⟩ := h.slot_of slot a ham
    exact ⟨r0, by dsimp only; rw [Function.update_noteq hax]; exact hr0, hc0⟩
  · intro a r2 hr2 hq2
    dsimp only at hr2
    by_cases hax : a = x
    · subst hax
      simp only [Function.update_same, Option.some.injEq] at hr2
      rw [← hr2]; exact hnext2
    · rw [Function.update_noteq hax] at hr2
      apply h.free_next a r2 hr2
      intro slot hm
      by_cases hs : slot = s
      · subst hs
        rw [hq] at hm
        rcases List.mem_cons.mp hm with e | hm1
        · exact hax e
        · exact hq2 slot ((mem_update_queue _ _ _ _ _).mpr (Or.inl ⟨rfl, hm1⟩))
      · exact hq2 slot ((mem_update_queue _ _ _ _ _).mpr (Or.inr ⟨hs, hm⟩))
  · intro a r2 hr2
    dsimp only at hr2
    by_cases hax : a = x
    · subst hax
      simp only [Function.update_same, Option.some.injEq] at hr2
      rw [← hr2, hslot2, hrt2, hf2]
      exact h.targets a r hr
    · rw [Function.update_noteq hax] at hr2
      exact h.targets a r2 hr2

/-- A request that is no render target and whose bucket is not empty takes the head of the
bucket: the record is returned, leaves the queue and is in no bucket afterwards. -/
theorem create_surface_pops (L : DX9HWLayer) (queue : Nat → List Nat) (h : L.CacheIs queue)
    (width height format : Nat) (memory : Option (List Nat)) (device_ok : Bool)
    (fresh x : Nat) (xs : List Nat)
    (hformat : format ≠ HWFORMAT_ZBUFFER) (henabled : L.surface_cache_enabled = true)
    (hq : queue (get_cache_slot width height format) = x :: xs) :
    ∃ L2, L.create_surface width height format memory false device_ok fresh = some (x, L2) ∧
      L2.CacheIs (Function.update queue (get_cache_slot width height format) xs) ∧
      L2.HandedOut (Function.update queue (get_cache_slot width height format) xs) x := by
  have hslot : get_cache_slot width height format ≠ 0 := by
    intro e
    rw [e, h.first] at hq
    cases hq
  have hrange : get_cache_slot width height format < L.cache.length := by
    by_contra hc
    rw [h.outside _ (by omega)] at hq
    cases hq
  have hcs : (!false && L.surface_cache_enabled) = true := by simp [henabled]
  unfold DX9HWLayer.create_surface
  rw [if_neg hformat]
  simp only [hcs, if_true]
  generalize get_cache_slot width height format = s at hslot hrange hq
  have hget : L.cache.get? s = some (L.cache.get ⟨s, hrange⟩) := by
    simp [List.get?_eq_getElem?, List.getElem?_eq_getElem hrange]
  generalize L.cache.get ⟨s, hrange⟩ = c at hget
  obtain ⟨hchain, htail⟩ := h.chain s c hget
  rw [hq] at hchain htail
  obtain ⟨hhead, hx, r, hr, hrest⟩ := hchain
  have hnd : (x :: xs).Nodup := by rw [← hq]; exact h.nodup s
  have hxs : x ∉ xs := (List.nodup_cons.mp hnd).1
  rw [if_pos hslot, hget]
  simp only [hhead, hx, ne_eq, not_false_eq_true, if_true, hr]
  cases memory with
  | none =>
    obtain ⟨h1, h2⟩ := CacheIs_pop L queue h s c x xs r { r with next_in_cache := 0 }
      hslot hrange hget hq hx hr hrest htail rfl rfl rfl rfl
    exact ⟨_, rfl, h1, h2⟩
  | some m =>
    obtain ⟨_, _, k3, k4, k5, k6⟩ :=
      update_surface_keeps { r with next_in_cache := 0 } m L.hw_color_conversion device_ok
    obtain ⟨h1, h2⟩ := CacheIs_pop L queue h s c x xs r
      (HWSurfaceInfo.update_surface { r with next_in_cache := 0 } m L.hw_color_conversion
        device_ok)
      hslot hrange hget hq hx hr hrest htail k6 k5 k4 k3
    exact ⟨_, rfl, h1, h2⟩

/-- A request for a render target or a depth surface, a request made with the cache disabled,
and a request whose bucket is empty or is the slot 0 create a record at a new address and
leave every bucket as it is; the new record is in no bucket, and a render target or depth
record carries the cache slot 0. -/
theorem create_surface_new (L : DX9HWLayer) (queue : Nat → List Nat) (h : L.CacheIs queue)
    (width height format : Nat) (memory : Option (List Nat)) (render_target device_ok : Bool)
    (fresh : Nat) (hfresh : L.infos fresh = none) (hfresh0 : fresh ≠ 0)
    (hcase : render_target = true ∨ format = HWFORMAT_ZBUFFER ∨
      L.surface_cache_enabled = false ∨ get_cache_slot width height format = 0 ∨
      (get_cache_slot width height format < L.cache.length ∧
        queue (get_cache_slot width height format) = [])) :
    ∃ handle L2,
      L.create_surface width height format memory render_target device_ok fresh
        = some (handle, L2) ∧
      L2.CacheIs queue ∧
      (device_ok = false → handle = 0) ∧
      (device_ok = true → handle = fresh ∧ L2.HandedOut queue fresh ∧
        ∃ r2, L2.infos fresh = some r2 ∧ r2.width = width ∧ r2.height = height ∧
          r2.format = format ∧
          (render_target = true ∨ format = HWFORMAT_ZBUFFER → r2.cache_slot = 0)) := by
  have hnot : ∀ slot, fresh ∉ queue slot := by
    intro slot hm
    obtain ⟨r, hr, _⟩ := h.slot_of slot fresh hm
    rw [hfresh] at hr
    cases hr
  by_cases hz : format = HWFORMAT_ZBUFFER
  · unfold DX9HWLayer.create_surface
    rw [if_pos hz]
    unfold DX9HWLayer.create_depth_surface
    cases device_ok with
    | false =>
      refine ⟨0, L, rfl, h, fun _ => rfl, fun e => (by cases e)⟩
    | true =>
      refine ⟨fresh, _, rfl, ?_, (fun e => (by cases e)), fun _ => ⟨rfl, ?_, ?_⟩⟩
      · exact CacheIs_new_record L queue h fresh hfresh _ rfl (fun _ => rfl)
      · exact ⟨hfresh0, ⟨_, Function.update_same _ _ _⟩, hnot⟩
      · exact ⟨_, Function.update_same _ _ _, rfl, rfl, hz.symm, fun _ => rfl⟩
  · unfold DX9HWLayer.create_surface
    rw [if_neg hz]
    dsimp only
    generalize hcs : (if (!render_target && L.surface_cache_enabled) = true then
      get_cache_slot width height format else 0) = cs
    have hcs_rt : render_target = true → cs = 0 := by
      intro e; rw [← hcs, e]; simp
    have hpath : cs = 0 ∨ (cs ≠ 0 ∧ ∃ c, L.cache.get? cs = some c ∧ c.head = 0) := by
      by_cases hcs0 : cs = 0
      · exact Or.inl hcs0
      · right
        refine ⟨hcs0, ?_⟩
        have hcond : (!render_target && L.surface_cache_enabled) = true := by
          by_contra hc
          rw [if_neg hc] at hcs
          exact hcs0 hcs.symm
        rw [if_pos hcond] at hcs
        rcases hcase with e | e | e | e | ⟨e1, e2⟩
        · simp [e] at hcond
        · exact absurd e hz
        · simp [e] at hcond
        · exact absurd (hcs ▸ e) hcs0
        · rw [hcs] at e1 e2
          have hget : L.cache.get? cs = some (L.cache.get ⟨cs, e1⟩) := by
            simp [List.get?_eq_getElem?, List.getElem?_eq_getElem e1]
          refine ⟨_, hget, ?_⟩
          obtain ⟨hchain, _⟩ := h.chain cs _ hget
          rw [e2] at hchain
          exact hchain
    obtain ⟨k1, k2, k3, k4, k5, k6⟩ := optional_upload_keeps
      { width := width, height := height, format := format, render_target := render_target,
        surface_0 := Picture.blank,
        msaa_render_target :=
          if (render_target && L.multisample) = true then some Picture.blank else none,
        msaa_sync := MSAASync.MSAA_SYNC_TEXTURE, cache_slot := cs, next_in_cache := 0 }
      memory L.hw_color_conversion device_ok
    rcases hpath with hcs0 | ⟨hne, c, hc1, hc2⟩
    on_goal 1 => rw [if_neg (fun hne => hne hcs0)]
    on_goal 2 => rw [if_pos hne, hc1]; dsimp only; rw [if_neg (fun hne => hne hc2)]
    all_goals
      cases device_ok with
      | false =>
        exact ⟨0, L, rfl, h, fun _ => rfl, fun e => (by cases e)⟩
      | true =>
        refine ⟨fresh, _, rfl, ?_, (fun e => (by cases e)), fun _ => ⟨rfl, ?_, ?_⟩⟩
        · refine CacheIs_new_record L queue h fresh hfresh _ k6 ?_
          intro ht
          rcases ht with ht | ht
          · exact k5.trans (hcs_rt (k4.symm.trans ht ▸ rfl))
          · exact absurd (k3.symm.trans ht) hz
        · exact ⟨hfresh0, ⟨_, Function.update_same _ _ _⟩, hnot⟩
        · refine ⟨_, Function.update_same _ _ _, k1, k2, k3, ?_⟩
          intro ht
          rcases ht with ht | ht
          · exact k5.trans (hcs_rt ht)
          · exact absurd ht hz

/-- Let the buckets of the cache be described by queues of distinct records (the description
holds after initialisation with empty queues) and let the cache slots used lie inside the
array.  Then destroy_surface of a handed-out record with a non-zero cache slot appends it to
the queue of its bucket; destroy_surface of a record with cache slot 0 deletes it and leaves
every queue; create_surface for a request that is no render target and whose bucket has the
queue x :: xs returns x, leaves xs in the bucket, and x is in no queue afterwards;
create_surface for a render target, a depth surface, with the cache disabled, or with an
empty bucket leaves every queue and returns a record at a new address, which carries the
cache slot 0 if it is a render target or a depth record; the records in the queues are never
render targets or depth records, are live, and each is in one queue, once.  Every resulting
layer is described by the stated queues again. -/
theorem cache_buckets_are_queues (L : DX9HWLayer) (queue : Nat → List Nat)
    (h : L.CacheIs queue) :
    (∀ e m c, (DX9HWLayer.initial e m c).CacheIs no_queue) ∧
    (∀ surface r, L.HandedOut queue surface → L.infos surface = some r →
      r.cache_slot ≠ 0 → r.cache_slot < L.cache.length →
      ∃ L2, L.destroy_surface surface = some L2 ∧
        L2.CacheIs (Function.update queue r.cache_slot (queue r.cache_slot ++ [surface]))) ∧
    (∀ surface r, L.HandedOut queue surface → L.infos surface = some r → r.cache_slot = 0 →
      ∃ L2, L.destroy_surface surface = some L2 ∧ L2.CacheIs queue ∧
        L2.infos surface = none) ∧
    (∀ width height format memory device_ok fresh x xs,
      format ≠ HWFORMAT_ZBUFFER → L.surface_cache_enabled = true →
      queue (get_cache_slot width height format) = x :: xs →
      ∃ L2,
        L.create_surface width height format memory false device_ok fresh = some (x, L2) ∧
        L2.CacheIs (Function.update queue (get_cache_slot width height format) xs) ∧
        L2.HandedOut (Function.update queue (get_cache_slot width height format) xs) x) ∧
    (∀ width height format memory render_target device_ok fresh,
      L.infos fresh = none → fresh ≠ 0 →
      (render_target = true ∨ format = HWFORMAT_ZBUFFER ∨
        L.surface_cache_enabled = false ∨ get_cache_slot width height format = 0 ∨
        (get_cache_slot width height format < L.cache.length ∧
          queue (get_cache_slot width height format) = [])) →
      ∃ handle L2,
        L.create_surface width height format memory render_target device_ok fresh
          = some (handle, L2) ∧
        L2.CacheIs queue ∧
        (device_ok = false → handle = 0) ∧
        (device_ok = true → handle = fresh ∧ L2.HandedOut queue fresh ∧
          ∃ r2, L2.infos fresh = some r2 ∧ r2.width = width ∧ r2.height = height ∧
            r2.format = format ∧
            (render_target = true ∨ format = HWFORMAT_ZBUFFER → r2.cache_slot = 0))) ∧
    (∀ slot a, a ∈ queue slot →
      slot ≠ 0 ∧ ∃ r, L.infos a = some r ∧ r.cache_slot = slot ∧
        r.render_target = false ∧ r.format ≠ HWFORMAT_ZBUFFER) ∧
    (∀ slot, (queue slot).Nodup) ∧
    (∀ s1 s2 a, a ∈ queue s1 → a ∈ queue s2 → s1 = s2) := by
  refine ⟨?_, ?_, ?_, ?_, ?_, ?_, h.nodup, ?_⟩
  · intro e m c
    exact initial_CacheIs e m c
  · intro surface r hout hr hslot hrange
    exact destroy_surface_appends L queue h surface r hout hr hslot hrange
  · intro surface r hout hr hslot
    exact destroy_surface_deletes L queue h surface r hout hr hslot
  · intro width height format memory device_ok fresh x xs hformat henabled hq
    exact create_surface_pops L queue h width height format memory device_ok fresh x xs
      hformat henabled hq
  · intro width height format memory render_target device_ok fresh hfresh hfresh0 hcase
    exact create_surface_new L queue h width height format memory render_target device_ok
      fresh hfresh hfresh0 hcase
  · intro slot a ha
    have hs : slot ≠ 0 := by
      intro e
      rw [e, h.first] at ha
      simp at ha
    obtain ⟨r, hr, hc⟩ := h.slot_of slot a ha
    refine ⟨hs, r, hr, hc, ?_, ?_⟩
    · by_contra hrt
      have : r.render_target = true := by simpa using hrt
      exact hs (hc ▸ h.targets a r hr (Or.inl this))
    · intro hf
      exact hs (hc ▸ h.targets a r hr (Or.inr hf))
  · intro s1 s2 a h1 h2
    exact CacheIs_disjoint L queue h s1 s2 a h1 h2

/-- Claim C22 fails on the code.  The requests for 512 x 128 and for 1 x 256 texels of format
5:6:5 both get the slot 145, which lies inside the cache array, so the slot does not
determine the size; a texture of 512 x 128 texels that was destroyed is returned by
create_surface for a request of 1 x 256 texels, with its width 512 and height 128. -/
theorem C22_bucket_key_collision :
    get_cache_slot 512 128 HWFORMAT_R5G6B5 = 145 ∧
    get_cache_slot 1 256 HWFORMAT_R5G6B5 = 145 ∧
    145 < SURFACE_CACHE_SLOTS ∧
    (cache_with_retired_512_by_128.cache.get? 145).map CacheSlot.head = some 1 ∧
    (cache_with_retired_512_by_128.create_surface 1 256 HWFORMAT_R5G6B5 none false true 2).map
      Prod.fst = some 1 ∧
    ((cache_with_retired_512_by_128.create_surface 1 256 HWFORMAT_R5G6B5 none false true
      2).bind (fun p => p.2.infos p.1)).map (fun i => (i.width, i.height, i.format))
      = some (512, 128, HWFORMAT_R5G6B5) := by
  decide

/-- A run inside the array.  The empty cache is described by empty queues; two textures of
256 x 256 texels are created at the addresses 1 and 2 and destroyed in the order 2, 1; the
bucket 161 then holds the queue 2, 1, and the next two requests of that size get the record 2
and then the record 1. -/
theorem cache_buckets_are_queues_run :
    (DX9HWLayer.initial true false false).CacheIs no_queue ∧
    cache_with_two_textures.CacheIs no_queue ∧
    cache_with_two_retired.CacheIs
      (Function.update (Function.update no_queue 161 [2]) 161 [2, 1]) ∧
    ∃ L5 L6,
      cache_with_two_retired.create_surface 256 256 HWFORMAT_R5G6B5 none false true 3
        = some (2, L5) ∧
      L5.CacheIs (Function.update (Function.update (Function.update no_queue 161 [2]) 161
        [2, 1]) 161 [1]) ∧
      L5.create_surface 256 256 HWFORMAT_R5G6B5 none false true 3 = some (1, L6) ∧
      L6.CacheIs (Function.update (Function.update (Function.update (Function.update no_queue
        161 [2]) 161 [2, 1]) 161 [1]) 161 []) := by
  have inv0 := initial_CacheIs true false false
  have hlen0 : SURFACE_CACHE_SLOTS = (DX9HWLayer.initial true false false).cache.length :=
    (List.length_replicate _ _).symm
  -- the two creations
  obtain ⟨handle1, L1, e1, inv1, -, -⟩ :=
    (cache_buckets_are_queues _ _ inv0).2.2.2.2.1 256 256 HWFORMAT_R5G6B5 none false true 1
      rfl (by decide) (Or.inr (Or.inr (Or.inr (Or.inr ⟨hlen0 ▸ (by decide), rfl⟩))))
  have r1 : (DX9HWLayer.initial true false false).create_surface 256 256 HWFORMAT_R5G6B5 none
      false true 1
      = some (1, (DX9HWLayer.initial true false false).created 256 256 HWFORMAT_R5G6B5 1) :=
    rfl
  rw [r1] at e1
  obtain ⟨-, rfl⟩ := Prod.mk.inj (Option.some.inj e1)
  have hlen1 : SURFACE_CACHE_SLOTS
      = ((DX9HWLayer.initial true false false).created 256 256 HWFORMAT_R5G6B5 1).cache.length :=
    (List.length_replicate _ _).symm
  obtain ⟨handle2, L2, e2, inv2, -, -⟩ :=
    (cache_buckets_are_queues _ _ inv1).2.2.2.2.1 256 256 HWFORMAT_R5G6B5 none false true 2
      rfl (by decide) (Or.inr (Or.inr (Or.inr (Or.inr ⟨hlen1 ▸ (by decide), rfl⟩))))
  have r2 : ((DX9HWLayer.initial true false false).created 256 256 HWFORMAT_R5G6B5
      1).create_surface 256 256 HWFORMAT_R5G6B5 none false true 2
      = some (2, cache_with_two_textures) := rfl
  rw [r2] at e2
  obtain ⟨-, rfl⟩ := Prod.mk.inj (Option.some.inj e2)
  -- the two destructions, in the order 2, 1
  have hout2 : cache_with_two_textures.HandedOut no_queue 2 :=
    ⟨by decide, ⟨texture_256_record, rfl⟩, fun slot hm => by simp [no_queue] at hm⟩
  have hlen2 : SURFACE_CACHE_SLOTS = cache_with_two_textures.cache.length :=
    (List.length_replicate _ _).symm
  obtain ⟨L3, e3, inv3⟩ :=
    (cache_buckets_are_queues _ _ inv2).2.1 2 texture_256_record hout2 rfl (by decide)
      (hlen2 ▸ (by decide))
  have r3 : cache_with_two_textures.destroy_surface 2
      = some (cache_with_two_textures.destroyed 2) := rfl
  rw [r3] at e3
  obtain rfl := Option.some.inj e3
  have hout3 : (cache_with_two_textures.destroyed 2).HandedOut
      (Function.update no_queue texture_256_record.cache_slot
        (no_queue texture_256_record.cache_slot ++ [2])) 1 := by
    refine ⟨by decide, ⟨texture_256_record, rfl⟩, ?_⟩
    intro slot hm
    rcases (mem_update_queue _ _ _ _ _).mp hm with ⟨_, hm1⟩ | ⟨_, hm1⟩
    · simp [no_queue] at hm1
    · simp [no_queue] at hm1
  have hlen3 : (cache_with_two_textures.destroyed 2).cache.length = SURFACE_CACHE_SLOTS :=
    (List.length_set _ _ _).trans (List.length_replicate _ _)
  obtain ⟨L4, e4, inv4⟩ :=
    (cache_buckets_are_queues _ _ inv3).2.1 1 texture_256_record hout3 rfl (by decide)
      (hlen3 ▸ (by decide))
  have r4 : (cache_with_two_textures.destroyed 2).destroy_surface 1
      = some cache_with_two_retired := rfl
  rw [r4] at e4
  obtain rfl := Option.some.inj e4
  -- the two requests served from the bucket
  obtain ⟨L5, e5, inv5, -⟩ :=
    (cache_buckets_are_queues _ _ inv4).2.2.2.1 256 256 HWFORMAT_R5G6B5 none true 3 2 [1]
      (by decide) rfl (by decide)
  have r5 : cache_with_two_retired.create_surface 256 256 HWFORMAT_R5G6B5 none false true 3
      = some (2, cache_with_two_retired.created 256 256 HWFORMAT_R5G6B5 3) := rfl
  rw [r5] at e5
  obtain ⟨-, rfl⟩ := Prod.mk.inj (Option.some.inj e5)
  obtain ⟨L6, e6, inv6, -⟩ :=
    (cache_buckets_are_queues _ _ inv5).2.2.2.1 256 256 HWFORMAT_R5G6B5 none true 3 1 []
      (by decide) rfl (by decide)
  exact ⟨inv0, inv2, inv4, _, L6, r5, inv5, e6, inv6⟩

/-- Claim C24 fails on the code.  A texture of 512 x 512 texels of format 5:6:5 is cacheable:
it is no render target and its cache slot 181 is not 0.  The slot is not below the 163
buckets of the array, so create_surface for such a request reads a bucket head outside the
array, and destroy_surface of such a record, which is live and in no bucket, links it into a
bucket outside the array: the call has no defined result and the record is appended to none
of the 163 queues. -/
theorem C24_cacheable_record_has_no_bucket :
    get_cache_slot 512 512 HWFORMAT_R5G6B5 = 181 ∧
    SURFACE_CACHE_SLOTS = 163 ∧
    cache_with_512_texture.cache.length = SURFACE_CACHE_SLOTS ∧
    cache_with_512_texture.cache.get? 181 = none ∧
    ((DX9HWLayer.initial true false false).create_surface 512 512 HWFORMAT_R5G6B5 none false
      true 1).isNone = true ∧
    (cache_with_512_texture.infos 1).map
        (fun i => (i.render_target, i.cache_slot, i.next_in_cache))
      = some (false, 181, 0) ∧
    (cache_with_512_texture.destroy_surface 1).isNone = true := by
  refine ⟨by decide, by decide, ?_, ?_, by decide, by decide, by decide⟩
  · exact List.length_replicate _ _
  · have hlen : cache_with_512_texture.cache.length = SURFACE_CACHE_SLOTS :=
      List.length_replicate _ _
    rw [List.get?_eq_none]
    rw [hlen]
    decide

/-! ## The zero scan in general -/

/-- The scan leaves a non-zero count exactly when a dword other than the last one scanned
differs from zero: the count is decremented for the dword that stops the scan as well. -/
theorem repe_scasd_ne_zero_iff (memory : List Nat) (ecx : Nat) :
    ∀ edi, repe_scasd memory edi ecx ≠ 0 ↔
      ∃ k, k + 1 < ecx ∧ (read_u32 memory (edi + 4 * k)).getD 0 ≠ 0 := by
  induction ecx with
  | zero =>
    intro edi
    simp [repe_scasd]
  | succ n ih =>
    intro edi
    unfold repe_scasd
    by_cases h0 : (read_u32 memory edi).getD 0 = 0
    · rw [if_pos h0, ih (edi + 4)]
      constructor
      · rintro ⟨k, hk, hv⟩
        refine ⟨k + 1, by omega, ?_⟩
        have : edi + 4 * (k + 1) = edi + 4 + 4 * k := by ring
        rw [this]; exact hv
      · rintro ⟨k, hk, hv⟩
        cases k with
        | zero => simp at hv; exact absurd h0 hv
        | succ j =>
          refine ⟨j, by omega, ?_⟩
          have : edi + 4 * (j + 1) = edi + 4 + 4 * j := by ring
          rw [← this]; exact hv
    · rw [if_neg h0]
      constructor
      · intro hn
        exact ⟨0, by omega, by simpa using h0⟩
      · rintro ⟨k, hk, _⟩
        omega

/-- With the compare enabled and a size that is a multiple of four, is_nonzero answers true
exactly when one of the dwords before the last one differs from zero. -/
theorem is_nonzero_iff (memory : List Nat) (memory_size : Nat) (h4 : memory_size % 4 = 0) :
    is_nonzero true memory memory_size = true ↔
      ∃ k, k + 1 < memory_size / 4 ∧ (read_u32 memory (4 * k)).getD 0 ≠ 0 := by
  unfold is_nonzero
  simp only [Bool.not_true, Bool.false_eq_true, if_false, h4, ne_eq, not_true_eq_false,
    decide_eq_true_eq]
  rw [← ne_eq, repe_scasd_ne_zero_iff memory (memory_size / 4) 0]
  simp

/-! ## Cache slot numbers below the size limit -/

set_option maxRecDepth 20000 in
/-- For a size of at most 512 that passes the power-of-two test of get_cache_slot, the size
index is its exponent, and it is below SURFACE_CACHE_SIZE_SLOTS unless the size is 512. -/
theorem log2_rounded_up_of_power (value : Nat) (h : value ≤ MAX_CACHED_SURFACE_SIZE)
    (hp : (1 <<< log2_rounded_up value) % WORD32 = value) :
    value = 2 ^ log2_rounded_up value ∧
    (value < 512 → log2_rounded_up value < SURFACE_CACHE_SIZE_SLOTS) ∧
    (value = 512 → log2_rounded_up value = SURFACE_CACHE_SIZE_SLOTS) := by
  have key : ∀ v, v < 513 → (1 <<< log2_rounded_up v) % WORD32 = v →
      v = 2 ^ log2_rounded_up v ∧
      (v < 512 → log2_rounded_up v < SURFACE_CACHE_SIZE_SLOTS) ∧
      (v = 512 → log2_rounded_up v = SURFACE_CACHE_SIZE_SLOTS) := by
    decide
  exact key value (by simp only [MAX_CACHED_SURFACE_SIZE] at h; omega) hp

/-- A non-zero slot is the packed triple of the format index and the two size exponents. -/
theorem get_cache_slot_ne_zero (width height format : Nat)
    (h : get_cache_slot width height format ≠ 0) :
    HWFORMAT_R5G6B5 ≤ format ∧ format ≤ HWFORMAT_R4G4B4A4 ∧
    width ≤ MAX_CACHED_SURFACE_SIZE ∧ height ≤ MAX_CACHED_SURFACE_SIZE ∧
    (1 <<< log2_rounded_up width) % WORD32 = width ∧
    (1 <<< log2_rounded_up height) % WORD32 = height ∧
    get_cache_slot width height format
      = (((log2_rounded_up height * SURFACE_CACHE_SIZE_SLOTS) + log2_rounded_up width)
          * SURFACE_CACHE_FORMAT_SLOTS + (format - HWFORMAT_R5G6B5) + 1) % WORD32 := by
  unfold get_cache_slot at h ⊢
  simp only [HWFORMAT_R5G6B5, HWFORMAT_R4G4B4A4, SURFACE_CACHE_FORMAT_SLOTS,
    MAX_CACHED_SURFACE_SIZE] at h ⊢
  split_ifs at h ⊢ <;> first | exact absurd rfl h | (refine ⟨?_, ?_, ?_, ?_, ?_, ?_, rfl⟩ <;> omega)

/-- For sizes below 512 the cache slot lies inside the cache array and determines the
request: two requests with the same non-zero slot have the same width, height and format. -/
theorem get_cache_slot_below_512 (width height format width2 height2 format2 : Nat)
    (hw : width < 512) (hh : height < 512) (hw2 : width2 < 512) (hh2 : height2 < 512) :
    get_cache_slot width height format < SURFACE_CACHE_SLOTS ∧
    (get_cache_slot width height format ≠ 0 →
      get_cache_slot width height format = get_cache_slot width2 height2 format2 →
      width = width2 ∧ height = height2 ∧ format = format2) := by
  have hbound : ∀ w h f, w < 512 → h < 512 → get_cache_slot w h f ≠ 0 →
      ∃ i j k, i < 9 ∧ j < 9 ∧ k < 2 ∧ w = 2 ^ i ∧ h = 2 ^ j ∧ f = k + 1 ∧
        get_cache_slot w h f = ((j * 9) + i) * 2 + k + 1 := by
    intro w h f hw hh hne
    obtain ⟨f1, f2, w1, h1, pw, ph, hval⟩ := get_cache_slot_ne_zero w h f hne
    obtain ⟨ew, bw, -⟩ := log2_rounded_up_of_power w w1 pw
    obtain ⟨eh, bh, -⟩ := log2_rounded_up_of_power h h1 ph
    have bw2 := bw hw
    have bh2 := bh hh
    simp only [HWFORMAT_R5G6B5, HWFORMAT_R4G4B4A4, SURFACE_CACHE_SIZE_SLOTS,
      SURFACE_CACHE_FORMAT_SLOTS, WORD32] at f1 f2 bw2 bh2 hval
    refine ⟨log2_rounded_up w, log2_rounded_up h, f - 1, bw2, bh2, by omega, ew, eh,
      by omega, ?_⟩
    rw [hval]
    omega
  constructor
  · by_cases hne : get_cache_slot width height format = 0
    · rw [hne]; decide
    · obtain ⟨i, j, k, hi, hj, hk, -, -, -, hval⟩ := hbound width height format hw hh hne
      rw [hval]
      simp only [SURFACE_CACHE_SLOTS, SURFACE_CACHE_FORMAT_SLOTS, SURFACE_CACHE_SIZE_SLOTS,
        HWFORMAT_R4G4B4A4, HWFORMAT_R5G6B5]
      omega
  · intro hne heq
    have hne2 : get_cache_slot width2 height2 format2 ≠ 0 := by rw [← heq]; exact hne
    obtain ⟨i, j, k, hi, hj, hk, ew, eh, ef, hval⟩ := hbound width height format hw hh hne
    obtain ⟨i2, j2, k2, hi2, hj2, hk2, ew2, eh2, ef2, hval2⟩ :=
      hbound width2 height2 format2 hw2 hh2 hne2
    rw [hval, hval2] at heq
    have e1 : i = i2 := by omega
    have e2 : j = j2 := by omega
    have e3 : k = k2 := by omega
    subst e1 e2 e3
    exact ⟨ew.trans ew2.symm, eh.trans eh2.symm, ef.trans ef2.symm⟩

end emu
